import Mathlib

/-!
# react-animation-orchestrator: a shallow embedding of `src/src/ReactAnimationOrchestrator.js`

The module keeps three process-wide registries (`components`, `timelines`, `scenarios`)
and three counters.  They are gathered in one `State` record that every operation
receives and returns.  JavaScript objects used as maps are association lists in
insertion order (which is the order `Object.values` enumerates string keys that are
not array indices, as is the case for component ids such as `Foo_3`).
The maps are object literals, so the operator `in` and a read `map[key]` also find the
names inherited from `Object.prototype` (`inherited`); the keys of the two animation
sets are request ids, which are numbers.  Numbers are integers (no `NaN`, no signed
zero).
User-supplied functions (selectors, predicates, resolvers, generators) are pure Lean
functions; user callbacks are recorded as events instead of being run.
-/

set_option autoImplicit false

namespace AnimationOrchestrator

/-! ## JavaScript values -/

/-- A JavaScript value.  Objects and functions are represented by their identity. -/
inductive Val where
  | undefined
  | null
  | bool (b : Bool)
  | num (n : Int)
  | str (s : String)
  | obj (ref : Nat)
  deriving DecidableEq, Repr

/-- The truthiness of a value, as tested by `if (v)`, `!v`, `a && b` and `Array.prototype.find`. -/
def Val.truthy : Val → Bool
  | .undefined => false
  | .null => false
  | .bool b => b
  | .num n => n != 0
  | .str s => s != ""
  | .obj _ => true

/-- The operator `a === b`: equal primitives, or the very same object. -/
def strictEq (a b : Val) : Bool := decide (a = b)

/-- A props object: its own keys with their values. -/
abbrev Props := List (String × Val)

/-- The test `key in props`. -/
def Props.has (props : Props) (key : String) : Bool :=
  props.any (fun kv => kv.1 == key)

/-- The read `props.key` (`undefined` when the key is absent). -/
def Props.get (props : Props) (key : String) : Val :=
  match props.lookup key with
  | some v => v
  | none => Val.undefined

/-- A value that the source accepts either alone or as an array
(`Array.isArray(x) ? x : [x]`). -/
inductive OneOrMany (α : Type) where
  | one (a : α)
  | many (l : List α)

/-- The normalisation `Array.isArray(x) ? x : [x]`. -/
def OneOrMany.toArray {α : Type} : OneOrMany α → List α
  | .one a => [a]
  | .many l => l

/-! ## Triggers and scenarios -/

/-- A trigger specification: the object form `{select, value, nextValue}` or a predicate
called with `(wrappedComponentRef.current, prevProps, nextProps)`. -/
inductive TriggerConfig where
  | object (select : Props → Val) (value nextValue : Val)
  | function (f : Val → Props → Props → Val)

/-- An animation config object.  A field that is `none` is absent from the object.
`transformed` is the truthiness of the `__transformed` marker. -/
structure AnimObj where
  id : Option Nat := none
  position : Option Val := none
  animation : Option String := none
  immediate : Bool := false
  animationOptions : Val := Val.undefined
  onStart : Option Nat := none
  onComplete : Option Nat := none
  transformed : Bool := false
  deriving DecidableEq, Repr

/-- What a function-form animation config returns: a string, `null`/`undefined`, a config
object, or any other value (a number, a boolean: the spread copies nothing from it). -/
inductive FuncResult where
  | str (s : String)
  | nullish
  | obj (o : AnimObj)
  | other

/-- The union `string | object | function` accepted wherever an animation is named. -/
inductive RawAnimationConfig where
  | str (s : String)
  | obj (o : AnimObj)
  | func (f : Val → FuncResult)

/-- The `animations` field of a scenario once it is a plain value. -/
inductive AnimationsValue where
  | array (l : List RawAnimationConfig)
  | str (s : String)
  | other

/-- The `animations` field of a scenario: a value, or a function of
`(wrappedComponentRef.current, prevProps)` resolved when the scenario fires. -/
inductive ScenarioAnimations where
  | value (v : AnimationsValue)
  | func (f : Val → Props → AnimationsValue)

/-- A scenario config as passed to `attachAnimation`. -/
structure ScenarioConfig where
  id : Option String := none
  timeline : Option String := none
  trigger : Option (OneOrMany TriggerConfig) := none
  animations : ScenarioAnimations := ScenarioAnimations.value AnimationsValue.other
  interrupt : Bool := false

/-- The result of `testScenario`. -/
structure ScenarioTest where
  result : Bool
  scenarioConfig : ScenarioConfig
  firedTriggerConfig : Option TriggerConfig

/-- The method `testTrigger` of a wrapped component whose `wrappedComponentRef.current`
is `ref`. -/
def testTrigger (ref : Val) (triggerConfig : TriggerConfig) (prevProps nextProps : Props) : Val :=
  match triggerConfig with
  | .object select value nextValue =>
      Val.bool (strictEq (select prevProps) value && strictEq (select nextProps) nextValue)
  | .function f => f ref prevProps nextProps

/-- The triggers of a scenario as an array; a scenario without the key has none
(`testScenario` is only reached for scenarios that have the key). -/
def ScenarioConfig.triggerArray (scenarioConfig : ScenarioConfig) : List TriggerConfig :=
  match scenarioConfig.trigger with
  | some t => t.toArray
  | none => []

/-- The method `testScenario`: the first trigger of the scenario that fires. -/
def testScenario (ref : Val) (scenarioConfig : ScenarioConfig) (prevProps nextProps : Props) :
    ScenarioTest :=
  let firedTriggerConfig :=
    scenarioConfig.triggerArray.find? (fun t => (testTrigger ref t prevProps nextProps).truthy)
  { result := firedTriggerConfig.isSome
    scenarioConfig := scenarioConfig
    firedTriggerConfig := firedTriggerConfig }

/-- The loop `filteredScenarios.some(...)` of `UNSAFE_componentWillUpdate`: the test of
the first scenario whose test has a true `result`. -/
def someMatch (ref : Val) (prevProps nextProps : Props) : List ScenarioConfig → Option ScenarioTest
  | [] => none
  | scenarioConfig :: rest =>
      let scenarioTest := testScenario ref scenarioConfig prevProps nextProps
      if scenarioTest.result then some scenarioTest else someMatch ref prevProps nextProps rest

/-- The matching part of `UNSAFE_componentWillUpdate`: scenarios without a `trigger`
key are filtered out, then the first one that fires is kept. -/
def matchScenario (ref : Val) (scenariosConfig : List ScenarioConfig) (prevProps nextProps : Props) :
    Option ScenarioTest :=
  someMatch ref prevProps nextProps (scenariosConfig.filter (fun sc => sc.trigger.isSome))

/-! ## The process-wide registries -/

/-- The timeline entry a generator function returns (a gsap timeline or tween); only its
duration, in milliseconds, is kept. -/
structure Tween where
  duration : Nat := 0
  deriving DecidableEq, Repr

/-- An entry of a component's `animations` map: `{generatorFunc, elementRef}`. -/
structure AnimationData where
  generatorFunc : Val → Val → Tween
  elementRef : Val

/-- A wrapped component instance: its `animationComponentId`, the current value of
`wrappedComponentRef.current` and the `matchedScenario` saved between the two update hooks. -/
structure Instance where
  animationComponentId : String
  wrappedComponentRef : Val := Val.null
  matchedScenario : Option ScenarioTest := none

/-- A value of the `components` map, stored under the `animationComponentId` of its
instance.  The two animation sets are objects used as sets: only their keys matter.  A key
is the request id; `none` is the key `undefined` of a config object without an id. -/
structure ComponentData where
  animations : List (String × AnimationData) := []
  runningAnimations : List (Option Nat) := []
  pendingAnimations : List (Option Nat) := []
  evaluatingAnimations : Bool := false
  removeCandidate : Bool := false
  inst : Instance

/-- The key under which a component is stored in `components`. -/
def ComponentData.id (c : ComponentData) : String := c.inst.animationComponentId

/-- The `options` bag threaded through the two `addAnimation` functions. -/
structure Options where
  thisContext : Option Instance := none
  triggerConfig : Option TriggerConfig := none
  scenarioConfig : Option ScenarioConfig := none
  firstAnimationInScenario : Bool := false
  lastAnimationInScenario : Bool := false

/-- Where a timeline lives: the `master` entry of `timelines`, another named entry, or a
timeline object owned by the caller and passed by reference. -/
inductive TlLoc where
  | master
  | named (name : String)
  | handle (h : Nat)
  deriving DecidableEq, Repr

/-- The argument `timelineOrTimelineId`: `undefined`/`null`, a string or a timeline object. -/
inductive TimelineRef where
  | nullish
  | name (n : String)
  | handle (h : Nat)
  deriving DecidableEq, Repr

/-- The `references` object built by `attachCallbackToTl`. -/
structure References where
  animationComponent : Val
  triggerComponent : Option Val
  deriving DecidableEq, Repr

/-- A child of a timeline, together with what the two callbacks attached to it close over
(`this.animationComponentId`, `animationConfig`, `options`, `references`).  `started`
tells whether the engine has run its `onStart` callback already. -/
structure Entry where
  componentId : String
  animationConfig : AnimObj
  options : Options
  references : References
  duration : Nat
  position : Val
  startTime : Int
  started : Bool := false

/-- A timeline of the animation engine: the children it holds, in insertion order. -/
structure Timeline where
  children : List Entry := []

/-- The messages passed to `error` (that is, `console.error`), one constructor per call site. -/
inductive Diag where
  | scenarioExists (id : String)
  | noSuchAnimation (animation componentId : String)
  | animationRegistered (animationId : String)
  | noComponents (animation : String)
  | noSuchScenario (scenarioId : String)
  | funcReturnedNullish
  | noThisContext
  deriving DecidableEq, Repr

/-- An argument received by a user callback. -/
inductive CallbackArg where
  | references (r : References)
  | scenarioConfig (id : Option String)
  | triggerConfig
  deriving DecidableEq, Repr

/-- The hooks of `globalOptions`. -/
inductive Hook where
  | onScenarioTriggered
  | onScenarioStart
  | onScenarioComplete
  deriving DecidableEq, Repr

/-- What the module does to the outside world, in order: diagnostics, calls of generator
functions, calls from the global `addAnimation` to a component's `addAnimation`,
insertions into a timeline, calls of user callbacks and hooks, forced re-renders, and
calls of `timeline.progress(1, false)`, which fast-forward a timeline to its end. -/
inductive Event where
  | error (d : Diag)
  | generator (componentId animation : String) (elementRef animationOptions : Val)
  | dispatch (componentId : String) (animationConfig : AnimObj) (first last : Bool)
  | timelineAdd (loc : TlLoc) (componentId : String) (animationConfig : AnimObj) (position : Val)
  | callback (cb : Nat) (args : List CallbackArg)
  | hook (h : Hook) (args : List CallbackArg)
  | forceUpdate (componentId : String)
  | progress (loc : TlLoc)
  deriving DecidableEq, Repr

/-- The object `globalOptions`: which hooks are set. -/
structure GlobalOptions where
  onScenarioTriggered : Bool := false
  onScenarioStart : Bool := false
  onScenarioComplete : Bool := false
  deriving DecidableEq, Repr

/-- The module state: `components`, `timelines` (the `master` entry apart, as it always
exists), timeline objects owned by callers, `scenarios`, `globalOptions`, the three
counters and the events so far. -/
structure State where
  components : List ComponentData := []
  master : Timeline := {}
  timelines : List (String × Timeline) := []
  handles : List (Nat × Timeline) := []
  scenarios : List (String × ScenarioConfig) := []
  globalOptions : GlobalOptions := {}
  scenarioIdCounter : Nat := 0
  componentIdCounter : Nat := 0
  animationIdCounter : Nat := 0
  log : List Event := []

/-- The result of a call that may throw: the state reached, and whether a `TypeError`
escaped the call. -/
structure Outcome where
  state : State
  threw : Bool := false

/-- Appends an event to the log. -/
def State.emit (s : State) (e : Event) : State := { s with log := s.log ++ [e] }

/-- The function `error(message)`. -/
def error (s : State) (d : Diag) : State := s.emit (Event.error d)

/-- The read `components[id]`, for the `animationComponentId` of an instance: the
constructor builds it as a display name followed by `_` and a number, so it is never a
name inherited from `Object.prototype`. -/
def State.component (s : State) (id : String) : Option ComponentData :=
  s.components.find? (fun c => c.id == id)

/-- An in-place update of the object `components[id]`. -/
def State.updateComponent (s : State) (id : String) (f : ComponentData → ComponentData) : State :=
  { s with components := s.components.map (fun c => if c.id = id then f c else c) }

/-- The assignment `set[key] = true` on an object used as a set. -/
def setKey (key : Option Nat) (set : List (Option Nat)) : List (Option Nat) :=
  if key ∈ set then set else set ++ [key]

/-- The statement `delete set[key]`. -/
def deleteKey (key : Option Nat) (set : List (Option Nat)) : List (Option Nat) :=
  set.filter (fun k => k ≠ key)

/-- How a possibly absent string prints in a template and converts to a property key. -/
def nameOf (animation : Option String) : String := animation.getD "undefined"

/-- The property names an object literal inherits from `Object.prototype`. -/
def objectPrototypeKeys : List String :=
  ["constructor", "__defineGetter__", "__defineSetter__", "hasOwnProperty",
   "__lookupGetter__", "__lookupSetter__", "isPrototypeOf", "propertyIsEnumerable",
   "toString", "valueOf", "__proto__", "toLocaleString"]

/-- Whether a property name is found on `Object.prototype`.  The value read under such a
name from a map that has no own property of that name is a function (for `__proto__`,
the prototype object): it is truthy, and none of the properties the module reads from a
map value (`generatorFunc`, `add`, `progress`, `getChildren`, `animations`) is defined
on it. -/
def inherited (key : String) : Bool := objectPrototypeKeys.contains key

/-- Whether a map has an own property of that name. -/
def hasOwnKey {α : Type} (map : List (String × α)) (key : String) : Bool :=
  map.any (fun kv => kv.1 == key)

/-- The test `key in map` on a map that is an object literal: an own property, or a name
inherited from `Object.prototype`. -/
def hasKey {α : Type} (map : List (String × α)) (key : String) : Bool :=
  hasOwnKey map key || inherited key

/-! ## The visibility gate -/

/-- What `render` returns: the wrapped element (with the received props, to which the
bound `registerAnimation` and `addAnimation` are added) or `null`. -/
inductive RenderResult where
  | wrapped (props : Props)
  | null
  deriving DecidableEq, Repr

/-- The method `render` of the instance `self` with props `props`.  `none` stands for the
`TypeError` of reading a field of `components[self]` when there is no such entry (the
constructor creates it and nothing removes it). -/
def AnimatedComponent.render (s : State) (self : String) (props : Props) : Option RenderResult :=
  match s.component self with
  | none => none
  | some component =>
      let shouldShowInProps := props.has "shouldShow"
      let hasRunningAnimations := decide (component.runningAnimations.length > 0)
      let hasPendingAnimations := decide (component.pendingAnimations.length > 0)
      let isRemoveCandidate := component.removeCandidate
      let isSomeComponentEvaluatingAnimations := s.components.any (fun c => c.evaluatingAnimations)
      if shouldShowInProps == false ||
          (shouldShowInProps &&
            (strictEq (props.get "shouldShow") (Val.bool true) ||
              hasRunningAnimations ||
              hasPendingAnimations ||
              (isRemoveCandidate && isSomeComponentEvaluatingAnimations))) then
        some (RenderResult.wrapped props)
      else
        some RenderResult.null

/-! ## Normalising animation configs -/

/-- The last statement of `transformAnimationConfig`: the object literal
`{id: ++animationIdCounter, position: "+=0", ...animationConfig, __transformed: true}`,
where `animationConfig` is `none` when it was left `undefined`.  The counter is advanced
whether or not the spread overrides `id`. -/
def applyDefaults (s : State) (animationConfig : Option AnimObj) : State × AnimObj :=
  let fresh := s.animationIdCounter + 1
  let spread := animationConfig.getD {}
  ({ s with animationIdCounter := fresh },
   { spread with
      id := some (spread.id.getD fresh)
      position := some (spread.position.getD (Val.str "+=0"))
      transformed := true })

/-- The function `transformAnimationConfig(inputAnimationConfig, thisContext)`.  A string
has no `__transformed` property and functions are taken not to carry one, so the early
return is for marked objects. -/
def transformAnimationConfig (s : State) (inputAnimationConfig : RawAnimationConfig)
    (thisContext : Option Instance) : State × AnimObj :=
  match inputAnimationConfig with
  | .obj o => if o.transformed then (s, o) else applyDefaults s (some o)
  | .str name => applyDefaults s (some { animation := some name })
  | .func f =>
      match thisContext with
      | some ctx =>
          if ctx.animationComponentId ≠ "" then
            match f ctx.wrappedComponentRef with
            | .str name => applyDefaults s (some { animation := some name })
            | .nullish => applyDefaults (error s Diag.funcReturnedNullish) none
            | .obj o => applyDefaults s (some o)
            | .other => applyDefaults s (some {})
          else applyDefaults (error s Diag.noThisContext) none
      | none => applyDefaults (error s Diag.noThisContext) none

/-! ## Timelines -/

/-- The lookup of a timeline: `timelines.master` for `undefined`/`null`, `timelines[name]`
for a string, the object itself for a timeline object.  The result is `none` when the
value read is not a timeline: `undefined` when there is no such key, a function of
`Object.prototype` when the name is inherited.  A call of `progress`, `getChildren` or
`add` on either throws a `TypeError`. -/
def resolveTimeline (s : State) : TimelineRef → Option TlLoc
  | .nullish => some TlLoc.master
  | .name n =>
      if n = "master" then some TlLoc.master
      else if hasOwnKey s.timelines n then some (TlLoc.named n) else none
  | .handle h => some (TlLoc.handle h)

/-- The timeline object at a location (a timeline object the state has not seen yet has
no children). -/
def State.timelineAt (s : State) : TlLoc → Timeline
  | .master => s.master
  | .named n => (s.timelines.lookup n).getD {}
  | .handle h => (s.handles.lookup h).getD {}

/-- Replaces the value bound to a key of an association list, or binds the key last. -/
def upsert {κ α : Type} [DecidableEq κ] (map : List (κ × α)) (key : κ) (a : α) : List (κ × α) :=
  if map.any (fun kv => decide (kv.1 = key)) then
    map.map (fun kv => if kv.1 = key then (key, a) else kv)
  else map ++ [(key, a)]

/-- Writes the timeline object at a location. -/
def State.setTimelineAt (s : State) (loc : TlLoc) (t : Timeline) : State :=
  match loc with
  | .master => { s with master := t }
  | .named n => { s with timelines := upsert s.timelines n t }
  | .handle h => { s with handles := upsert s.handles h t }

/-- The time at which the last child of a timeline ends. -/
def Timeline.endTime (t : Timeline) : Int :=
  t.children.foldl (fun m e => max m (e.startTime + e.duration)) 0

/-- Modelled from the spec: the animation engine is an external collaborator (gsap is
not under src/).  `timeline.add(child, position)` places the child at a numeric
position as given, and at the end of the timeline for the default `"+=0"`; labels and
relative offsets other than zero are not told apart from it. -/
def engineStartTime (t : Timeline) : Val → Int
  | .num n => n
  | _ => t.endTime

/-! ## Dispatch to one component -/

/-- One iteration of the `forEach` of the method `addAnimation` of the instance `self`.
Returns the outcome and the normalised config object as the iteration leaves it (the
`withPrev` branch assigns its `position`); when the input was already marked this is the
caller's own object. -/
def AnimatedComponent.addAnimationItem (self : String) (timelineOrTimelineId : TimelineRef)
    (options : Options) (s : State) (rawAnimationConfig : RawAnimationConfig) :
    Outcome × Option AnimObj :=
  match s.component self with
  | none => ({ state := s, threw := true }, none)
  | some componentData =>
      let (s, animationConfig) := transformAnimationConfig s rawAnimationConfig (some componentData.inst)
      match componentData.animations.lookup (nameOf animationConfig.animation) with
      | none =>
          if inherited (nameOf animationConfig.animation) then
            -- `animationData` is a function of `Object.prototype`: the call of
            -- `animationData.generatorFunc`, which is `undefined`, throws
            ({ state := s, threw := true }, some animationConfig)
          else
            ({ state := error s (Diag.noSuchAnimation (nameOf animationConfig.animation) self) },
             some animationConfig)
      | some animationData =>
          let animationTlToAdd :=
            animationData.generatorFunc animationData.elementRef animationConfig.animationOptions
          let s := s.emit (Event.generator self (nameOf animationConfig.animation)
            animationData.elementRef animationConfig.animationOptions)
          -- figure out which timeline
          let timeline := resolveTimeline s timelineOrTimelineId
          -- mark this component as animating
          let s := s.updateComponent self
            (fun c => { c with pendingAnimations := setKey animationConfig.id c.pendingAnimations })
          -- the two `attachCallbackToTl` calls build their `references` here
          let references : References :=
            { animationComponent := componentData.inst.wrappedComponentRef
              triggerComponent := options.thisContext.map (fun ctx => ctx.wrappedComponentRef) }
          let duration := if animationConfig.immediate then 1 else animationTlToAdd.duration
          match timeline with
          | none =>
              -- `timeline.getChildren` or `timeline.add` on `undefined`
              ({ state := s, threw := true }, some animationConfig)
          | some loc =>
              let tl := s.timelineAt loc
              let animationConfig :=
                if animationConfig.position = some (Val.str "withPrev") then
                  let newPosition : Int :=
                    match tl.children.getLast? with
                    | some previousTimeline => previousTimeline.startTime
                    | none => 0
                  { animationConfig with position := some (Val.num newPosition) }
                else animationConfig
              let position := animationConfig.position.getD Val.undefined
              let entry : Entry :=
                { componentId := self
                  animationConfig := animationConfig
                  options := options
                  references := references
                  duration := duration
                  position := position
                  startTime := engineStartTime tl position }
              let s := s.setTimelineAt loc { tl with children := tl.children ++ [entry] }
              let s := s.emit (Event.timelineAdd loc self animationConfig position)
              ({ state := s }, some animationConfig)

/-- The `forEach` of the method `addAnimation`: it stops at the first iteration that throws. -/
def AnimatedComponent.addAnimationLoop (self : String) (timelineOrTimelineId : TimelineRef)
    (options : Options) : State → List RawAnimationConfig → Outcome
  | s, [] => { state := s }
  | s, rawAnimationConfig :: rest =>
      let out := (AnimatedComponent.addAnimationItem self timelineOrTimelineId options s
        rawAnimationConfig).1
      if out.threw then out
      else AnimatedComponent.addAnimationLoop self timelineOrTimelineId options out.state rest

/-- The method `addAnimation(animations, timelineOrTimelineId, options)` of the instance
`self`. -/
def AnimatedComponent.addAnimation (self : String) (s : State)
    (animations : OneOrMany RawAnimationConfig) (timelineOrTimelineId : TimelineRef)
    (options : Options) : Outcome :=
  AnimatedComponent.addAnimationLoop self timelineOrTimelineId options s animations.toArray

/-! ## The callbacks attached to a timeline entry -/

/-- The arguments a function receives from `callbackFunction.apply(callbackArgs)`: the
array is the `this` argument of `apply` and no argument array is given. -/
def applyArgs (_callbackArgs : List CallbackArg) : List CallbackArg := []

/-- The arguments a hook receives from `hook.apply([...args, scenarioConfig, triggerConfig])`. -/
def hookArgs (args : List CallbackArg) (options : Options) : List CallbackArg :=
  applyArgs (args ++ [CallbackArg.scenarioConfig (options.scenarioConfig.bind (fun sc => sc.id)),
    CallbackArg.triggerConfig])

/-- The `onStart` callback attached to an entry, run by the engine when the entry starts. -/
def onStartCallback (e : Entry) (s : State) : State :=
  let args := applyArgs [CallbackArg.references e.references]
  let s := s.updateComponent e.componentId (fun c =>
    { c with
      runningAnimations := setKey e.animationConfig.id c.runningAnimations
      pendingAnimations := deleteKey e.animationConfig.id c.pendingAnimations })
  let s := match e.animationConfig.onStart with
    | some cb => s.emit (Event.callback cb args)
    | none => s
  if e.options.firstAnimationInScenario && e.options.scenarioConfig.isSome
      && s.globalOptions.onScenarioStart then
    s.emit (Event.hook Hook.onScenarioStart (hookArgs args e.options))
  else s

/-- The `onComplete` callback attached to an entry, run by the engine when the entry
completes. -/
def onCompleteCallback (e : Entry) (s : State) : State :=
  let args := applyArgs [CallbackArg.references e.references]
  let s := s.updateComponent e.componentId (fun c =>
    { c with runningAnimations := deleteKey e.animationConfig.id c.runningAnimations })
  let s := match e.animationConfig.onComplete with
    | some cb => s.emit (Event.callback cb args)
    | none => s
  let s := s.emit (Event.forceUpdate e.componentId)
  if e.options.lastAnimationInScenario && e.options.scenarioConfig.isSome
      && s.globalOptions.onScenarioComplete then
    s.emit (Event.hook Hook.onScenarioComplete (hookArgs args e.options))
  else s

/-! ## The engine running the callbacks -/

/-- Modelled from the spec: the animation engine is an external collaborator (gsap is
not under src/).  The engine starts the child at index `i` of a timeline: it runs the
`onStart` callback of the child, once. -/
def engineStart (loc : TlLoc) (i : Nat) (s : State) : State :=
  match (s.timelineAt loc).children[i]? with
  | some e =>
      if e.started then s
      else
        onStartCallback e (s.setTimelineAt loc
          { children := (s.timelineAt loc).children.set i { e with started := true } })
  | none => s

/-- Modelled from the spec: the animation engine is an external collaborator (gsap is
not under src/).  `timeline.progress(1, false)` takes the timeline to its end without
suppressing events, so every child the timeline holds reaches 100% progress: child by
child, the engine runs the `onStart` callback of a child that had not started and then
its `onComplete` callback.  The timelines of the `timelines` map, the only ones the
call is made on, are created with `autoRemoveChildren`: the finished children leave the
timeline. -/
def fastForward (loc : TlLoc) (s : State) : State :=
  (s.timelineAt loc).children.foldl
    (fun s e => onCompleteCallback e (if e.started then s else onStartCallback e s))
    (s.setTimelineAt loc {})

/-! ## The global dispatch -/

/-- The inner `forEach` of the global `addAnimation`, over `componentsWithAnimation` from
index `componentIndex` on.  `options` is the variable the loop reassigns and
`animationConfig` the object every component receives; both are returned as the loop
leaves them. -/
def fanOut (timelineOrTimelineId : TimelineRef) (animationIndex arrayLength matchCount : Nat) :
    Nat → List ComponentData → AnimObj → Options → State → Outcome × Options
  | _, [], _, options, s => ({ state := s }, options)
  | componentIndex, componentData :: rest, animationConfig, options, s =>
      let options : Options :=
        { options with
          firstAnimationInScenario := animationIndex == 0 && componentIndex == 0
          lastAnimationInScenario :=
            animationIndex == arrayLength - 1 && componentIndex == matchCount - 1 }
      let s := s.emit (Event.dispatch componentData.id animationConfig
        options.firstAnimationInScenario options.lastAnimationInScenario)
      let (out, animationConfig1) := AnimatedComponent.addAnimationItem componentData.id
        timelineOrTimelineId options s (RawAnimationConfig.obj animationConfig)
      if out.threw then (out, options)
      else fanOut timelineOrTimelineId animationIndex arrayLength matchCount (componentIndex + 1) rest
        (animationConfig1.getD animationConfig) options out.state

/-- The outer `forEach` of the global `addAnimation`, from index `animationIndex` on. -/
def addAnimationLoop (timelineOrTimelineId : TimelineRef) (arrayLength : Nat) :
    Nat → List RawAnimationConfig → Options → State → Outcome
  | _, [], _, s => { state := s }
  | animationIndex, rawAnimationConfig :: rest, options, s =>
      let (s, animationConfig) := transformAnimationConfig s rawAnimationConfig options.thisContext
      -- search for components with this animationId
      let componentsWithAnimation :=
        s.components.filter (fun componentData =>
          hasKey componentData.animations (nameOf animationConfig.animation))
      if componentsWithAnimation.length > 0 then
        let (out, options) := fanOut timelineOrTimelineId animationIndex arrayLength
          componentsWithAnimation.length 0 componentsWithAnimation animationConfig options s
        if out.threw then out
        else addAnimationLoop timelineOrTimelineId arrayLength (animationIndex + 1) rest options
          out.state
      else
        addAnimationLoop timelineOrTimelineId arrayLength (animationIndex + 1) rest options
          (error s (Diag.noComponents (nameOf animationConfig.animation)))

/-- The exported function `addAnimation(animations, timelineOrTimelineId, options)`. -/
def addAnimation (s : State) (animations : OneOrMany RawAnimationConfig)
    (timelineOrTimelineId : TimelineRef) (options : Options) : Outcome :=
  addAnimationLoop timelineOrTimelineId animations.toArray.length 0 animations.toArray options s

/-! ## Declaring scenarios and registering animations -/

/-- One iteration of the `forEach` of `attachAnimation`.  Returns the state and the
scenario config as the iteration leaves it (an id is assigned to a config without one). -/
def attachScenario (s : State) (scenarioConfig : ScenarioConfig) : State × ScenarioConfig :=
  -- add ids to scenario configs with no id specified
  let (s, scenarioConfig) :=
    match scenarioConfig.id with
    | some _ => (s, scenarioConfig)
    | none =>
        ({ s with scenarioIdCounter := s.scenarioIdCounter + 1 },
         { scenarioConfig with id := some ("scenario_" ++ toString (s.scenarioIdCounter + 1)) })
  -- generate timeline instance if it doesn't exist yet
  let s :=
    match scenarioConfig.timeline with
    | some name =>
        if name ≠ "" && (resolveTimeline s (TimelineRef.name name)).isNone
            && !inherited name then
          { s with timelines := s.timelines ++ [(name, ({} : Timeline))] }
        else s
    | none => s
  -- save the scenario to the global scenarios
  let id := scenarioConfig.id.getD ""
  if hasKey s.scenarios id then (error s (Diag.scenarioExists id), scenarioConfig)
  else ({ s with scenarios := s.scenarios ++ [(id, scenarioConfig)] }, scenarioConfig)

/-- The function `attachAnimation(WrappedComponent, scenariosConfig)`: the state after
the `forEach`, and the scenario configs the returned class closes over. -/
def attachAnimation (s : State) : List ScenarioConfig → State × List ScenarioConfig
  | [] => (s, [])
  | scenarioConfig :: rest =>
      let (s1, attached) := attachScenario s scenarioConfig
      let (s2, others) := attachAnimation s1 rest
      (s2, attached :: others)

/-- The method `registerAnimation(animationId, generatorFunc, elementRef)` of the instance
`self`. -/
def AnimatedComponent.registerAnimation (self : String) (s : State) (animationId : String)
    (generatorFunc : Val → Val → Tween) (elementRef : Val) : Outcome :=
  match s.component self with
  | none => { state := s, threw := true }
  | some componentData =>
      if hasKey componentData.animations animationId then
        { state := error s (Diag.animationRegistered animationId) }
      else
        { state := s.updateComponent self (fun c =>
            { c with animations := c.animations ++
                [(animationId, { generatorFunc := generatorFunc, elementRef := elementRef })] }) }

/-! ## Dispatching a scenario -/

/-- The function `addScenarioAnimations(scenarioConfig, options)`.  When `animations` is
neither an array nor a string the local `animations` stays `undefined`, and
`addAnimation(undefined, …)` throws on reading `undefined.__transformed` in
`transformAnimationConfig` before anything else happens. -/
def addScenarioAnimations (s : State) (scenarioConfig : ScenarioConfig) (options : Options) :
    Outcome :=
  -- use master timeline in scenario configs with no timeline specified
  let scenarioConfigDraft : ScenarioConfig :=
    { scenarioConfig with timeline := some (scenarioConfig.timeline.getD "master") }
  let timeline := TimelineRef.name (scenarioConfig.timeline.getD "master")
  -- make sure `animations` is an array
  match scenarioConfigDraft.animations with
  | .value (.array animations) =>
      addAnimation s (OneOrMany.many animations) timeline
        { options with scenarioConfig := some scenarioConfigDraft }
  | .value (.str animation) =>
      addAnimation s (OneOrMany.many [RawAnimationConfig.str animation]) timeline
        { options with scenarioConfig := some scenarioConfigDraft }
  | _ => { state := s, threw := true }

/-- The exported function `triggerScenario(scenarioId)`.  For a name inherited from
`Object.prototype` the value `scenarios[scenarioId]` is truthy and is passed on as if it
were a scenario config: the spread `{...scenarioConfig}` copies nothing from it, which
leaves a draft without any field. -/
def triggerScenario (s : State) (scenarioId : String) : Outcome :=
  match s.scenarios.lookup scenarioId with
  | some scenarioConfig => addScenarioAnimations s scenarioConfig {}
  | none =>
      if inherited scenarioId then addScenarioAnimations s {} {}
      else { state := error s (Diag.noSuchScenario scenarioId) }

/-- The method `addScenarioAnimations(scenarioConfig, prevProps, triggerConfig)` of the
instance `self`. -/
def AnimatedComponent.addScenarioAnimations (self : String) (s : State)
    (scenarioConfig : ScenarioConfig) (prevProps : Props) (triggerConfig : TriggerConfig) :
    Outcome :=
  match s.component self with
  | none => { state := s, threw := true }
  | some componentData =>
      -- timelines[scenarioConfig.timeline || 'master']
      let timeline := resolveTimeline s (TimelineRef.name
        (match scenarioConfig.timeline with
          | some name => if name ≠ "" then name else "master"
          | none => "master"))
      let interrupted : Option State :=
        if scenarioConfig.interrupt then
          match timeline with
          | some loc => some (fastForward loc (s.emit (Event.progress loc)))
          | none => none
        else some s
      match interrupted with
      | none => { state := s, threw := true }
      | some s =>
          -- scenarios that are triggered can resolve functions to return animation config
          let scenarioConfigDraft : ScenarioConfig :=
            match scenarioConfig.animations with
            | .func f =>
                { scenarioConfig with
                  animations := ScenarioAnimations.value
                    (f componentData.inst.wrappedComponentRef prevProps) }
            | .value _ => scenarioConfig
          AnimationOrchestrator.addScenarioAnimations s scenarioConfigDraft
            { thisContext := some componentData.inst, triggerConfig := some triggerConfig }

/-! ## The two update hooks -/

/-- The method `UNSAFE_componentWillUpdate(nextProps)` of the instance `self`, whose
current props are `props` and whose class closes over `scenariosConfig`. -/
def AnimatedComponent.componentWillUpdate (self : String) (scenariosConfig : List ScenarioConfig)
    (s : State) (props nextProps : Props) : Outcome :=
  match s.component self with
  | none => { state := s, threw := true }
  | some componentData =>
      let matchedScenario :=
        matchScenario componentData.inst.wrappedComponentRef scenariosConfig props nextProps
      -- save this until componentDidUpdate
      let s :=
        match matchedScenario with
        | some m =>
            s.updateComponent self (fun c =>
              { c with inst := { c.inst with matchedScenario := some m } })
        | none => s
      let s := s.updateComponent self (fun c => { c with evaluatingAnimations := true })
      let s :=
        if (props.get "shouldShow").truthy && !(nextProps.get "shouldShow").truthy then
          s.updateComponent self (fun c => { c with removeCandidate := true })
        else s
      { state := s }

/-- The first statement of `componentDidUpdate`, the block `if (matchedScenario) {…}`, for
the instance `self` whose entry in the registry is `componentData`: the saved match is
deleted and, when a trigger fired, the `onScenarioTriggered` hook is called and the
scenario is dispatched. -/
def AnimatedComponent.dispatchMatched (self : String) (s : State) (prevProps : Props)
    (componentData : ComponentData) : Outcome :=
  match componentData.inst.matchedScenario with
  | none => { state := s }
  | some matchedScenario =>
      let s := s.updateComponent self (fun c =>
        { c with inst := { c.inst with matchedScenario := none } })
      match matchedScenario.firedTriggerConfig with
      | none => { state := s }
      | some firedTriggerConfig =>
          let s :=
            if s.globalOptions.onScenarioTriggered then
              s.emit (Event.hook Hook.onScenarioTriggered
                [CallbackArg.scenarioConfig matchedScenario.scenarioConfig.id])
            else s
          AnimatedComponent.addScenarioAnimations self s matchedScenario.scenarioConfig
            prevProps firedTriggerConfig

/-- The method `componentDidUpdate(prevProps)` of the instance `self`.  An exception
thrown by the dispatch leaves the method before the two flags are cleared. -/
def AnimatedComponent.componentDidUpdate (self : String) (s : State) (prevProps : Props) :
    Outcome :=
  match s.component self with
  | none => { state := s, threw := true }
  | some componentData =>
      let out := AnimatedComponent.dispatchMatched self s prevProps componentData
      if out.threw then out
      else
        { state := out.state.updateComponent self (fun c =>
            { c with evaluatingAnimations := false, removeCandidate := false }) }

/-- What a dispatch leaves alone in a component: everything but `pendingAnimations`. -/
def core (c : ComponentData) :
    Instance × List (String × AnimationData) × List (Option Nat) × Bool × Bool :=
  (c.inst, c.animations, c.runningAnimations, c.evaluatingAnimations, c.removeCandidate)

/-- What the callbacks of a timeline entry leave alone in a component: everything but the
two animation sets. -/
def shell (c : ComponentData) : Instance × List (String × AnimationData) × Bool × Bool :=
  (c.inst, c.animations, c.evaluatingAnimations, c.removeCandidate)

/-- A trigger fires when `testTrigger` returns a truthy value. -/
def fires (ref : Val) (prevProps nextProps : Props) (t : TriggerConfig) : Bool :=
  (testTrigger ref t prevProps nextProps).truthy

/-- The config object whose fields the last statement of `transformAnimationConfig`
spreads over the defaults, for an input that is not returned early: the input object,
the object a function returned, or an object with at most an `animation`. -/
def spreadSource (input : RawAnimationConfig) (thisContext : Option Instance) : AnimObj :=
  match input with
  | .obj o => o
  | .str name => { animation := some name }
  | .func f =>
      match thisContext with
      | some ctx =>
          if ctx.animationComponentId ≠ "" then
            match f ctx.wrappedComponentRef with
            | .str name => { animation := some name }
            | .nullish => {}
            | .obj o => o
            | .other => {}
          else {}
      | none => {}

/-- Whether an input already carries the `__transformed` marker. -/
def isMarked : RawAnimationConfig → Bool
  | .obj o => o.transformed
  | _ => false

/-- A sequence of calls of `transformAnimationConfig`, each with its own `thisContext`:
the final state and the results in call order. -/
def normalizeAll (s : State) : List (RawAnimationConfig × Option Instance) → State × List AnimObj
  | [] => (s, [])
  | (input, thisContext) :: rest =>
      let (s1, animationConfig) := transformAnimationConfig s input thisContext
      let (s2, others) := normalizeAll s1 rest
      (s2, animationConfig :: others)

/-- The animation name a request has once normalised (the module state plays no part in it). -/
def requestName (input : RawAnimationConfig) (thisContext : Option Instance) : String :=
  nameOf (transformAnimationConfig {} input thisContext).2.animation

/-- The calls from the global `addAnimation` to components recorded in a log, as pairs
(component id, animation name). -/
def dispatchTrace (log : List Event) : List (String × String) :=
  log.filterMap (fun e =>
    match e with
    | .dispatch componentId animationConfig _ _ => some (componentId, nameOf animationConfig.animation)
    | _ => none)

/-- The calls of generator functions recorded in a log, as pairs (component id, animation
name). -/
def generatorTrace (log : List Event) : List (String × String) :=
  log.filterMap (fun e =>
    match e with
    | .generator componentId animation _ _ => some (componentId, animation)
    | _ => none)

/-- The first/last flags of the calls from the global `addAnimation` to components
recorded in a log, in order. -/
def dispatchFlags (log : List Event) : List (Bool × Bool) :=
  log.filterMap (fun e =>
    match e with
    | .dispatch _ _ first last => some (first, last)
    | _ => none)

/-- The diagnostics recorded in a log. -/
def diagnostics (log : List Event) : List Diag :=
  log.filterMap (fun e =>
    match e with
    | .error d => some d
    | _ => none)

/-- The components of a registry whose `animations` map has an animation name (the test
`name in componentData.animations`), in registry order. -/
def targets (s : State) (animation : String) : List String :=
  (s.components.filter (fun c => hasKey c.animations animation)).map ComponentData.id

/-- The (component id, animation name) pairs of a batch against a registry: for each
request in batch order, the components whose `animations` map has its animation name, in
registry order. -/
def expansion (s : State) (thisContext : Option Instance) (batch : List RawAnimationConfig) :
    List (String × String) :=
  batch.flatMap (fun raw =>
    (targets s (requestName raw thisContext)).map (fun id => (id, requestName raw thisContext)))

/-- The keys of the `components` map are distinct. -/
def State.WellFormed (s : State) : Prop := (s.components.map ComponentData.id).Nodup

instance State.decidableWellFormed (s : State) : Decidable s.WellFormed :=
  inferInstanceAs (Decidable (s.components.map ComponentData.id).Nodup)

/-- What identifies the entries of the `components` map for dispatch: each key with the
`animations` map stored under it. -/
def State.keys (s : State) : List (String × List (String × AnimationData)) :=
  s.components.map (fun c => (c.id, c.animations))

/-- The diagnostics `transformAnimationConfig` emits for an input. -/
def normalizeDiags (input : RawAnimationConfig) (thisContext : Option Instance) : List Diag :=
  match input with
  | .func f =>
      match thisContext with
      | some ctx =>
          if ctx.animationComponentId ≠ "" then
            match f ctx.wrappedComponentRef with
            | .nullish => [Diag.funcReturnedNullish]
            | _ => []
          else [Diag.noThisContext]
      | none => [Diag.noThisContext]
  | _ => []

/-- The diagnostics of a batch against a registry: for each request in batch order, those
of its normalisation, then one `noComponents` when no component's map has its name. -/
def batchDiags (s : State) (thisContext : Option Instance) (batch : List RawAnimationConfig) :
    List Diag :=
  batch.flatMap (fun raw =>
    normalizeDiags raw thisContext ++
      (if targets s (requestName raw thisContext) = [] then
        [Diag.noComponents (requestName raw thisContext)] else []))

/-- A request with its id left out. -/
def eraseCfg (c : AnimObj) : AnimObj := { c with id := none }

/-- An options bag with its first/last flags left out. -/
def eraseOptions (o : Options) : Options :=
  { o with firstAnimationInScenario := false, lastAnimationInScenario := false }

/-- A timeline entry with the request id and the first/last flags left out. -/
def eraseEntry (e : Entry) : Entry :=
  { e with animationConfig := eraseCfg e.animationConfig, options := eraseOptions e.options }

/-- An event with the request id and the first/last flags left out; diagnostics are
dropped (they are compared on their own). -/
def eraseEvent : Event → Option Event
  | .error _ => none
  | .dispatch componentId animationConfig _ _ =>
      some (Event.dispatch componentId (eraseCfg animationConfig) false false)
  | .timelineAdd loc componentId animationConfig position =>
      some (Event.timelineAdd loc componentId (eraseCfg animationConfig) position)
  | e => some e

/-- A log with request ids, first/last flags and diagnostics left out. -/
def eraseTrace (log : List Event) : List Event := log.filterMap eraseEvent

/-- What a component is to a dispatch apart from its two animation sets and its flags:
its instance and its `animations` map. -/
def frame (c : ComponentData) : Instance × List (String × AnimationData) := (c.inst, c.animations)

/-- The `withPrev` branch of the method `addAnimation`, against the timeline the entry
goes to. -/
def resolvePosition (t : Timeline) (animationConfig : AnimObj) : AnimObj :=
  if animationConfig.position = some (Val.str "withPrev") then
    { animationConfig with position := some (Val.num
        (match t.children.getLast? with
          | some previousTimeline => previousTimeline.startTime
          | none => 0)) }
  else animationConfig

/-- The entry the method `addAnimation` of the instance `self` inserts for a normalised
config, on the timeline `t`, when `c` is the component's entry in the registry and
`animationData` its registration of the animation. -/
def mkEntry (self : String) (options : Options) (c : ComponentData)
    (animationData : AnimationData) (t : Timeline) (animationConfig : AnimObj) : Entry :=
  { componentId := self
    animationConfig := resolvePosition t animationConfig
    options := options
    references :=
      { animationComponent := c.inst.wrappedComponentRef
        triggerComponent := options.thisContext.map (fun ctx => ctx.wrappedComponentRef) }
    duration := if animationConfig.immediate then 1 else
      (animationData.generatorFunc animationData.elementRef
        animationConfig.animationOptions).duration
    position := (resolvePosition t animationConfig).position.getD Val.undefined
    startTime := engineStartTime t ((resolvePosition t animationConfig).position.getD Val.undefined) }

/-- Two states that two runs of a dispatch on the timeline at `loc` keep related: the
same components apart from their animation sets and flags, the same entries on the
timeline apart from request ids and first/last flags, and the same events so far apart
from those and from diagnostics. -/
structure Sim (tl : TimelineRef) (loc : TlLoc) (s t : State) : Prop where
  frames : s.components.map frame = t.components.map frame
  wf : s.WellFormed
  resolveLeft : resolveTimeline s tl = some loc
  resolveRight : resolveTimeline t tl = some loc
  children : (s.timelineAt loc).children.map eraseEntry
    = (t.timelineAt loc).children.map eraseEntry
  trace : eraseTrace s.log = eraseTrace t.log

/-- The state the method `addAnimation` leaves after a successful iteration, from the
state before it: the generator call is recorded, the id is marked pending on `self`, the
entry is appended to the timeline at `loc` and the insertion is recorded. -/
def dispatchState (s : State) (self : String) (loc : TlLoc) (id : Option Nat)
    (generatorCall insertion : Event) (entry : Entry) : State :=
  (((s.emit generatorCall).updateComponent self
      (fun d => { d with pendingAnimations := setKey id d.pendingAnimations })).setTimelineAt loc
        { children := (s.timelineAt loc).children ++ [entry] }).emit insertion

/-- The fast-forwards and the insertions recorded in a log, in order: `none` for a
fast-forward of a timeline, the component id for an insertion. -/
def timelineOps (log : List Event) : List (TlLoc × Option String) :=
  log.filterMap (fun e =>
    match e with
    | .progress loc => some (loc, none)
    | .timelineAdd loc componentId _ _ => some (loc, some componentId)
    | _ => none)

/-- The calls of user callbacks and of hooks recorded in a log, in order. -/
def callbackCalls (log : List Event) : List Event :=
  log.filter (fun e =>
    match e with
    | .callback _ _ => true
    | .hook _ _ => true
    | _ => false)

/-- The `animations` field of a scenario when it is a single animation name. -/
def ScenarioConfig.animationName (scenarioConfig : ScenarioConfig) : Option String :=
  match scenarioConfig.animations with
  | .value (.str animation) => some animation
  | _ => none

/-- Whether a function-form config resolves to nothing the normaliser can use: it is
evaluated without a valid `this` context, or it returns `null`/`undefined`, or a value
that is neither a string nor an object. -/
def resolvesToNothing (f : Val → FuncResult) (thisContext : Option Instance) : Bool :=
  match thisContext with
  | some ctx =>
      if ctx.animationComponentId ≠ "" then
        match f ctx.wrappedComponentRef with
        | .nullish => true
        | .other => true
        | _ => false
      else true
  | none => true

/-- The value of `previousTimeline.startTime()` for the last child of a timeline, and 0
for a timeline without children. -/
def Timeline.lastChildStart (t : Timeline) : Int :=
  match t.children.getLast? with
  | some previousTimeline => previousTimeline.startTime
  | none => 0

/-! ## Helper lemmas -/

theorem component_mem {s : State} {self : String} {c : ComponentData}
    (h : s.component self = some c) : c ∈ s.components :=
  List.mem_of_find?_eq_some h

theorem component_id {s : State} {self : String} {c : ComponentData}
    (h : s.component self = some c) : c.id = self := by
  have := List.find?_some h
  simpa using this

theorem testScenario_result_false_iff (ref : Val) (sc : ScenarioConfig) (prev next : Props) :
    (testScenario ref sc prev next).result = false ↔
      ∀ t ∈ sc.triggerArray, fires ref prev next t = false := by
  simp [testScenario, fires]

theorem testScenario_eq_iff (ref : Val) (sc : ScenarioConfig) (prev next : Props)
    (st : ScenarioTest) :
    ((testScenario ref sc prev next).result = true ∧ st = testScenario ref sc prev next) ↔
      st.scenarioConfig = sc ∧ st.result = true ∧
      ∃ tpre t tpost, sc.triggerArray = tpre ++ t :: tpost ∧
        (∀ u ∈ tpre, fires ref prev next u = false) ∧ fires ref prev next t = true ∧
        st.firedTriggerConfig = some t := by
  constructor
  · rintro ⟨hres, rfl⟩
    refine ⟨rfl, hres, ?_⟩
    simp only [testScenario, Option.isSome_iff_exists] at hres
    obtain ⟨t, ht⟩ := hres
    obtain ⟨hp, tpre, tpost, hsplit, hpre⟩ := List.find?_eq_some.mp ht
    refine ⟨tpre, t, tpost, hsplit, ?_, hp, ?_⟩
    · intro u hu
      simpa [fires] using hpre u hu
    · simp [testScenario, ht]
  · rintro ⟨hsc, hres, tpre, t, tpost, hsplit, hpre, ht, hfired⟩
    have hfind : sc.triggerArray.find? (fun t => (testTrigger ref t prev next).truthy) = some t := by
      apply List.find?_eq_some.mpr
      refine ⟨ht, tpre, tpost, hsplit, ?_⟩
      intro u hu
      simpa [fires] using hpre u hu
    refine ⟨by simp [testScenario, hfind], ?_⟩
    cases st with
    | mk r c f =>
      simp only at hsc hres hfired
      subst hsc hres hfired
      simp [testScenario, hfind]

theorem someMatch_eq_some_iff (ref : Val) (prev next : Props) (l : List ScenarioConfig)
    (st : ScenarioTest) :
    someMatch ref prev next l = some st ↔
      ∃ pre sc post, l = pre ++ sc :: post ∧
        (∀ x ∈ pre, (testScenario ref x prev next).result = false) ∧
        (testScenario ref sc prev next).result = true ∧ st = testScenario ref sc prev next := by
  induction l with
  | nil => simp [someMatch]
  | cons a l ih =>
    by_cases ha : (testScenario ref a prev next).result = true
    · have hstep : someMatch ref prev next (a :: l) = some (testScenario ref a prev next) := by
        simp [someMatch, ha]
      rw [hstep, Option.some.injEq]
      constructor
      · intro h
        exact ⟨[], a, l, rfl, by simp, ha, h.symm⟩
      · rintro ⟨pre, sc, post, hsplit, hpre, _, hst⟩
        cases pre with
        | nil =>
          simp only [List.nil_append, List.cons.injEq] at hsplit
          rw [hst, ← hsplit.1]
        | cons b pre =>
          simp only [List.cons_append, List.cons.injEq] at hsplit
          have := hpre b (by simp)
          rw [← hsplit.1, ha] at this
          exact absurd this (by simp)
    · have hstep : someMatch ref prev next (a :: l) = someMatch ref prev next l := by
        simp [someMatch, ha]
      rw [hstep, ih]
      constructor
      · rintro ⟨pre, sc, post, hsplit, hpre, hsc, hst⟩
        refine ⟨a :: pre, sc, post, by simp [hsplit], ?_, hsc, hst⟩
        intro x hx
        rcases List.mem_cons.mp hx with rfl | hx
        · simpa using ha
        · exact hpre x hx
      · rintro ⟨pre, sc, post, hsplit, hpre, hsc, hst⟩
        cases pre with
        | nil =>
          simp only [List.nil_append, List.cons.injEq] at hsplit
          rw [← hsplit.1] at hsc
          exact absurd hsc ha
        | cons b pre =>
          simp only [List.cons_append, List.cons.injEq] at hsplit
          exact ⟨pre, sc, post, hsplit.2, fun x hx => hpre x (by simp [hx]), hsc, hst⟩

theorem someMatch_eq_none_iff (ref : Val) (prev next : Props) (l : List ScenarioConfig) :
    someMatch ref prev next l = none ↔
      ∀ x ∈ l, (testScenario ref x prev next).result = false := by
  induction l with
  | nil => simp [someMatch]
  | cons a l ih =>
    by_cases ha : (testScenario ref a prev next).result = true
    · simp [someMatch, ha]
    · simp [someMatch, ha, ih]

/-! ## C1, C2: the visibility gate -/

/-- C1: a component whose `pendingAnimations` or `runningAnimations` is non-empty is
rendered as its wrapped element, whatever its props (with or without `shouldShow`, and
whatever its value), its `removeCandidate` flag and the `evaluatingAnimations` flags of
the registry. -/
theorem render_wrapped_of_pending_or_running (s : State) (self : String) (props : Props)
    (c : ComponentData) (hc : s.component self = some c)
    (hanim : c.pendingAnimations ≠ [] ∨ c.runningAnimations ≠ []) :
    AnimatedComponent.render s self props = some (RenderResult.wrapped props) := by
  have hlen : 0 < c.pendingAnimations.length ∨ 0 < c.runningAnimations.length := by
    rcases hanim with h | h
    · exact Or.inl (List.length_pos.mpr h)
    · exact Or.inr (List.length_pos.mpr h)
  unfold AnimatedComponent.render
  rw [hc]
  rcases hlen with h | h <;> cases hs : props.has "shouldShow" <;> simp [h]

/-- A state with one component that holds a pending request, and props asking to hide it. -/
theorem render_wrapped_of_pending_or_running_witness :
    AnimatedComponent.render
      { components := [{ inst := { animationComponentId := "Box_1" },
                         pendingAnimations := [some 1] }] }
      "Box_1" [("shouldShow", Val.bool false)]
      = some (RenderResult.wrapped [("shouldShow", Val.bool false)]) :=
  render_wrapped_of_pending_or_running
    { components := [{ inst := { animationComponentId := "Box_1" },
                       pendingAnimations := [some 1] }] }
    "Box_1" _
    { inst := { animationComponentId := "Box_1" }, pendingAnimations := [some 1] }
    rfl (Or.inl (by decide))

/-- C2, as stated, fails: a lone remove candidate that is itself mid-evaluation, with
`shouldShow` false and no pending or running animation, is rendered although no other
component of the registry is evaluating. -/
theorem render_counts_own_evaluation :
    let c : ComponentData :=
      { inst := { animationComponentId := "Box_1" }, removeCandidate := true,
        evaluatingAnimations := true }
    let s : State := { components := [c] }
    let props : Props := [("shouldShow", Val.bool false)]
    s.component "Box_1" = some c ∧
    props.has "shouldShow" = true ∧ props.get "shouldShow" ≠ Val.bool true ∧
    c.pendingAnimations = [] ∧ c.runningAnimations = [] ∧
    (¬ ∃ d ∈ s.components, d.id ≠ "Box_1" ∧ d.evaluatingAnimations = true) ∧
    AnimatedComponent.render s "Box_1" props = some (RenderResult.wrapped props) := by
  refine ⟨rfl, by decide, by decide, rfl, rfl, ?_, by decide⟩
  simp [ComponentData.id]

/-- C2, amended: the wrapped element is rendered iff the props do not contain
`shouldShow`, or `shouldShow === true`, or the component has a pending animation, or a
running one, or it is a remove candidate and some component of the registry (itself
included) has `evaluatingAnimations` true; in every other state `render` returns `null`. -/
theorem render_decision (s : State) (self : String) (props : Props) (c : ComponentData)
    (hc : s.component self = some c) :
    (AnimatedComponent.render s self props = some (RenderResult.wrapped props) ↔
      (props.has "shouldShow" = false ∨ props.get "shouldShow" = Val.bool true ∨
        c.pendingAnimations ≠ [] ∨ c.runningAnimations ≠ [] ∨
        (c.removeCandidate = true ∧ ∃ d ∈ s.components, d.evaluatingAnimations = true))) ∧
    (AnimatedComponent.render s self props = some RenderResult.null ↔
      ¬ (props.has "shouldShow" = false ∨ props.get "shouldShow" = Val.bool true ∨
        c.pendingAnimations ≠ [] ∨ c.runningAnimations ≠ [] ∨
        (c.removeCandidate = true ∧ ∃ d ∈ s.components, d.evaluatingAnimations = true))) := by
  have hp : c.pendingAnimations ≠ [] ↔ 0 < c.pendingAnimations.length := List.length_pos.symm
  have hr : c.runningAnimations ≠ [] ↔ 0 < c.runningAnimations.length := List.length_pos.symm
  rw [hp, hr]
  unfold AnimatedComponent.render
  rw [hc]
  simp only [strictEq, List.any_eq_true, gt_iff_lt]
  constructor
  · split_ifs with h
    · simp only [true_iff]
      simp only [Bool.or_eq_true, Bool.and_eq_true, decide_eq_true_eq, beq_iff_eq,
        List.any_eq_true] at h
      tauto
    · simp only [Option.some.injEq, reduceCtorEq, false_iff]
      simp only [Bool.or_eq_true, Bool.and_eq_true, decide_eq_true_eq, beq_iff_eq,
        List.any_eq_true] at h
      cases hs : props.has "shouldShow" <;> simp_all
  · split_ifs with h
    · simp only [Option.some.injEq, reduceCtorEq, false_iff, not_not]
      simp only [Bool.or_eq_true, Bool.and_eq_true, decide_eq_true_eq, beq_iff_eq,
        List.any_eq_true] at h
      tauto
    · simp only [true_iff]
      simp only [Bool.or_eq_true, Bool.and_eq_true, decide_eq_true_eq, beq_iff_eq,
        List.any_eq_true] at h
      cases hs : props.has "shouldShow" <;> simp_all

/-- The hidden component without animations of P5: it renders `null`. -/
theorem render_decision_witness :
    AnimatedComponent.render
      { components := [{ inst := { animationComponentId := "Box_1" } }] }
      "Box_1" [("shouldShow", Val.bool false)] = some RenderResult.null :=
  ((render_decision { components := [{ inst := { animationComponentId := "Box_1" } }] }
    "Box_1" [("shouldShow", Val.bool false)]
    { inst := { animationComponentId := "Box_1" } } rfl).2).mpr (by decide)

/-! ## C3, C4: triggers and the scenario matcher -/

/-- C3: first match wins.  The matcher returns the test of a scenario `st.scenarioConfig`
exactly when that scenario declares a trigger, no trigger fires in any trigger-declaring
scenario declared before it, and `st.firedTriggerConfig` is the first trigger of its
trigger list (a single trigger being a one-element list) that fires; it returns nothing
exactly when no trigger of any trigger-declaring scenario fires. -/
theorem matchScenario_first_match_wins (ref : Val) (scenariosConfig : List ScenarioConfig)
    (prev next : Props) :
    (∀ st : ScenarioTest, matchScenario ref scenariosConfig prev next = some st ↔
      ∃ pre post tpre t tpost,
        scenariosConfig = pre ++ st.scenarioConfig :: post ∧
        st.scenarioConfig.trigger.isSome = true ∧
        (∀ sc ∈ pre, sc.trigger.isSome = true →
          ∀ u ∈ sc.triggerArray, fires ref prev next u = false) ∧
        st.scenarioConfig.triggerArray = tpre ++ t :: tpost ∧
        (∀ u ∈ tpre, fires ref prev next u = false) ∧
        fires ref prev next t = true ∧
        st.firedTriggerConfig = some t ∧ st.result = true) ∧
    (matchScenario ref scenariosConfig prev next = none ↔
      ∀ sc ∈ scenariosConfig, sc.trigger.isSome = true →
        ∀ u ∈ sc.triggerArray, fires ref prev next u = false) := by
  constructor
  · intro st
    unfold matchScenario
    rw [someMatch_eq_some_iff]
    constructor
    · rintro ⟨fpre, sc, fpost, hsplit, hpre, hsc, hst⟩
      obtain ⟨hcfg, hres, tpre, t, tpost, htsplit, htpre, ht, hfired⟩ :=
        (testScenario_eq_iff ref sc prev next st).mp ⟨hsc, hst⟩
      obtain ⟨pre, rest, hl, hfpre, hrest⟩ := List.filter_eq_append_iff.mp hsplit
      obtain ⟨mid, post, hr, hmid, hpsc, _⟩ := List.filter_eq_cons_iff.mp hrest
      refine ⟨pre ++ mid, post, tpre, t, tpost, ?_, ?_, ?_, ?_, htpre, ht, hfired, hres⟩
      · rw [hl, hr, hcfg]; simp
      · rw [hcfg]; exact hpsc
      · intro x hx hxt
        rcases List.mem_append.mp hx with hx | hx
        · have hxf : x ∈ fpre := by
            rw [← hfpre]; exact List.mem_filter.mpr ⟨hx, hxt⟩
          exact (testScenario_result_false_iff ref x prev next).mp (hpre x hxf)
        · have := hmid x hx
          simp [hxt] at this
      · rw [hcfg]; exact htsplit
    · rintro ⟨pre, post, tpre, t, tpost, hsplit, hdecl, hpre, htsplit, htpre, ht, hfired, hres⟩
      have hboth := (testScenario_eq_iff ref st.scenarioConfig prev next st).mpr
        ⟨rfl, hres, tpre, t, tpost, htsplit, htpre, ht, hfired⟩
      refine ⟨pre.filter (fun sc => sc.trigger.isSome), st.scenarioConfig,
        post.filter (fun sc => sc.trigger.isSome), ?_, ?_, hboth.1, hboth.2⟩
      · rw [hsplit, List.filter_append]
        simp [List.filter_cons, hdecl]
      · intro x hx
        obtain ⟨hx1, hx2⟩ := List.mem_filter.mp hx
        exact (testScenario_result_false_iff ref x prev next).mpr (hpre x hx1 hx2)
  · unfold matchScenario
    rw [someMatch_eq_none_iff]
    constructor
    · intro h sc hsc hdecl
      exact (testScenario_result_false_iff ref sc prev next).mp
        (h sc (List.mem_filter.mpr ⟨hsc, hdecl⟩))
    · intro h sc hsc
      obtain ⟨h1, h2⟩ := List.mem_filter.mp hsc
      exact (testScenario_result_false_iff ref sc prev next).mpr (h sc h1 h2)

/-- P2 of the spec: with scenarios `[A, B]` whose triggers both fire, the matcher
returns the test of `A`, split as the theorem says. -/
theorem matchScenario_first_match_wins_witness :
    ∃ pre post tpre t tpost,
      ([{ id := some "A", trigger := some (OneOrMany.one (TriggerConfig.function
            (fun _ _ _ => Val.bool true))) },
        { id := some "B", trigger := some (OneOrMany.one (TriggerConfig.function
            (fun _ _ _ => Val.bool true))) }] : List ScenarioConfig)
        = pre ++ ({ id := some "A", trigger := some (OneOrMany.one (TriggerConfig.function
            (fun _ _ _ => Val.bool true))) } : ScenarioConfig) :: post ∧
      (some (OneOrMany.one (TriggerConfig.function (fun _ _ _ => Val.bool true)))).isSome = true ∧
      (∀ sc ∈ pre, sc.trigger.isSome = true →
        ∀ u ∈ sc.triggerArray, fires Val.null [] [] u = false) ∧
      [TriggerConfig.function (fun _ _ _ => Val.bool true)] = tpre ++ t :: tpost ∧
      (∀ u ∈ tpre, fires Val.null [] [] u = false) ∧
      fires Val.null [] [] t = true ∧
      some (TriggerConfig.function (fun _ _ _ => Val.bool true)) = some t ∧ true = true :=
  ((matchScenario_first_match_wins Val.null
    [{ id := some "A", trigger := some (OneOrMany.one (TriggerConfig.function
          (fun _ _ _ => Val.bool true))) },
     { id := some "B", trigger := some (OneOrMany.one (TriggerConfig.function
          (fun _ _ _ => Val.bool true))) }] [] []).1
    { result := true
      scenarioConfig := { id := some "A", trigger := some (OneOrMany.one
        (TriggerConfig.function (fun _ _ _ => Val.bool true))) }
      firedTriggerConfig := some (TriggerConfig.function (fun _ _ _ => Val.bool true)) }).mp rfl

/-- C4: an object-form trigger returns `true` when `select(prevProps) === value` and
`select(nextProps) === nextValue` and `false` otherwise; a function-form trigger returns
what the predicate returns on `(wrappedComponentRef.current, prevProps, nextProps)`; and
a trigger fires in `testScenario` exactly when `testTrigger` returned a truthy value. -/
theorem testTrigger_spec (ref : Val) (prev next : Props) :
    (∀ (select : Props → Val) (value nextValue : Val),
      (testTrigger ref (TriggerConfig.object select value nextValue) prev next = Val.bool true ↔
        (select prev = value ∧ select next = nextValue)) ∧
      (testTrigger ref (TriggerConfig.object select value nextValue) prev next = Val.bool false ↔
        ¬ (select prev = value ∧ select next = nextValue))) ∧
    (∀ f : Val → Props → Props → Val,
      testTrigger ref (TriggerConfig.function f) prev next = f ref prev next) ∧
    (∀ (t : TriggerConfig) (sc : ScenarioConfig), sc.trigger = some (OneOrMany.one t) →
      (testScenario ref sc prev next).result = (testTrigger ref t prev next).truthy ∧
      ((testScenario ref sc prev next).firedTriggerConfig.isSome =
        (testTrigger ref t prev next).truthy)) := by
  refine ⟨?_, ?_, ?_⟩
  · intro select value nextValue
    simp [testTrigger, strictEq]
  · intro f
    rfl
  · intro t sc hsc
    simp only [testScenario, ScenarioConfig.triggerArray, hsc, OneOrMany.toArray, List.find?]
    cases (testTrigger ref t prev next).truthy <;> simp

/-- A selector trigger on the key `open` going from `false` to `true`. -/
theorem testTrigger_spec_witness :
    (testScenario Val.null
      { trigger := some (OneOrMany.one
          (TriggerConfig.object (fun p => p.get "open") (Val.bool false) (Val.bool true))) }
      [("open", Val.bool false)] [("open", Val.bool true)]).result = true :=
  ((testTrigger_spec Val.null [("open", Val.bool false)] [("open", Val.bool true)]).2.2
    (TriggerConfig.object (fun p => p.get "open") (Val.bool false) (Val.bool true))
    { trigger := some (OneOrMany.one
        (TriggerConfig.object (fun p => p.get "open") (Val.bool false) (Val.bool true))) }
    rfl).1.trans (by decide)

/-! ## C9, C10: the normaliser -/

theorem applyDefaults_transformed (s : State) (o : Option AnimObj) :
    (applyDefaults s o).2.transformed = true := rfl

theorem transformAnimationConfig_transformed (s : State) (x : RawAnimationConfig)
    (ctx : Option Instance) : (transformAnimationConfig s x ctx).2.transformed = true := by
  unfold transformAnimationConfig
  split
  · split
    · assumption
    · rfl
  · rfl
  · split
    · split
      · split <;> rfl
      · rfl
    · rfl

/-- What `transformAnimationConfig` returns for an input without the marker: the counter
advanced by one, and the fields of the spread source over the two defaults. -/
theorem transformAnimationConfig_unmarked (s : State) (x : RawAnimationConfig)
    (ctx : Option Instance) (hx : isMarked x = false) :
    (transformAnimationConfig s x ctx).1.animationIdCounter = s.animationIdCounter + 1 ∧
    (transformAnimationConfig s x ctx).2 =
      { spreadSource x ctx with
        id := some ((spreadSource x ctx).id.getD (s.animationIdCounter + 1))
        position := some ((spreadSource x ctx).position.getD (Val.str "+=0"))
        transformed := true } := by
  unfold transformAnimationConfig spreadSource
  cases x with
  | obj o =>
    simp only [isMarked] at hx
    simp [hx, applyDefaults]
  | str name => simp [applyDefaults]
  | func f =>
    cases ctx with
    | none => simp [applyDefaults, error, State.emit]
    | some ctx =>
      by_cases hid : ctx.animationComponentId = ""
      · simp [hid, applyDefaults, error, State.emit]
      · simp only [ne_eq, hid, not_false_eq_true, if_true]
        cases f ctx.wrappedComponentRef <;> simp [applyDefaults, error, State.emit]

/-- C9: an input that carries the `__transformed` marker is returned as it is and the
state (the id counter in particular) is left as it is; hence normalising the result of a
normalisation again, under any context, returns the same request (same id, position,
animation and every other field) and does not advance the counter. -/
theorem transformAnimationConfig_idempotent (s : State) (ctx ctx2 : Option Instance) :
    (∀ o : AnimObj, o.transformed = true →
      transformAnimationConfig s (RawAnimationConfig.obj o) ctx = (s, o)) ∧
    (∀ x : RawAnimationConfig,
      transformAnimationConfig (transformAnimationConfig s x ctx).1
        (RawAnimationConfig.obj (transformAnimationConfig s x ctx).2) ctx2
        = transformAnimationConfig s x ctx) := by
  constructor
  · intro o ho
    simp [transformAnimationConfig, ho]
  · intro x
    have h := transformAnimationConfig_transformed s x ctx
    generalize transformAnimationConfig s x ctx = r at h ⊢
    obtain ⟨s1, o⟩ := r
    simp only at h
    simp [transformAnimationConfig, h]

/-- A request carrying the marker comes back unchanged, the counter still at 4. -/
theorem transformAnimationConfig_idempotent_witness :
    transformAnimationConfig { animationIdCounter := 4 }
      (RawAnimationConfig.obj
        { id := some 3, position := some (Val.str "+=0"), animation := some "fadeIn",
          transformed := true }) none
      = ({ animationIdCounter := 4 },
         { id := some 3, position := some (Val.str "+=0"), animation := some "fadeIn",
           transformed := true }) :=
  (transformAnimationConfig_idempotent { animationIdCounter := 4 } none none).1 _ rfl

/-- C10, as stated, fails: a config object that has its own `id` keeps it (the spread
comes after the default), so normalising `{animation: "x", id: 7}` twice gives two
requests with the same id 7. -/
theorem explicit_id_overrides_fresh_id :
    let x := RawAnimationConfig.obj { animation := some "x", id := some 7 }
    isMarked x = false ∧
    ((normalizeAll {} [(x, none), (x, none)]).2.map (fun r => r.id)) = [some 7, some 7] := by
  decide

theorem normalizeAll_ids (inputs : List (RawAnimationConfig × Option Instance)) :
    ∀ s : State,
    (∀ x ∈ inputs, isMarked x.1 = false ∧ (spreadSource x.1 x.2).id = none) →
    (normalizeAll s inputs).2.map (fun r => r.id)
      = (List.range inputs.length).map (fun k => some (s.animationIdCounter + 1 + k)) := by
  induction inputs with
  | nil => intro s _; rfl
  | cons x rest ih =>
    intro s h
    obtain ⟨input, ctx⟩ := x
    have hx := h (input, ctx) (by simp)
    obtain ⟨hcount, hcfg⟩ := transformAnimationConfig_unmarked s input ctx hx.1
    have hrest := ih (transformAnimationConfig s input ctx).1
      (fun y hy => h y (List.mem_cons_of_mem _ hy))
    simp only [normalizeAll, List.map_cons, List.length_cons, List.range_succ_eq_map]
    rw [hrest, hcfg, hcount]
    simp only [hx.2, Option.getD_none, List.map_cons, List.map_map, Nat.add_zero,
      List.cons.injEq, true_and]
    apply List.map_congr_left
    intro k _
    simp only [Function.comp, Option.some.injEq]
    omega

/-- C10, amended: for every sequence of normalisations of inputs that do not carry the
marker and do not supply an `id` of their own (strings, config objects without an `id`
field, functions whose result has none), starting from any state, the ids of the
resulting requests are the successive values of the counter: all above the starting
value, strictly increasing in creation order and pairwise distinct. -/
theorem request_ids_strictly_increasing (s : State)
    (inputs : List (RawAnimationConfig × Option Instance))
    (h : ∀ x ∈ inputs, isMarked x.1 = false ∧ (spreadSource x.1 x.2).id = none) :
    ∃ ids : List Nat,
      (normalizeAll s inputs).2.map (fun r => r.id) = ids.map some ∧
      (∀ n ∈ ids, s.animationIdCounter < n) ∧
      ids.Pairwise (fun a b => a < b) ∧ ids.Nodup := by
  refine ⟨(List.range inputs.length).map (fun k => s.animationIdCounter + 1 + k), ?_, ?_, ?_, ?_⟩
  · rw [normalizeAll_ids inputs s h, List.map_map]
    rfl
  · intro n hn
    obtain ⟨k, _, rfl⟩ := List.mem_map.mp hn
    omega
  · rw [List.pairwise_map]
    exact (List.pairwise_lt_range _).imp (fun h => by omega)
  · apply List.Nodup.map _ (List.nodup_range _)
    intro a b hab
    simpa using hab

/-- A string, a config object and a function, normalised in a row from a fresh state. -/
theorem request_ids_strictly_increasing_witness :
    ∃ ids : List Nat,
      (normalizeAll {}
        [(RawAnimationConfig.str "fadeIn", none),
         (RawAnimationConfig.obj { animation := some "expand" }, none),
         (RawAnimationConfig.func (fun _ => FuncResult.str "fadeOut"),
           some { animationComponentId := "Box_1" })]).2.map (fun r => r.id) = ids.map some ∧
      (∀ n ∈ ids, (0 : Nat) < n) ∧
      ids.Pairwise (fun a b => a < b) ∧ ids.Nodup :=
  request_ids_strictly_increasing {} _ (by
    intro x hx
    simp only [List.mem_cons, List.mem_singleton, List.not_mem_nil, or_false] at hx
    rcases hx with rfl | rfl | rfl <;> exact ⟨rfl, rfl⟩)

/-! ## C7: pending precedes running -/

theorem find?_updateComponent (s : State) (id other : String)
    (f : ComponentData → ComponentData) (hf : ∀ c, (f c).id = c.id) :
    (s.updateComponent id f).component other =
      (s.component other).map (fun c => if c.id = id then f c else c) := by
  unfold State.updateComponent State.component
  simp only [List.find?_map]
  congr 2
  funext c
  simp only [Function.comp]
  split
  · rw [hf]
  · rfl

theorem updateComponent_component_self (s : State) (id : String)
    (f : ComponentData → ComponentData) (hf : ∀ c, (f c).id = c.id) :
    (s.updateComponent id f).component id = (s.component id).map f := by
  rw [find?_updateComponent s id id f hf]
  cases h : s.component id with
  | none => rfl
  | some c => simp [component_id h]

theorem updateComponent_component_other (s : State) (id other : String)
    (f : ComponentData → ComponentData) (hf : ∀ c, (f c).id = c.id) (h : other ≠ id) :
    (s.updateComponent id f).component other = s.component other := by
  rw [find?_updateComponent s id other f hf]
  cases hc : s.component other with
  | none => rfl
  | some c => simp [component_id hc, h]

theorem mem_setKey (key : Option Nat) (set : List (Option Nat)) : key ∈ setKey key set := by
  unfold setKey
  split
  · assumption
  · simp

theorem not_mem_deleteKey (key : Option Nat) (set : List (Option Nat)) :
    key ∉ deleteKey key set := by
  simp [deleteKey]

theorem transformAnimationConfig_components (s : State) (x : RawAnimationConfig)
    (ctx : Option Instance) : (transformAnimationConfig s x ctx).1.components = s.components := by
  unfold transformAnimationConfig
  split
  · split <;> rfl
  · rfl
  · split
    · split
      · split <;> rfl
      · rfl
    · rfl

theorem transformAnimationConfig_timelines (s : State) (x : RawAnimationConfig)
    (ctx : Option Instance) :
    (transformAnimationConfig s x ctx).1.master = s.master ∧
    (transformAnimationConfig s x ctx).1.timelines = s.timelines ∧
    (transformAnimationConfig s x ctx).1.handles = s.handles := by
  unfold transformAnimationConfig
  split
  · split <;> exact ⟨rfl, rfl, rfl⟩
  · exact ⟨rfl, rfl, rfl⟩
  · split
    · split
      · split <;> exact ⟨rfl, rfl, rfl⟩
      · exact ⟨rfl, rfl, rfl⟩
    · exact ⟨rfl, rfl, rfl⟩

theorem setTimelineAt_components (s : State) (loc : TlLoc) (t : Timeline) :
    (s.setTimelineAt loc t).components = s.components := by
  cases loc <;> rfl

theorem lookup_upsert_self {κ α : Type} [DecidableEq κ] (map : List (κ × α)) (key : κ) (a : α) :
    (upsert map key a).lookup key = some a := by
  unfold upsert
  split
  · rename_i h
    induction map with
    | nil => simp at h
    | cons kv rest ih =>
      obtain ⟨k, v⟩ := kv
      rw [List.map_cons]
      by_cases hk : k = key
      · have hhead : (if (k, v).1 = key then (key, a) else (k, v)) = (key, a) := if_pos hk
        simp only [hhead, List.lookup_cons, beq_self_eq_true]
      · have hk2 : (key == k) = false := by simpa using fun h2 => hk h2.symm
        have hhead : (if (k, v).1 = key then (key, a) else (k, v)) = (k, v) := if_neg hk
        simp only [hhead, List.lookup_cons, hk2]
        apply ih
        simpa [hk] using h
  · rename_i h
    induction map with
    | nil => simp [List.lookup]
    | cons kv rest ih =>
      obtain ⟨k, v⟩ := kv
      have hk : ¬ k = key := by
        intro hk; apply h; simp [hk]
      have hk2 : (key == k) = false := by simpa using fun h2 => hk h2.symm
      simp only [List.cons_append, List.lookup, hk2]
      apply ih
      intro h2
      apply h
      simp only [List.any_cons, Bool.or_eq_true]
      exact Or.inr h2

theorem timelineAt_setTimelineAt (s : State) (loc : TlLoc) (t : Timeline) :
    (s.setTimelineAt loc t).timelineAt loc = t := by
  cases loc with
  | master => rfl
  | named n => simp [State.setTimelineAt, State.timelineAt, lookup_upsert_self]
  | handle h => simp [State.setTimelineAt, State.timelineAt, lookup_upsert_self]

/-- The method iteration on a component that registers the animation: what it returns
and the state it leaves, written out. -/
theorem addAnimationItem_registered (self : String) (tl : TimelineRef) (options : Options)
    (s : State) (raw : RawAnimationConfig) (c : ComponentData) (ad : AnimationData)
    (hc : s.component self = some c)
    (had : c.animations.lookup
      (nameOf (transformAnimationConfig s raw (some c.inst)).2.animation) = some ad) :
    let s1 := (transformAnimationConfig s raw (some c.inst)).1
    let cfg := (transformAnimationConfig s raw (some c.inst)).2
    let s2 := (s1.emit (Event.generator self (nameOf cfg.animation) ad.elementRef
      cfg.animationOptions)).updateComponent self
        (fun c => { c with pendingAnimations := setKey cfg.id c.pendingAnimations })
    match resolveTimeline s tl with
    | none =>
        AnimatedComponent.addAnimationItem self tl options s raw
          = ({ state := s2, threw := true }, some cfg)
    | some loc =>
        let cfg1 : AnimObj :=
          if cfg.position = some (Val.str "withPrev") then
            { cfg with position := some (Val.num
                (match (s.timelineAt loc).children.getLast? with
                  | some previousTimeline => previousTimeline.startTime
                  | none => 0)) }
          else cfg
        let entry : Entry :=
          { componentId := self
            animationConfig := cfg1
            options := options
            references :=
              { animationComponent := c.inst.wrappedComponentRef
                triggerComponent := options.thisContext.map (fun ctx => ctx.wrappedComponentRef) }
            duration := if cfg.immediate then 1 else
              (ad.generatorFunc ad.elementRef cfg.animationOptions).duration
            position := cfg1.position.getD Val.undefined
            startTime := engineStartTime (s.timelineAt loc) (cfg1.position.getD Val.undefined) }
        AnimatedComponent.addAnimationItem self tl options s raw
          = ({ state := (s2.setTimelineAt loc
                { s.timelineAt loc with children := (s.timelineAt loc).children ++ [entry] }).emit
                (Event.timelineAdd loc self cfg1 (cfg1.position.getD Val.undefined)) },
             some cfg1) := by
  intro s1 cfg s2
  have htl := transformAnimationConfig_timelines s raw (some c.inst)
  have hres : ∀ s3 : State, s3.timelines = s.timelines → resolveTimeline s3 tl = resolveTimeline s tl := by
    intro s3 h3
    cases tl <;> simp [resolveTimeline, h3]
  have hat : ∀ (s3 : State) (loc : TlLoc), s3.master = s.master → s3.timelines = s.timelines →
      s3.handles = s.handles → s3.timelineAt loc = s.timelineAt loc := by
    intro s3 loc h1 h2 h3
    cases loc <;> simp [State.timelineAt, h1, h2, h3]
  cases hr : resolveTimeline s tl with
  | none =>
    simp only
    unfold AnimatedComponent.addAnimationItem
    simp only [hc]
    rw [had]
    simp only
    rw [hres _ (by simp [State.emit, htl.2.1]), hr]
  | some loc =>
    simp only
    unfold AnimatedComponent.addAnimationItem
    simp only [hc]
    rw [had]
    simp only
    rw [hres _ (by simp [State.emit, htl.2.1]), hr]
    simp only
    rw [hat _ loc (by simp [State.updateComponent, State.emit, htl.1])
      (by simp [State.updateComponent, State.emit, htl.2.1])
      (by simp [State.updateComponent, State.emit, htl.2.2])]

theorem component_congr {s t : State} (h : s.components = t.components) (id : String) :
    s.component id = t.component id := by
  unfold State.component
  rw [h]

theorem onStartCallback_components (e : Entry) (s : State) :
    (onStartCallback e s).components =
      (s.updateComponent e.componentId (fun c =>
        { c with
          runningAnimations := setKey e.animationConfig.id c.runningAnimations
          pendingAnimations := deleteKey e.animationConfig.id c.pendingAnimations })).components := by
  unfold onStartCallback
  simp only
  split <;> split <;> rfl

theorem onCompleteCallback_components (e : Entry) (s : State) :
    (onCompleteCallback e s).components =
      (s.updateComponent e.componentId (fun c =>
        { c with runningAnimations := deleteKey e.animationConfig.id c.runningAnimations })).components := by
  unfold onCompleteCallback
  simp only
  split <;> split <;> rfl

theorem addAnimationItem_components (self : String) (tl : TimelineRef) (options : Options)
    (s : State) (raw : RawAnimationConfig) (c : ComponentData) (ad : AnimationData)
    (hc : s.component self = some c)
    (had : c.animations.lookup
      (nameOf (transformAnimationConfig s raw (some c.inst)).2.animation) = some ad) :
    (AnimatedComponent.addAnimationItem self tl options s raw).1.state.components =
      (s.updateComponent self (fun d =>
        { d with
          pendingAnimations :=
            setKey (transformAnimationConfig s raw (some c.inst)).2.id
              d.pendingAnimations })).components := by
  have h := addAnimationItem_registered self tl options s raw c ad hc had
  have hcomp := transformAnimationConfig_components s raw (some c.inst)
  cases hr : resolveTimeline s tl with
  | none =>
    simp only [hr] at h
    rw [h]
    simp only [State.updateComponent, State.emit, hcomp]
  | some loc =>
    simp only [hr] at h
    rw [h]
    simp only [State.emit, setTimelineAt_components]
    simp only [State.updateComponent, hcomp]

/-- C7, as stated, fails: a request whose config names its own id, sent twice to the same
component with the first entry started in between, leaves the id both pending and
running after the second component-level `addAnimation` step. -/
theorem redispatched_id_is_pending_and_running :
    let c : ComponentData :=
      { inst := { animationComponentId := "Box_1" }
        animations := [("x", { generatorFunc := fun _ _ => { duration := 500 },
                               elementRef := Val.obj 7 })] }
    let raw := RawAnimationConfig.obj { animation := some "x", id := some 1 }
    let s1 := (AnimatedComponent.addAnimationItem "Box_1" TimelineRef.nullish {}
      { components := [c] } raw).1.state
    let s2 := (s1.master.children.map (fun e => onStartCallback e s1)).getLastD s1
    let out := (AnimatedComponent.addAnimationItem "Box_1" TimelineRef.nullish {} s2 raw).1
    s1.components.map (fun d => (d.pendingAnimations, d.runningAnimations)) = [([some 1], [])] ∧
    s2.components.map (fun d => (d.pendingAnimations, d.runningAnimations)) = [([], [some 1])] ∧
    out.threw = false ∧
    out.state.components.map (fun d => (d.pendingAnimations, d.runningAnimations))
      = [([some 1], [some 1])] := by
  decide

/-- C7, amended: when a request is dispatched to a component that registers its animation
and the request id is not already in that component's `runningAnimations`, then after
the component-level `addAnimation` step the
id is in that component's `pendingAnimations` and not in `runningAnimations`; after the
on-start callback of its entry the id is in `runningAnimations` and no longer in
`pendingAnimations`; after the on-complete callback it is in neither set.  No other
component's entry is changed by these steps, and when the timeline reference resolves the
step appends to that timeline exactly one entry, whose callbacks are those. -/
theorem pending_precedes_running (s : State) (self : String) (c : ComponentData)
    (raw : RawAnimationConfig) (tl : TimelineRef) (options : Options)
    (hc : s.component self = some c)
    (hreg : (c.animations.lookup
      (nameOf (transformAnimationConfig s raw (some c.inst)).2.animation)).isSome = true)
    (hfresh : (transformAnimationConfig s raw (some c.inst)).2.id ∉ c.runningAnimations) :
    let id := (transformAnimationConfig s raw (some c.inst)).2.id
    let s1 := (AnimatedComponent.addAnimationItem self tl options s raw).1.state
    (∃ c1, s1.component self = some c1 ∧
      id ∈ c1.pendingAnimations ∧ id ∉ c1.runningAnimations) ∧
    (∀ e : Entry, e.componentId = self → e.animationConfig.id = id →
      (∃ c2, (onStartCallback e s1).component self = some c2 ∧
        id ∈ c2.runningAnimations ∧ id ∉ c2.pendingAnimations) ∧
      (∃ c3, (onCompleteCallback e (onStartCallback e s1)).component self = some c3 ∧
        id ∉ c3.runningAnimations ∧ id ∉ c3.pendingAnimations) ∧
      (∀ other, other ≠ self →
        s1.component other = s.component other ∧
        (onStartCallback e s1).component other = s.component other ∧
        (onCompleteCallback e (onStartCallback e s1)).component other = s.component other)) ∧
    (∀ loc, resolveTimeline s tl = some loc →
      ∃ e : Entry, (s1.timelineAt loc).children = (s.timelineAt loc).children ++ [e] ∧
        e.componentId = self ∧ e.animationConfig.id = id) := by
  intro id s1
  obtain ⟨ad, had⟩ := Option.isSome_iff_exists.mp hreg
  have hs1 : ∀ x, s1.component x = (s.updateComponent self (fun d =>
      { d with pendingAnimations := setKey id d.pendingAnimations })).component x :=
    fun x => component_congr (addAnimationItem_components self tl options s raw c ad hc had) x
  have hstart : ∀ (e : Entry) (t : State) (x : String), (onStartCallback e t).component x =
      (t.updateComponent e.componentId (fun c =>
        { c with
          runningAnimations := setKey e.animationConfig.id c.runningAnimations
          pendingAnimations := deleteKey e.animationConfig.id c.pendingAnimations })).component x :=
    fun e t x => component_congr (onStartCallback_components e t) x
  have hdone : ∀ (e : Entry) (t : State) (x : String), (onCompleteCallback e t).component x =
      (t.updateComponent e.componentId (fun c =>
        { c with runningAnimations :=
            deleteKey e.animationConfig.id c.runningAnimations })).component x :=
    fun e t x => component_congr (onCompleteCallback_components e t) x
  have hself1 : s1.component self =
      some { c with pendingAnimations := setKey id c.pendingAnimations } := by
    rw [hs1, updateComponent_component_self, hc]
    · rfl
    · exact fun _ => rfl
  refine ⟨⟨_, hself1, mem_setKey _ _, hfresh⟩, ?_, ?_⟩
  · intro e he hid
    have hself2 : (onStartCallback e s1).component self =
        some { c with
          runningAnimations := setKey id c.runningAnimations
          pendingAnimations := deleteKey id (setKey id c.pendingAnimations) } := by
      rw [hstart, he, updateComponent_component_self, hself1, hid]
      · rfl
      · exact fun _ => rfl
    have hself3 : (onCompleteCallback e (onStartCallback e s1)).component self =
        some { c with
          runningAnimations := deleteKey id (setKey id c.runningAnimations)
          pendingAnimations := deleteKey id (setKey id c.pendingAnimations) } := by
      rw [hdone, he, updateComponent_component_self, hself2, hid]
      · rfl
      · exact fun _ => rfl
    refine ⟨⟨_, hself2, mem_setKey _ _, not_mem_deleteKey _ _⟩,
      ⟨_, hself3, not_mem_deleteKey _ _, not_mem_deleteKey _ _⟩, ?_⟩
    · intro other hother
      have h1 : s1.component other = s.component other := by
        rw [hs1, updateComponent_component_other]
        · exact fun _ => rfl
        · exact hother
      have h2 : (onStartCallback e s1).component other = s.component other := by
        rw [hstart, he, updateComponent_component_other, h1]
        · exact fun _ => rfl
        · exact hother
      refine ⟨h1, h2, ?_⟩
      rw [hdone, he, updateComponent_component_other, h2]
      · exact fun _ => rfl
      · exact hother
  · intro loc hloc
    have h := addAnimationItem_registered self tl options s raw c ad hc had
    simp only [hloc] at h
    have hex : ∃ (e : Entry) (t : State) (ev : Event) (r : Option AnimObj),
        AnimatedComponent.addAnimationItem self tl options s raw =
          ({ state := (t.setTimelineAt loc
              { children := (s.timelineAt loc).children ++ [e] }).emit ev }, r) ∧
        e.componentId = self ∧ e.animationConfig.id = id := by
      refine ⟨_, _, _, _, h, rfl, ?_⟩
      simp only
      split <;> rfl
    obtain ⟨e, t, ev, r, heq, h1, h2⟩ := hex
    refine ⟨e, ?_, h1, h2⟩
    show ((AnimatedComponent.addAnimationItem self tl options s raw).1.state.timelineAt loc).children
      = _
    rw [heq]
    show ((State.setTimelineAt t loc _).timelineAt loc).children = _
    rw [timelineAt_setTimelineAt]

/-- A first dispatch of `fadeIn` to a component that registers it: the fresh id 1 is
pending and not running after the step. -/
theorem pending_precedes_running_witness :
    ∃ c1, (AnimatedComponent.addAnimationItem "Box_1" TimelineRef.nullish {}
        { components := [{ inst := { animationComponentId := "Box_1" },
                           animations := [("fadeIn", { generatorFunc := fun _ _ => {},
                                                       elementRef := Val.null })] }] }
        (RawAnimationConfig.str "fadeIn")).1.state.component "Box_1" = some c1 ∧
      some 1 ∈ c1.pendingAnimations ∧ some 1 ∉ c1.runningAnimations :=
  (pending_precedes_running
    { components := [{ inst := { animationComponentId := "Box_1" },
                       animations := [("fadeIn", { generatorFunc := fun _ _ => {},
                                                   elementRef := Val.null })] }] }
    "Box_1"
    { inst := { animationComponentId := "Box_1" },
      animations := [("fadeIn", { generatorFunc := fun _ _ => {}, elementRef := Val.null })] }
    (RawAnimationConfig.str "fadeIn") TimelineRef.nullish {} rfl rfl (by decide)).1

/-! ## The trace of a global dispatch -/

theorem dispatchTrace_append (l m : List Event) :
    dispatchTrace (l ++ m) = dispatchTrace l ++ dispatchTrace m := by
  simp [dispatchTrace, List.filterMap_append]

theorem generatorTrace_append (l m : List Event) :
    generatorTrace (l ++ m) = generatorTrace l ++ generatorTrace m := by
  simp [generatorTrace, List.filterMap_append]

theorem diagnostics_append (l m : List Event) :
    diagnostics (l ++ m) = diagnostics l ++ diagnostics m := by
  simp [diagnostics, List.filterMap_append]

theorem transformAnimationConfig_log (s : State) (x : RawAnimationConfig)
    (ctx : Option Instance) :
    (transformAnimationConfig s x ctx).1.log =
      s.log ++ (normalizeDiags x ctx).map Event.error := by
  unfold transformAnimationConfig normalizeDiags
  cases x with
  | obj o => by_cases h : o.transformed = true <;> simp [h, applyDefaults]
  | str name => simp [applyDefaults]
  | func f =>
    cases ctx with
    | none => simp [applyDefaults, error, State.emit]
    | some ctx =>
      by_cases hid : ctx.animationComponentId = ""
      · simp [hid, applyDefaults, error, State.emit]
      · simp only [ne_eq, hid, not_false_eq_true, if_true]
        cases f ctx.wrappedComponentRef <;> simp [applyDefaults, error, State.emit]

theorem transformAnimationConfig_animation (s : State) (x : RawAnimationConfig)
    (ctx : Option Instance) :
    nameOf (transformAnimationConfig s x ctx).2.animation = requestName x ctx := by
  unfold requestName transformAnimationConfig
  cases x with
  | obj o => by_cases h : o.transformed = true <;> simp [h, applyDefaults]
  | str name => simp [applyDefaults]
  | func f =>
    cases ctx with
    | none => simp [applyDefaults]
    | some ctx =>
      by_cases hid : ctx.animationComponentId = ""
      · simp [hid, applyDefaults]
      · simp only [ne_eq, hid, not_false_eq_true, if_true]
        cases f ctx.wrappedComponentRef <;> simp [applyDefaults]

theorem targets_eq_of_keys (s : State) (animation : String) :
    targets s animation = (s.keys.filter (fun k => hasKey k.2 animation)).map Prod.fst := by
  unfold targets State.keys
  rw [List.filter_map, List.map_map]
  rfl

theorem targets_congr {s t : State} (h : s.keys = t.keys) (animation : String) :
    targets s animation = targets t animation := by
  rw [targets_eq_of_keys, targets_eq_of_keys, h]

theorem expansion_congr {s t : State} (h : s.keys = t.keys) (ctx : Option Instance)
    (batch : List RawAnimationConfig) : expansion s ctx batch = expansion t ctx batch := by
  unfold expansion
  simp only [targets_congr h]

theorem batchDiags_congr {s t : State} (h : s.keys = t.keys) (ctx : Option Instance)
    (batch : List RawAnimationConfig) : batchDiags s ctx batch = batchDiags t ctx batch := by
  unfold batchDiags
  simp only [targets_congr h]

theorem hasKey_of_not_inherited {α : Type} (map : List (String × α)) (key : String)
    (h : inherited key = false) : hasKey map key = hasOwnKey map key := by
  simp [hasKey, h]

theorem lookup_of_hasOwnKey {α : Type} (map : List (String × α)) (key : String)
    (h : hasOwnKey map key = true) : ∃ a, map.lookup key = some a := by
  induction map with
  | nil => simp [hasOwnKey] at h
  | cons kv rest ih =>
    obtain ⟨k, v⟩ := kv
    by_cases hk : key = k
    · exact ⟨v, by simp [List.lookup, hk]⟩
    · have hk2 : (key == k) = false := by simpa using hk
      simp only [List.lookup_cons, hk2]
      apply ih
      simp only [hasOwnKey, List.any_cons, Bool.or_eq_true, beq_iff_eq] at h ⊢
      rcases h with h | h
      · exact absurd h.symm hk
      · exact h

theorem lookup_of_hasKey {α : Type} (map : List (String × α)) (key : String)
    (hinh : inherited key = false) (h : hasKey map key = true) :
    ∃ a, map.lookup key = some a :=
  lookup_of_hasOwnKey map key (by rw [← hasKey_of_not_inherited map key hinh]; exact h)

theorem component_of_mem (l : List ComponentData) (hnd : (l.map ComponentData.id).Nodup)
    (c : ComponentData) (hc : c ∈ l) : l.find? (fun d => d.id == c.id) = some c := by
  induction l with
  | nil => simp at hc
  | cons a l ih =>
    simp only [List.map_cons, List.nodup_cons] at hnd
    rcases List.mem_cons.mp hc with rfl | hmem
    · simp [List.find?]
    · have hne : (a.id == c.id) = false := by
        simp only [beq_eq_false_iff_ne, ne_eq]
        intro h
        exact hnd.1 (h ▸ List.mem_map_of_mem _ hmem)
      simp only [List.find?, hne]
      exact ih hnd.2 hmem

theorem component_of_key (s : State) (hwf : s.WellFormed) (id : String)
    (anims : List (String × AnimationData)) (h : (id, anims) ∈ s.keys) :
    ∃ c, s.component id = some c ∧ c.animations = anims := by
  unfold State.keys at h
  obtain ⟨c, hc, heq⟩ := List.mem_map.mp h
  simp only [Prod.mk.injEq] at heq
  refine ⟨c, ?_, heq.2⟩
  have := component_of_mem s.components hwf c hc
  rw [heq.1] at this
  exact this

theorem wellFormed_of_keys {s t : State} (h : s.keys = t.keys) (hwf : t.WellFormed) :
    s.WellFormed := by
  unfold State.WellFormed at *
  have hs : s.components.map ComponentData.id = s.keys.map Prod.fst := by
    simp [State.keys]
  have ht : t.components.map ComponentData.id = t.keys.map Prod.fst := by
    simp [State.keys]
  rw [hs, h, ← ht]
  exact hwf

theorem keys_updateComponent (s : State) (id : String) (f : ComponentData → ComponentData)
    (hf : ∀ c, (f c).id = c.id ∧ (f c).animations = c.animations) :
    (s.updateComponent id f).keys = s.keys := by
  unfold State.keys State.updateComponent
  simp only [List.map_map]
  apply List.map_congr_left
  intro c _
  simp only [Function.comp]
  split
  · rw [(hf c).1, (hf c).2]
  · rfl

theorem hasKey_upsert {κ α : Type} [DecidableEq κ] (map : List (κ × α)) (key k : κ) (a : α) :
    ((upsert map key a).any (fun kv => decide (kv.1 = k))) = true ↔
      (map.any (fun kv => decide (kv.1 = k)) = true ∨ k = key) := by
  unfold upsert
  split
  · rename_i h
    simp only [List.any_map, List.any_eq_true, Function.comp, decide_eq_true_eq] at h ⊢
    constructor
    · rintro ⟨x, hx, hxk⟩
      by_cases hxkey : x.1 = key
      · rw [if_pos hxkey] at hxk
        exact Or.inr hxk.symm
      · rw [if_neg hxkey] at hxk
        exact Or.inl ⟨x, hx, hxk⟩
    · rintro (⟨x, hx, hxk⟩ | hk)
      · refine ⟨x, hx, ?_⟩
        by_cases hxkey : x.1 = key
        · rw [if_pos hxkey]; rw [← hxk]; exact hxkey.symm
        · rw [if_neg hxkey]; exact hxk
      · obtain ⟨x, hx, hxk⟩ := h
        refine ⟨x, hx, ?_⟩
        rw [if_pos hxk]
        exact hk.symm
  · simp only [List.any_append, List.any_cons, List.any_nil, Bool.or_false, Bool.or_eq_true,
      decide_eq_true_eq]
    constructor
    · rintro (h | h)
      · exact Or.inl h
      · exact Or.inr h.symm
    · rintro (h | h)
      · exact Or.inl h
      · exact Or.inr h.symm

theorem resolveTimeline_setTimelineAt (s : State) (tl : TimelineRef) (loc : TlLoc) (t : Timeline)
    (h : resolveTimeline s tl = some loc) :
    resolveTimeline (s.setTimelineAt loc t) tl = some loc := by
  cases tl with
  | nullish => exact h
  | handle hd => exact h
  | name n =>
    by_cases hm : n = "master"
    · simpa [resolveTimeline, hm] using h
    · simp only [resolveTimeline, hm, if_false] at h ⊢
      split at h
      · rename_i hk
        simp only [Option.some.injEq] at h
        subst h
        have : hasOwnKey (upsert s.timelines n t) n = true :=
          (hasKey_upsert s.timelines n n t).mpr (Or.inr rfl)
        simp [State.setTimelineAt, this]
      · simp at h

theorem dispatchTrace_errors (ds : List Diag) : dispatchTrace (ds.map Event.error) = [] := by
  induction ds with
  | nil => rfl
  | cons d ds _ => simp [dispatchTrace]

theorem generatorTrace_errors (ds : List Diag) : generatorTrace (ds.map Event.error) = [] := by
  induction ds with
  | nil => rfl
  | cons d ds _ => simp [generatorTrace]

theorem diagnostics_errors (ds : List Diag) : diagnostics (ds.map Event.error) = ds := by
  induction ds with
  | nil => rfl
  | cons d ds ih => simpa [diagnostics] using ih

/-- The method iteration for a config that carries the marker, on a component that
registers its animation, with a timeline reference that resolves. -/
theorem addAnimationItem_marked (self : String) (tl : TimelineRef) (options : Options)
    (s : State) (cfg : AnimObj) (c : ComponentData) (ad : AnimationData) (loc : TlLoc)
    (hc : s.component self = some c) (hm : cfg.transformed = true)
    (had : c.animations.lookup (nameOf cfg.animation) = some ad)
    (hres : resolveTimeline s tl = some loc) :
    ∃ (t : State) (cfg1 : AnimObj),
      AnimatedComponent.addAnimationItem self tl options s (RawAnimationConfig.obj cfg)
        = ({ state := t, threw := false }, some cfg1) ∧
      t.keys = s.keys ∧ resolveTimeline t tl = some loc ∧
      t.log = s.log ++
        [Event.generator self (nameOf cfg.animation) ad.elementRef cfg.animationOptions,
         Event.timelineAdd loc self cfg1 (cfg1.position.getD Val.undefined)] ∧
      cfg1.transformed = true ∧ cfg1.animation = cfg.animation ∧
      t.animationIdCounter = s.animationIdCounter := by
  have ht : transformAnimationConfig s (RawAnimationConfig.obj cfg) (some c.inst) = (s, cfg) := by
    simp [transformAnimationConfig, hm]
  have h := addAnimationItem_registered self tl options s (RawAnimationConfig.obj cfg) c ad hc
    (by rw [ht]; exact had)
  simp only [ht, hres] at h
  refine ⟨_, _, h, ?_, ?_, ?_, ?_, ?_, ?_⟩
  · show State.keys (State.emit (State.setTimelineAt _ loc _) _) = s.keys
    unfold State.keys
    simp only [State.emit, setTimelineAt_components]
    exact keys_updateComponent s self _ (fun _ => ⟨rfl, rfl⟩)
  · show resolveTimeline (State.emit (State.setTimelineAt _ loc _) _) tl = some loc
    have h1 : ∀ (u : State) (e : Event), resolveTimeline (u.emit e) tl = resolveTimeline u tl := by
      intro u e; cases tl <;> rfl
    have h2 : ∀ (u : State) (f : ComponentData → ComponentData),
        resolveTimeline (u.updateComponent self f) tl = resolveTimeline u tl := by
      intro u f; cases tl <;> rfl
    rw [h1]
    apply resolveTimeline_setTimelineAt
    rw [h2, h1]
    exact hres
  · show (State.emit (State.setTimelineAt _ loc _) _).log = _
    cases loc <;> simp [State.emit, State.setTimelineAt, State.updateComponent]
  · split
    · exact hm
    · exact hm
  · split <;> rfl
  · show (State.emit (State.setTimelineAt _ loc _) _).animationIdCounter = _
    cases loc <;> rfl

theorem fanOut_trace (tl : TimelineRef) (loc : TlLoc) (ai len mc : Nat) (name : String)
    (s0 : State) (hwf : s0.WellFormed) :
    ∀ (cs : List ComponentData) (j : Nat) (cfg : AnimObj) (options : Options) (s : State),
      s.keys = s0.keys → resolveTimeline s tl = some loc →
      cfg.transformed = true → nameOf cfg.animation = name → inherited name = false →
      (∀ c ∈ cs, (c.id, c.animations) ∈ s0.keys ∧ hasKey c.animations name = true) →
      (fanOut tl ai len mc j cs cfg options s).1.threw = false ∧
      (fanOut tl ai len mc j cs cfg options s).1.state.keys = s0.keys ∧
      resolveTimeline (fanOut tl ai len mc j cs cfg options s).1.state tl = some loc ∧
      dispatchTrace (fanOut tl ai len mc j cs cfg options s).1.state.log =
        dispatchTrace s.log ++ cs.map (fun c => (c.id, name)) ∧
      generatorTrace (fanOut tl ai len mc j cs cfg options s).1.state.log =
        generatorTrace s.log ++ cs.map (fun c => (c.id, name)) ∧
      diagnostics (fanOut tl ai len mc j cs cfg options s).1.state.log = diagnostics s.log ∧
      (fanOut tl ai len mc j cs cfg options s).2.thisContext = options.thisContext := by
  intro cs
  induction cs with
  | nil =>
    intro j cfg options s hk hres _ _ _ _
    simp [fanOut, hk, hres]
  | cons c rest ih =>
    intro j cfg options s hk hres hm hname hinh hcs
    obtain ⟨hckey, hchas⟩ := hcs c (by simp)
    obtain ⟨c1, hc1, hanims⟩ := component_of_key s (wellFormed_of_keys hk hwf) c.id c.animations
      (hk ▸ hckey)
    obtain ⟨ad, had⟩ := lookup_of_hasKey c.animations name hinh hchas
    rw [← hanims, ← hname] at had
    let options1 : Options :=
      { options with
        firstAnimationInScenario := ai == 0 && j == 0
        lastAnimationInScenario := ai == len - 1 && j == mc - 1 }
    let s1 : State := s.emit (Event.dispatch c.id cfg options1.firstAnimationInScenario
      options1.lastAnimationInScenario)
    obtain ⟨t, cfg1, hitem, htk, htres, htlog, hcfg1m, hcfg1a, _⟩ :=
      addAnimationItem_marked c.id tl options1 s1 cfg c1 ad loc hc1 hm had
        (by cases tl <;> exact hres)
    have hstep : fanOut tl ai len mc j (c :: rest) cfg options s =
        fanOut tl ai len mc (j + 1) rest cfg1 options1 t := by
      simp only [fanOut]
      rw [hitem]
      simp
    rw [hstep]
    have hih := ih (j + 1) cfg1 options1 t (htk.trans hk) htres hcfg1m
      (by rw [hcfg1a]; exact hname) hinh (fun d hd => hcs d (List.mem_cons_of_mem _ hd))
    obtain ⟨h1, h2, h3, h4, h5, h6, h7⟩ := hih
    refine ⟨h1, h2, h3, ?_, ?_, ?_, h7⟩
    · rw [h4, htlog]
      simp [s1, State.emit, dispatchTrace, hname]
    · rw [h5, htlog]
      simp [s1, State.emit, generatorTrace, hname]
    · rw [h6, htlog]
      simp [s1, State.emit, diagnostics]

theorem transformAnimationConfig_keys (s : State) (x : RawAnimationConfig)
    (ctx : Option Instance) : (transformAnimationConfig s x ctx).1.keys = s.keys := by
  unfold State.keys
  rw [transformAnimationConfig_components]

theorem transformAnimationConfig_resolve (s : State) (x : RawAnimationConfig)
    (ctx : Option Instance) (tl : TimelineRef) :
    resolveTimeline (transformAnimationConfig s x ctx).1 tl = resolveTimeline s tl := by
  have h := (transformAnimationConfig_timelines s x ctx).2.1
  cases tl <;> simp [resolveTimeline, h]

/-- The unknown-target iteration of the global `addAnimation`: when no component of the
state registers the name of the request, the iteration normalises the request, logs one
`noComponents` diagnostic and goes on with the rest of the batch. -/
theorem addAnimationLoop_unknown (tl : TimelineRef) (len i : Nat) (raw : RawAnimationConfig)
    (rest : List RawAnimationConfig) (options : Options) (s : State)
    (h : targets s (requestName raw options.thisContext) = []) :
    addAnimationLoop tl len i (raw :: rest) options s =
      addAnimationLoop tl len (i + 1) rest options
        (error (transformAnimationConfig s raw options.thisContext).1
          (Diag.noComponents (requestName raw options.thisContext))) := by
  have hname := transformAnimationConfig_animation s raw options.thisContext
  have hcomp := transformAnimationConfig_components s raw options.thisContext
  have hfilter : (transformAnimationConfig s raw options.thisContext).1.components.filter
      (fun componentData => hasKey componentData.animations
        (nameOf (transformAnimationConfig s raw options.thisContext).2.animation)) = [] := by
    rw [hname, hcomp]
    unfold targets at h
    exact List.map_eq_nil_iff.mp h
  simp only [addAnimationLoop]
  rw [hfilter, hname]
  simp

theorem addAnimationLoop_trace (tl : TimelineRef) (loc : TlLoc) (len : Nat)
    (s0 : State) (hwf : s0.WellFormed) :
    ∀ (batch : List RawAnimationConfig) (i : Nat) (options : Options) (s : State),
      s.keys = s0.keys → resolveTimeline s tl = some loc →
      (∀ raw ∈ batch, inherited (requestName raw options.thisContext) = false) →
      (addAnimationLoop tl len i batch options s).threw = false ∧
      (addAnimationLoop tl len i batch options s).state.keys = s0.keys ∧
      resolveTimeline (addAnimationLoop tl len i batch options s).state tl = some loc ∧
      dispatchTrace (addAnimationLoop tl len i batch options s).state.log =
        dispatchTrace s.log ++ expansion s0 options.thisContext batch ∧
      generatorTrace (addAnimationLoop tl len i batch options s).state.log =
        generatorTrace s.log ++ expansion s0 options.thisContext batch ∧
      diagnostics (addAnimationLoop tl len i batch options s).state.log =
        diagnostics s.log ++ batchDiags s0 options.thisContext batch := by
  intro batch
  induction batch with
  | nil =>
    intro i options s hk hres _
    simp [addAnimationLoop, hk, hres, expansion, batchDiags]
  | cons raw rest ih =>
    intro i options s hk hres hinh
    have hinh1 := hinh raw (List.mem_cons_self _ _)
    have hinh2 : ∀ r ∈ rest, inherited (requestName r options.thisContext) = false :=
      fun r hr => hinh r (List.mem_cons_of_mem _ hr)
    have hname := transformAnimationConfig_animation s raw options.thisContext
    have hcomp := transformAnimationConfig_components s raw options.thisContext
    have hkeys := transformAnimationConfig_keys s raw options.thisContext
    have hlog := transformAnimationConfig_log s raw options.thisContext
    have hres1 := (transformAnimationConfig_resolve s raw options.thisContext tl).trans hres
    have hmark := transformAnimationConfig_transformed s raw options.thisContext
    have htargets : targets s0 (requestName raw options.thisContext) =
        targets s (requestName raw options.thisContext) := (targets_congr hk _).symm
    by_cases hnone : targets s (requestName raw options.thisContext) = []
    · rw [addAnimationLoop_unknown tl len i raw rest options s hnone]
      obtain ⟨h1, h2, h3, h4, h5, h6⟩ := ih (i + 1) options
        (error (transformAnimationConfig s raw options.thisContext).1
          (Diag.noComponents (requestName raw options.thisContext)))
        (by unfold State.keys at hk hkeys ⊢; exact hkeys.trans hk)
        (by rw [← hres1]; cases tl <;> rfl) hinh2
      refine ⟨h1, h2, h3, ?_, ?_, ?_⟩
      · rw [h4]
        simp [error, State.emit, hlog, dispatchTrace_append, dispatchTrace_errors,
          dispatchTrace, expansion, htargets, hnone]
      · rw [h5]
        simp [error, State.emit, hlog, generatorTrace_append, generatorTrace_errors,
          generatorTrace, expansion, htargets, hnone]
      · rw [h6]
        have hone : ∀ d : Diag, diagnostics [Event.error d] = [d] := fun _ => rfl
        simp [error, State.emit, hlog, diagnostics_append, diagnostics_errors,
          hone, batchDiags, htargets, hnone]
    · generalize hr : transformAnimationConfig s raw options.thisContext = r at *
      obtain ⟨s1, cfg⟩ := r
      simp only at hname hcomp hkeys hlog hres1 hmark
      have hcs : ∀ c ∈ s1.components.filter
          (fun componentData => hasKey componentData.animations (nameOf cfg.animation)),
          (c.id, c.animations) ∈ s0.keys ∧
            hasKey c.animations (requestName raw options.thisContext) = true := by
        intro c hc
        obtain ⟨hmem, hhas⟩ := List.mem_filter.mp hc
        refine ⟨?_, by rw [← hname]; exact hhas⟩
        rw [← hk, ← hkeys]
        exact List.mem_map_of_mem (fun c => (c.id, c.animations)) hmem
      have hmap : (s1.components.filter
          (fun componentData => hasKey componentData.animations (nameOf cfg.animation))).map
            (fun c => (c.id, requestName raw options.thisContext)) =
          (targets s (requestName raw options.thisContext)).map
            (fun id => (id, requestName raw options.thisContext)) := by
        unfold targets
        rw [hname, hcomp, List.map_map]
        rfl
      have hpos : (s1.components.filter
          (fun componentData => hasKey componentData.animations (nameOf cfg.animation))).length
            > 0 := by
        apply List.length_pos.mpr
        intro hnil
        apply hnone
        have := hmap
        rw [hnil] at this
        exact (List.map_eq_nil_iff.mp this.symm)
      obtain ⟨f1, f2, f3, f4, f5, f6, f7⟩ := fanOut_trace tl loc i len
        (s1.components.filter
          (fun componentData => hasKey componentData.animations (nameOf cfg.animation))).length
        (requestName raw options.thisContext) s0 hwf _ 0 cfg options s1
        (hkeys.trans hk) hres1 hmark hname hinh1 hcs
      have hstep : addAnimationLoop tl len i (raw :: rest) options s =
          addAnimationLoop tl len (i + 1) rest
            (fanOut tl i len (s1.components.filter (fun componentData =>
              hasKey componentData.animations (nameOf cfg.animation))).length 0
              (s1.components.filter (fun componentData =>
                hasKey componentData.animations (nameOf cfg.animation))) cfg options s1).2
            (fanOut tl i len (s1.components.filter (fun componentData =>
              hasKey componentData.animations (nameOf cfg.animation))).length 0
              (s1.components.filter (fun componentData =>
                hasKey componentData.animations (nameOf cfg.animation))) cfg options s1).1.state := by
        simp only [addAnimationLoop, hr]
        rw [if_pos hpos]
        simp only [f1]
        rfl
      rw [hstep]
      obtain ⟨h1, h2, h3, h4, h5, h6⟩ := ih (i + 1) _ _ f2 f3 (by rw [f7]; exact hinh2)
      rw [f7] at h4 h5 h6
      refine ⟨h1, h2, h3, ?_, ?_, ?_⟩
      · rw [h4, f4, hmap, hlog]
        simp [dispatchTrace_append, dispatchTrace_errors, expansion, htargets]
      · rw [h5, f5, hmap, hlog]
        simp [generatorTrace_append, generatorTrace_errors, expansion, htargets]
      · rw [h6, f6, hlog]
        simp [diagnostics_append, diagnostics_errors, batchDiags, htargets, hnone]

/-- The global `addAnimation` on a timeline reference that resolves, for requests none of
which names a property inherited from `Object.prototype`: it returns normally and its
calls to components are the expansion of the batch. -/
theorem addAnimation_trace_of_resolved (s : State) (animations : OneOrMany RawAnimationConfig)
    (tl : TimelineRef) (options : Options) (loc : TlLoc)
    (hwf : s.WellFormed) (hres : resolveTimeline s tl = some loc)
    (hinh : ∀ raw ∈ animations.toArray,
      inherited (requestName raw options.thisContext) = false) :
    (addAnimation s animations tl options).threw = false ∧
    dispatchTrace (addAnimation s animations tl options).state.log =
      dispatchTrace s.log ++ expansion s options.thisContext animations.toArray ∧
    (addAnimation s animations tl options).state.keys = s.keys := by
  obtain ⟨h1, h2, _, h4, _, _⟩ := addAnimationLoop_trace tl loc animations.toArray.length s hwf
    animations.toArray 0 options s rfl hres hinh
  exact ⟨h1, h4, h2⟩

/-! ## C5: fan-out -/

/-- C5 at its failing input.  Two components register `x`, and `x` is dispatched on a
timeline name that is not a key of `timelines`: the dispatch path only looks the name up,
the first matching component's iteration throws at `timeline.add`, and the second
matching component is never reached, so the request is not dispatched to each component
that registers its name. -/
theorem fan_out_stops_at_unresolved_timeline :
    let s : State :=
      { components :=
          [{ inst := { animationComponentId := "A_1" },
             animations := [("x", { generatorFunc := fun _ _ => {}, elementRef := Val.null })] },
           { inst := { animationComponentId := "B_2" },
             animations := [("x", { generatorFunc := fun _ _ => {}, elementRef := Val.null })] }] }
    let out := addAnimation s (OneOrMany.one (RawAnimationConfig.str "x"))
      (TimelineRef.name "side") {}
    expansion s none [RawAnimationConfig.str "x"] = [("A_1", "x"), ("B_2", "x")] ∧
    out.threw = true ∧
    dispatchTrace out.state.log = [("A_1", "x")] ∧
    generatorTrace out.state.log = [("A_1", "x")] := by
  decide

/-- A second failing input of the fan-out: the name `toString` is registered nowhere, yet
the test `name in componentData.animations` holds on every component through the
prototype of the map.  The first component is called, its `animationData` is a function
without a `generatorFunc`, and the call throws before any generator ran. -/
theorem fan_out_on_inherited_name :
    let s : State :=
      { components :=
          [{ inst := { animationComponentId := "A_1" },
             animations := [("x", { generatorFunc := fun _ _ => {}, elementRef := Val.null })] },
           { inst := { animationComponentId := "B_2" },
             animations := [("x", { generatorFunc := fun _ _ => {}, elementRef := Val.null })] }] }
    let out := addAnimation s (OneOrMany.one (RawAnimationConfig.str "toString"))
      TimelineRef.nullish {}
    expansion s none [RawAnimationConfig.str "toString"] =
      [("A_1", "toString"), ("B_2", "toString")] ∧
    out.threw = true ∧
    dispatchTrace out.state.log = [("A_1", "toString")] ∧
    generatorTrace out.state.log = [] ∧
    diagnostics out.state.log = [] := by
  decide

/-- The fan-out away from the two failing inputs: for every registry state (with distinct
component ids), every timeline reference that resolves (`undefined`/`null`, a timeline
object, or a name that is a key of `timelines`) and every batch none of whose requests
names a property inherited from `Object.prototype`, the global `addAnimation` returns
normally, and the calls it makes to components, as well as the generator calls these
make, are exactly, for each request in batch order, one per component whose `animations`
map contains the request's animation name, in registry order, and no other. -/
theorem addAnimation_fans_out (s : State) (animations : OneOrMany RawAnimationConfig)
    (tl : TimelineRef) (options : Options) (loc : TlLoc)
    (hwf : s.WellFormed) (hres : resolveTimeline s tl = some loc)
    (hinh : ∀ raw ∈ animations.toArray,
      inherited (requestName raw options.thisContext) = false) :
    (addAnimation s animations tl options).threw = false ∧
    dispatchTrace (addAnimation s animations tl options).state.log =
      dispatchTrace s.log ++ expansion s options.thisContext animations.toArray ∧
    generatorTrace (addAnimation s animations tl options).state.log =
      generatorTrace s.log ++ expansion s options.thisContext animations.toArray := by
  obtain ⟨h1, _, _, h4, h5, _⟩ := addAnimationLoop_trace tl loc animations.toArray.length s hwf
    animations.toArray 0 options s rfl hres hinh
  exact ⟨h1, h4, h5⟩

/-- P3 of the spec: two mounted components both register `x`; dispatching `x` on the
master timeline calls both generators, in registry order. -/
theorem addAnimation_fans_out_witness :
    generatorTrace (addAnimation
      { components :=
          [{ inst := { animationComponentId := "A_1" },
             animations := [("x", { generatorFunc := fun _ _ => {}, elementRef := Val.null })] },
           { inst := { animationComponentId := "B_2" },
             animations := [("x", { generatorFunc := fun _ _ => {}, elementRef := Val.null })] }] }
      (OneOrMany.one (RawAnimationConfig.str "x")) TimelineRef.nullish {}).state.log
      = [("A_1", "x"), ("B_2", "x")] :=
  (addAnimation_fans_out
    { components :=
        [{ inst := { animationComponentId := "A_1" },
           animations := [("x", { generatorFunc := fun _ _ => {}, elementRef := Val.null })] },
         { inst := { animationComponentId := "B_2" },
           animations := [("x", { generatorFunc := fun _ _ => {}, elementRef := Val.null })] }] }
    (OneOrMany.one (RawAnimationConfig.str "x")) TimelineRef.nullish {} TlLoc.master
    (by decide) rfl (by decide)).2.2

/-! ## C6: first/last flags -/

/-- C6 at its failing inputs.  With the batch `["ghost", "x"]`, `ghost` registered
nowhere, the only dispatched pair has `firstAnimationInScenario` false (its request index
is 1), so no pair is flagged first; once the entry has started and completed, with both
scenario hooks set, `onScenarioStart` was never called.  With `["x", "ghost"]` the only
pair has `lastAnimationInScenario` false and `onScenarioComplete` is never called. -/
theorem scenario_flags_lost_when_boundary_request_unknown :
    let s : State :=
      { components :=
          [{ inst := { animationComponentId := "A_1" },
             animations := [("x", { generatorFunc := fun _ _ => {}, elementRef := Val.null })] }]
        globalOptions := { onScenarioStart := true, onScenarioComplete := true } }
    let options : Options := { scenarioConfig := some { id := some "intro" } }
    let play : State → State := fun t =>
      t.master.children.foldl (fun u e => onCompleteCallback e (onStartCallback e u)) t
    let hooks : State → List Event := fun t =>
      t.log.filter (fun e => match e with | .hook _ _ => true | _ => false)
    let ghostFirst := addAnimation s
      (OneOrMany.many [RawAnimationConfig.str "ghost", RawAnimationConfig.str "x"])
      TimelineRef.nullish options
    let ghostLast := addAnimation s
      (OneOrMany.many [RawAnimationConfig.str "x", RawAnimationConfig.str "ghost"])
      TimelineRef.nullish options
    (ghostFirst.threw = false ∧
      dispatchTrace ghostFirst.state.log = [("A_1", "x")] ∧
      dispatchFlags ghostFirst.state.log = [(false, true)] ∧
      hooks (play ghostFirst.state) = [Event.hook Hook.onScenarioComplete []]) ∧
    (ghostLast.threw = false ∧
      dispatchTrace ghostLast.state.log = [("A_1", "x")] ∧
      dispatchFlags ghostLast.state.log = [(true, false)] ∧
      hooks (play ghostLast.state) = [Event.hook Hook.onScenarioStart []]) := by
  decide

/-! ## Two runs of a dispatch, side by side -/

theorem eraseCfg_eq_iff (a b : AnimObj) :
    eraseCfg a = eraseCfg b ↔
      a.position = b.position ∧ a.animation = b.animation ∧ a.immediate = b.immediate ∧
      a.animationOptions = b.animationOptions ∧ a.onStart = b.onStart ∧
      a.onComplete = b.onComplete ∧ a.transformed = b.transformed := by
  cases a
  cases b
  simp [eraseCfg]

theorem eraseOptions_eq_iff (a b : Options) :
    eraseOptions a = eraseOptions b ↔
      a.thisContext = b.thisContext ∧ a.triggerConfig = b.triggerConfig ∧
      a.scenarioConfig = b.scenarioConfig := by
  cases a
  cases b
  simp [eraseOptions]

theorem keys_of_frames {s t : State} (h : s.components.map frame = t.components.map frame) :
    s.keys = t.keys := by
  have hk : ∀ u : State, u.keys =
      (u.components.map frame).map (fun f => (f.1.animationComponentId, f.2)) := by
    intro u
    simp [State.keys, frame, ComponentData.id, Function.comp_def]
  rw [hk, hk, h]

theorem frames_updateComponent (s : State) (id : String) (f : ComponentData → ComponentData)
    (hf : ∀ c, frame (f c) = frame c) :
    (s.updateComponent id f).components.map frame = s.components.map frame := by
  unfold State.updateComponent
  simp only [List.map_map]
  apply List.map_congr_left
  intro c _
  simp only [Function.comp]
  split
  · exact hf c
  · rfl

theorem component_of_frames {s t : State}
    (h : s.components.map frame = t.components.map frame) (id : String) :
    (s.component id).map frame = (t.component id).map frame := by
  have hfind : ∀ l : List ComponentData,
      (l.find? (fun c => c.id == id)).map frame =
        (l.map frame).find? (fun f => f.1.animationComponentId == id) := by
    intro l
    rw [List.find?_map]
    rfl
  unfold State.component
  rw [hfind, hfind, h]

theorem getLast?_startTime_of_erase (l m : List Entry)
    (h : l.map eraseEntry = m.map eraseEntry) :
    l.getLast?.map (fun e => e.startTime) = m.getLast?.map (fun e => e.startTime) := by
  have hl : ∀ k : List Entry, k.getLast?.map (fun e => e.startTime) =
      ((k.map eraseEntry).getLast?).map (fun e => e.startTime) := by
    intro k
    rw [List.getLast?_map, Option.map_map]
    rfl
  rw [hl l, hl m, h]

theorem endTime_of_erase (l m : List Entry) (h : l.map eraseEntry = m.map eraseEntry) :
    Timeline.endTime { children := l } = Timeline.endTime { children := m } := by
  have hl : ∀ k : List Entry, Timeline.endTime { children := k } =
      (k.map eraseEntry).foldl (fun acc e => max acc (e.startTime + (e.duration : Int))) 0 := by
    intro k
    unfold Timeline.endTime
    rw [List.foldl_map]
    rfl
  rw [hl l, hl m, h]

theorem resolvePosition_erase (t u : Timeline) (a b : AnimObj)
    (hch : t.children.map eraseEntry = u.children.map eraseEntry)
    (hab : eraseCfg a = eraseCfg b) :
    eraseCfg (resolvePosition t a) = eraseCfg (resolvePosition u b) ∧
    (resolvePosition t a).transformed = a.transformed := by
  have hpos := ((eraseCfg_eq_iff a b).mp hab).1
  have hlast := getLast?_startTime_of_erase _ _ hch
  unfold resolvePosition
  rw [← hpos]
  split
  · refine ⟨?_, rfl⟩
    have hnum : (match t.children.getLast? with
        | some previousTimeline => previousTimeline.startTime
        | none => (0 : Int)) =
        (match u.children.getLast? with
        | some previousTimeline => previousTimeline.startTime
        | none => (0 : Int)) := by
      cases ht : t.children.getLast? <;> cases hu : u.children.getLast? <;>
        simp [ht, hu] at hlast ⊢
      exact hlast
    rw [hnum]
    rw [eraseCfg_eq_iff] at hab ⊢
    exact ⟨rfl, hab.2⟩
  · exact ⟨hab, rfl⟩

theorem engineStartTime_of_erase (t u : Timeline) (position : Val)
    (hch : t.children.map eraseEntry = u.children.map eraseEntry) :
    engineStartTime t position = engineStartTime u position := by
  have h := endTime_of_erase t.children u.children hch
  cases position <;> simp [engineStartTime] <;> exact h

theorem mkEntry_erase (self : String) (options options2 : Options) (c c2 : ComponentData)
    (ad : AnimationData) (t u : Timeline) (a b : AnimObj)
    (hch : t.children.map eraseEntry = u.children.map eraseEntry)
    (hab : eraseCfg a = eraseCfg b) (hopt : eraseOptions options = eraseOptions options2)
    (hc : frame c = frame c2) :
    eraseEntry (mkEntry self options c ad t a) = eraseEntry (mkEntry self options2 c2 ad u b) := by
  obtain ⟨hcfg, _⟩ := resolvePosition_erase t u a b hch hab
  have hfields := (eraseCfg_eq_iff a b).mp hab
  have hpos := ((eraseCfg_eq_iff _ _).mp hcfg).1
  have hctx := ((eraseOptions_eq_iff _ _).mp hopt).1
  have hinst : c.inst = c2.inst := congrArg Prod.fst hc
  simp only [eraseEntry, mkEntry, hcfg, hopt, hctx, hinst, hpos, hfields.2.2.1, hfields.2.2.2.1,
    engineStartTime_of_erase t u _ hch]

theorem dispatchState_facts (s : State) (self : String) (loc : TlLoc) (id : Option Nat)
    (g a : Event) (entry : Entry) (tl : TimelineRef) (hres : resolveTimeline s tl = some loc) :
    (dispatchState s self loc id g a entry).components.map frame = s.components.map frame ∧
    resolveTimeline (dispatchState s self loc id g a entry) tl = some loc ∧
    ((dispatchState s self loc id g a entry).timelineAt loc).children
      = (s.timelineAt loc).children ++ [entry] ∧
    (dispatchState s self loc id g a entry).log = s.log ++ [g, a] := by
  refine ⟨?_, ?_, ?_, ?_⟩
  · unfold dispatchState
    simp only [State.emit, setTimelineAt_components]
    exact frames_updateComponent _ self _ (fun _ => rfl)
  · unfold dispatchState
    have h1 : ∀ (u : State) (e : Event), resolveTimeline (u.emit e) tl = resolveTimeline u tl := by
      intro u e; cases tl <;> rfl
    have h2 : ∀ (u : State) (f : ComponentData → ComponentData),
        resolveTimeline (u.updateComponent self f) tl = resolveTimeline u tl := by
      intro u f; cases tl <;> rfl
    rw [h1]
    apply resolveTimeline_setTimelineAt
    rw [h2, h1]
    exact hres
  · unfold dispatchState
    have h1 : ∀ (u : State) (e : Event), (u.emit e).timelineAt loc = u.timelineAt loc := by
      intro u e; cases loc <;> rfl
    rw [h1, timelineAt_setTimelineAt]
  · unfold dispatchState
    cases loc <;> simp [State.emit, State.setTimelineAt, State.updateComponent]

theorem addAnimationItem_marked_eq (self : String) (tl : TimelineRef) (options : Options)
    (s : State) (cfg : AnimObj) (c : ComponentData) (ad : AnimationData) (loc : TlLoc)
    (hc : s.component self = some c) (hm : cfg.transformed = true)
    (had : c.animations.lookup (nameOf cfg.animation) = some ad)
    (hres : resolveTimeline s tl = some loc) :
    AnimatedComponent.addAnimationItem self tl options s (RawAnimationConfig.obj cfg) =
      ({ state := dispatchState s self loc cfg.id
          (Event.generator self (nameOf cfg.animation) ad.elementRef cfg.animationOptions)
          (Event.timelineAdd loc self (resolvePosition (s.timelineAt loc) cfg)
            ((resolvePosition (s.timelineAt loc) cfg).position.getD Val.undefined))
          (mkEntry self options c ad (s.timelineAt loc) cfg) },
       some (resolvePosition (s.timelineAt loc) cfg)) := by
  have ht : transformAnimationConfig s (RawAnimationConfig.obj cfg) (some c.inst) = (s, cfg) := by
    simp [transformAnimationConfig, hm]
  have h := addAnimationItem_registered self tl options s (RawAnimationConfig.obj cfg) c ad hc
    (by rw [ht]; exact had)
  simp only [ht, hres] at h
  exact h

theorem eraseTrace_append (l m : List Event) :
    eraseTrace (l ++ m) = eraseTrace l ++ eraseTrace m := by
  simp [eraseTrace, List.filterMap_append]

/-- One iteration of the method `addAnimation`, run from two related states with configs
and options equal apart from the request id and the first/last flags, succeeds on both
sides and leaves related states and configs. -/
theorem addAnimationItem_sim (tl : TimelineRef) (loc : TlLoc) (self : String)
    (options options2 : Options) (s t : State) (a b : AnimObj)
    (anims : List (String × AnimationData))
    (hsim : Sim tl loc s t) (hab : eraseCfg a = eraseCfg b) (ha : a.transformed = true)
    (hopt : eraseOptions options = eraseOptions options2)
    (hkey : (self, anims) ∈ s.keys) (hhas : hasKey anims (nameOf a.animation) = true)
    (hinh : inherited (nameOf a.animation) = false) :
    ∃ (s1 t1 : State) (a1 b1 : AnimObj),
      AnimatedComponent.addAnimationItem self tl options s (RawAnimationConfig.obj a)
        = ({ state := s1 }, some a1) ∧
      AnimatedComponent.addAnimationItem self tl options2 t (RawAnimationConfig.obj b)
        = ({ state := t1 }, some b1) ∧
      Sim tl loc s1 t1 ∧ eraseCfg a1 = eraseCfg b1 ∧ a1.transformed = true ∧
      a1.animation = a.animation ∧ s1.keys = s.keys := by
  have hfields := (eraseCfg_eq_iff a b).mp hab
  have hb : b.transformed = true := by rw [← hfields.2.2.2.2.2.2]; exact ha
  obtain ⟨c, hc, hanims⟩ := component_of_key s hsim.wf self anims hkey
  have hframe := component_of_frames hsim.frames self
  rw [hc] at hframe
  obtain ⟨c2, hc2, hc2f⟩ : ∃ c2, t.component self = some c2 ∧ frame c2 = frame c := by
    cases ht : t.component self with
    | none => rw [ht] at hframe; simp at hframe
    | some c2 =>
      rw [ht] at hframe
      simp only [Option.map_some', Option.some.injEq] at hframe
      exact ⟨c2, rfl, hframe.symm⟩
  obtain ⟨ad, had⟩ := lookup_of_hasKey anims _ hinh hhas
  have had1 : c.animations.lookup (nameOf a.animation) = some ad := by rw [hanims]; exact had
  have had2 : c2.animations.lookup (nameOf b.animation) = some ad := by
    have : c2.animations = c.animations := congrArg Prod.snd hc2f
    rw [this, ← hfields.2.1]
    exact had1
  have h1 := addAnimationItem_marked_eq self tl options s a c ad loc hc ha had1 hsim.resolveLeft
  have h2 := addAnimationItem_marked_eq self tl options2 t b c2 ad loc hc2 hb had2
    hsim.resolveRight
  obtain ⟨hpos, hposm⟩ := resolvePosition_erase (s.timelineAt loc) (t.timelineAt loc) a b
    hsim.children hab
  have hentry := mkEntry_erase self options options2 c c2 ad (s.timelineAt loc)
    (t.timelineAt loc) a b hsim.children hab hopt hc2f.symm
  obtain ⟨f1, f2, f3, f4⟩ := dispatchState_facts s self loc a.id
    (Event.generator self (nameOf a.animation) ad.elementRef a.animationOptions)
    (Event.timelineAdd loc self (resolvePosition (s.timelineAt loc) a)
      ((resolvePosition (s.timelineAt loc) a).position.getD Val.undefined))
    (mkEntry self options c ad (s.timelineAt loc) a) tl hsim.resolveLeft
  obtain ⟨g1, g2, g3, g4⟩ := dispatchState_facts t self loc b.id
    (Event.generator self (nameOf b.animation) ad.elementRef b.animationOptions)
    (Event.timelineAdd loc self (resolvePosition (t.timelineAt loc) b)
      ((resolvePosition (t.timelineAt loc) b).position.getD Val.undefined))
    (mkEntry self options2 c2 ad (t.timelineAt loc) b) tl hsim.resolveRight
  refine ⟨_, _, _, _, h1, h2, ?_, hpos, by rw [hposm]; exact ha, ?_, keys_of_frames f1⟩
  rotate_left
  · unfold resolvePosition
    split <;> rfl
  refine ⟨?_, ?_, f2, g2, ?_, ?_⟩
  · rw [f1, g1]; exact hsim.frames
  · exact wellFormed_of_keys (keys_of_frames f1) hsim.wf
  · rw [f3, g3, List.map_append, List.map_append, hsim.children]
    simp only [List.map_cons, List.map_nil, hentry]
  · rw [f4, g4, eraseTrace_append, eraseTrace_append, hsim.trace]
    have hp := ((eraseCfg_eq_iff _ _).mp hpos).1
    simp only [eraseTrace, List.filterMap_cons, List.filterMap_nil, eraseEvent, hpos, hp,
      hfields.2.1, hfields.2.2.2.1]

theorem resolveTimeline_congr {s t : State} (h : s.timelines = t.timelines) (tl : TimelineRef) :
    resolveTimeline s tl = resolveTimeline t tl := by
  cases tl <;> simp [resolveTimeline, h]

theorem timelineAt_congr {s t : State} (hm : s.master = t.master)
    (ht : s.timelines = t.timelines) (hh : s.handles = t.handles) (loc : TlLoc) :
    s.timelineAt loc = t.timelineAt loc := by
  cases loc <;> simp [State.timelineAt, hm, ht, hh]

theorem Sim.left {tl : TimelineRef} {loc : TlLoc} {s t : State} (s1 : State)
    (h : Sim tl loc s t) (hc : s1.components = s.components) (hm : s1.master = s.master)
    (ht : s1.timelines = s.timelines) (hh : s1.handles = s.handles)
    (hl : eraseTrace s1.log = eraseTrace s.log) : Sim tl loc s1 t := by
  refine ⟨?_, ?_, ?_, h.resolveRight, ?_, ?_⟩
  · rw [hc]; exact h.frames
  · unfold State.WellFormed; rw [hc]; exact h.wf
  · rw [resolveTimeline_congr ht]; exact h.resolveLeft
  · rw [timelineAt_congr hm ht hh]; exact h.children
  · rw [hl]; exact h.trace

theorem Sim.right {tl : TimelineRef} {loc : TlLoc} {s t : State} (t1 : State)
    (h : Sim tl loc s t) (hc : t1.components = t.components) (hm : t1.master = t.master)
    (ht : t1.timelines = t.timelines) (hh : t1.handles = t.handles)
    (hl : eraseTrace t1.log = eraseTrace t.log) : Sim tl loc s t1 := by
  refine ⟨?_, h.wf, h.resolveLeft, ?_, ?_, ?_⟩
  · rw [hc]; exact h.frames
  · rw [resolveTimeline_congr ht]; exact h.resolveRight
  · rw [timelineAt_congr hm ht hh]; exact h.children
  · rw [hl]; exact h.trace

theorem eraseTrace_errors (ds : List Diag) : eraseTrace (ds.map Event.error) = [] := by
  induction ds with
  | nil => rfl
  | cons d ds _ => simp [eraseTrace, eraseEvent]

theorem eraseTrace_transform (s : State) (x : RawAnimationConfig) (ctx : Option Instance) :
    eraseTrace (transformAnimationConfig s x ctx).1.log = eraseTrace s.log := by
  rw [transformAnimationConfig_log, eraseTrace_append, eraseTrace_errors, List.append_nil]

theorem eraseTrace_error (s : State) (d : Diag) : eraseTrace (error s d).log = eraseTrace s.log := by
  show eraseTrace (s.log ++ [Event.error d]) = _
  rw [eraseTrace_append]
  simp [eraseTrace, eraseEvent]

theorem Sim.emit {tl : TimelineRef} {loc : TlLoc} {s t : State} (h : Sim tl loc s t)
    (e e2 : Event) (he : eraseEvent e = eraseEvent e2) : Sim tl loc (s.emit e) (t.emit e2) := by
  have hl : eraseTrace (s.emit e).log = eraseTrace (t.emit e2).log := by
    show eraseTrace (s.log ++ [e]) = eraseTrace (t.log ++ [e2])
    rw [eraseTrace_append, eraseTrace_append, h.trace]
    simp only [eraseTrace, List.filterMap_cons, List.filterMap_nil, he]
  refine ⟨h.frames, h.wf, ?_, ?_, ?_, hl⟩
  · rw [resolveTimeline_congr (s := s.emit e) (t := s) rfl]; exact h.resolveLeft
  · rw [resolveTimeline_congr (s := t.emit e2) (t := t) rfl]; exact h.resolveRight
  · rw [timelineAt_congr (s := s.emit e) (t := s) rfl rfl rfl,
      timelineAt_congr (s := t.emit e2) (t := t) rfl rfl rfl]
    exact h.children

theorem transformAnimationConfig_erase (s t : State) (x : RawAnimationConfig)
    (ctx : Option Instance) :
    eraseCfg (transformAnimationConfig s x ctx).2 = eraseCfg (transformAnimationConfig t x ctx).2 := by
  unfold transformAnimationConfig
  cases x with
  | obj o => by_cases h : o.transformed = true <;> simp [h, applyDefaults, eraseCfg]
  | str name => simp [applyDefaults, eraseCfg]
  | func f =>
    cases ctx with
    | none => simp [applyDefaults, eraseCfg]
    | some ctx =>
      by_cases hid : ctx.animationComponentId = ""
      · simp [hid, applyDefaults, eraseCfg]
      · simp only [ne_eq, hid, not_false_eq_true, if_true]
        cases f ctx.wrappedComponentRef <;> simp [applyDefaults, eraseCfg]

theorem Sim.transform {tl : TimelineRef} {loc : TlLoc} {s t : State} (h : Sim tl loc s t)
    (x : RawAnimationConfig) (ctx ctx2 : Option Instance) :
    Sim tl loc (transformAnimationConfig s x ctx).1 (transformAnimationConfig t x ctx2).1 := by
  have hs := transformAnimationConfig_timelines s x ctx
  have ht := transformAnimationConfig_timelines t x ctx2
  exact Sim.right _ (Sim.left _ h (transformAnimationConfig_components s x ctx) hs.1 hs.2.1 hs.2.2
    (eraseTrace_transform s x ctx)) (transformAnimationConfig_components t x ctx2) ht.1 ht.2.1
    ht.2.2 (eraseTrace_transform t x ctx2)

theorem filter_ids_of_frames (l m : List ComponentData) (name : String)
    (h : l.map frame = m.map frame) :
    (l.filter (fun c => hasKey c.animations name)).map ComponentData.id =
      (m.filter (fun c => hasKey c.animations name)).map ComponentData.id := by
  have hk : ∀ k : List ComponentData,
      (k.filter (fun c => hasKey c.animations name)).map ComponentData.id =
        ((k.map frame).filter (fun f => hasKey f.2 name)).map
          (fun f => f.1.animationComponentId) := by
    intro k
    rw [List.filter_map, List.map_map]
    rfl
  rw [hk l, hk m, h]

theorem fanOut_sim (tl : TimelineRef) (loc : TlLoc) (name : String) :
    ∀ (cs cs2 : List ComponentData) (ai len mc j ai2 len2 mc2 j2 : Nat) (a b : AnimObj)
      (options options2 : Options) (s t : State),
      cs.map ComponentData.id = cs2.map ComponentData.id →
      Sim tl loc s t → eraseCfg a = eraseCfg b → a.transformed = true →
      nameOf a.animation = name → eraseOptions options = eraseOptions options2 →
      inherited name = false →
      (∀ c ∈ cs, (c.id, c.animations) ∈ s.keys ∧ hasKey c.animations name = true) →
      ∃ (s1 t1 : State) (o1 o2 : Options),
        fanOut tl ai len mc j cs a options s = ({ state := s1 }, o1) ∧
        fanOut tl ai2 len2 mc2 j2 cs2 b options2 t = ({ state := t1 }, o2) ∧
        Sim tl loc s1 t1 ∧ eraseOptions o1 = eraseOptions o2 ∧ s1.keys = s.keys ∧
        o1.thisContext = options.thisContext := by
  intro cs
  induction cs with
  | nil =>
    intro cs2 ai len mc j ai2 len2 mc2 j2 a b options options2 s t hids hsim _ _ _ hopt _ _
    have hcs2 : cs2 = [] := by simpa using hids.symm
    subst hcs2
    exact ⟨s, t, options, options2, rfl, rfl, hsim, hopt, rfl, rfl⟩
  | cons c rest ih =>
    intro cs2 ai len mc j ai2 len2 mc2 j2 a b options options2 s t hids hsim hab ha hname hopt
      hinh hcs
    cases cs2 with
    | nil => simp at hids
    | cons c2 rest2 =>
      simp only [List.map_cons, List.cons.injEq] at hids
      obtain ⟨hckey, hchas⟩ := hcs c (by simp)
      let options1 : Options :=
        { options with
          firstAnimationInScenario := ai == 0 && j == 0
          lastAnimationInScenario := ai == len - 1 && j == mc - 1 }
      let options3 : Options :=
        { options2 with
          firstAnimationInScenario := ai2 == 0 && j2 == 0
          lastAnimationInScenario := ai2 == len2 - 1 && j2 == mc2 - 1 }
      have hopt1 : eraseOptions options1 = eraseOptions options3 := hopt
      have hsim1 : Sim tl loc
          (s.emit (Event.dispatch c.id a options1.firstAnimationInScenario
            options1.lastAnimationInScenario))
          (t.emit (Event.dispatch c2.id b options3.firstAnimationInScenario
            options3.lastAnimationInScenario)) := by
        apply Sim.emit hsim
        simp only [eraseEvent, hab, hids.1]
      obtain ⟨s1, t1, a1, b1, hi1, hi2, hsim2, hab1, ha1, hanim1, hkeys1⟩ :=
        addAnimationItem_sim tl loc c.id options1 options3 _ _ a b c.animations hsim1 hab ha
          hopt1 hckey (by rw [hname]; exact hchas) (by rw [hname]; exact hinh)
      rw [hids.1] at hi2
      obtain ⟨s2, t2, o1, o2, hf1, hf2, hsim3, hopt3, hkeys2, hctx2⟩ :=
        ih rest2 ai len mc (j + 1) ai2 len2 mc2 (j2 + 1) a1 b1 options1 options3 s1 t1 hids.2
          hsim2 hab1 ha1 (by rw [hanim1]; exact hname) hopt1 hinh
          (fun d hd => by
            rw [hkeys1]
            exact hcs d (List.mem_cons_of_mem _ hd))
      refine ⟨s2, t2, o1, o2, ?_, ?_, hsim3, hopt3, hkeys2.trans hkeys1, hctx2⟩
      · simp only [fanOut]
        rw [hi1]
        simpa using hf1
      · simp only [fanOut]
        rw [hi2]
        simpa using hf2

/-- One iteration of the global `addAnimation`, run from two related states (at any two
positions of any two batches): on both sides it goes on to the rest of the batch, from
related states. -/
theorem addAnimationLoop_step_sim (tl : TimelineRef) (loc : TlLoc) (raw : RawAnimationConfig)
    (options options2 : Options) (s t : State) (i len i2 len2 : Nat)
    (hsim : Sim tl loc s t) (hopt : eraseOptions options = eraseOptions options2)
    (hinh : inherited (requestName raw options.thisContext) = false) :
    ∃ (s1 t1 : State) (o1 o2 : Options),
      (∀ rest, addAnimationLoop tl len i (raw :: rest) options s =
        addAnimationLoop tl len (i + 1) rest o1 s1) ∧
      (∀ rest, addAnimationLoop tl len2 i2 (raw :: rest) options2 t =
        addAnimationLoop tl len2 (i2 + 1) rest o2 t1) ∧
      Sim tl loc s1 t1 ∧ eraseOptions o1 = eraseOptions o2 ∧ s1.keys = s.keys ∧
      o1.thisContext = options.thisContext := by
  have hctx : options2.thisContext = options.thisContext :=
    ((eraseOptions_eq_iff _ _).mp hopt).1.symm
  have hsim1 := Sim.transform hsim raw options.thisContext options.thisContext
  have hab := transformAnimationConfig_erase s t raw options.thisContext
  have hname := transformAnimationConfig_animation s raw options.thisContext
  have hname2 := transformAnimationConfig_animation t raw options.thisContext
  have hmark := transformAnimationConfig_transformed s raw options.thisContext
  have hkeys := transformAnimationConfig_keys s raw options.thisContext
  generalize hr : transformAnimationConfig s raw options.thisContext = r at *
  generalize hr2 : transformAnimationConfig t raw options.thisContext = r2 at *
  obtain ⟨s1, a⟩ := r
  obtain ⟨t1, b⟩ := r2
  simp only at hsim1 hab hname hname2 hmark hkeys
  have hids := filter_ids_of_frames s1.components t1.components (nameOf a.animation) hsim1.frames
  have hnames : nameOf b.animation = nameOf a.animation := by rw [hname, hname2]
  cases hcs : s1.components.filter (fun c => hasKey c.animations (nameOf a.animation)) with
  | nil =>
    have hcs2 : t1.components.filter (fun c => hasKey c.animations (nameOf a.animation)) = [] := by
      rw [hcs] at hids
      simpa using hids.symm
    refine ⟨error s1 (Diag.noComponents (nameOf a.animation)),
      error t1 (Diag.noComponents (nameOf b.animation)), options, options2, ?_, ?_, ?_, hopt, ?_,
      rfl⟩
    · intro rest
      simp only [addAnimationLoop, hr]
      rw [hcs]
      simp
    · intro rest
      simp only [addAnimationLoop, hctx, hr2]
      rw [hnames, hcs2]
      simp
    · exact Sim.right _ (Sim.left _ hsim1 rfl rfl rfl rfl (eraseTrace_error _ _)) rfl rfl rfl rfl
        (eraseTrace_error _ _)
    · exact hkeys
  | cons c cs =>
    rw [hcs] at hids
    have hpos : (s1.components.filter
        (fun c => hasKey c.animations (nameOf a.animation))).length > 0 := by
      rw [hcs]; simp
    have hpos2 : (t1.components.filter
        (fun c => hasKey c.animations (nameOf b.animation))).length > 0 := by
      rw [hnames]
      have := congrArg List.length hids
      simp only [List.length_map, List.length_cons] at this
      omega
    have hmem : ∀ d ∈ c :: cs, (d.id, d.animations) ∈ s1.keys ∧
        hasKey d.animations (nameOf a.animation) = true := by
      intro d hd
      rw [← hcs] at hd
      obtain ⟨hd1, hd2⟩ := List.mem_filter.mp hd
      exact ⟨List.mem_map_of_mem (fun c => (c.id, c.animations)) hd1, hd2⟩
    obtain ⟨s2, t2, o1, o2, hf1, hf2, hsim2, hopt2, hkeys2, hctx2⟩ :=
      fanOut_sim tl loc (nameOf a.animation) (c :: cs)
        (t1.components.filter (fun c => hasKey c.animations (nameOf a.animation)))
        i len (c :: cs).length 0 i2 len2
        (t1.components.filter (fun c => hasKey c.animations (nameOf a.animation))).length 0
        a b options options2 s1 t1 hids hsim1 hab hmark rfl hopt (by rw [hname]; exact hinh) hmem
    refine ⟨s2, t2, o1, o2, ?_, ?_, hsim2, hopt2, hkeys2.trans hkeys, hctx2⟩
    · intro rest
      simp only [addAnimationLoop, hr]
      rw [if_pos hpos]
      simp only [hcs, hf1]
      rfl
    · intro rest
      simp only [addAnimationLoop, hctx, hr2]
      rw [if_pos hpos2]
      simp only [hnames, hf2]
      rfl

theorem addAnimationLoop_sim (tl : TimelineRef) (loc : TlLoc) :
    ∀ (batch : List RawAnimationConfig) (options options2 : Options) (s t : State)
      (i len i2 len2 : Nat),
      Sim tl loc s t → eraseOptions options = eraseOptions options2 →
      (∀ raw ∈ batch, inherited (requestName raw options.thisContext) = false) →
      Sim tl loc (addAnimationLoop tl len i batch options s).state
        (addAnimationLoop tl len2 i2 batch options2 t).state := by
  intro batch
  induction batch with
  | nil =>
    intro options options2 s t i len i2 len2 hsim _ _
    simpa [addAnimationLoop] using hsim
  | cons raw rest ih =>
    intro options options2 s t i len i2 len2 hsim hopt hinh
    obtain ⟨s1, t1, o1, o2, h1, h2, hsim1, hopt1, _, hctx1⟩ :=
      addAnimationLoop_step_sim tl loc raw options options2 s t i len i2 len2 hsim hopt
        (hinh raw (List.mem_cons_self _ _))
    rw [h1 rest, h2 rest]
    exact ih o1 o2 s1 t1 (i + 1) len (i2 + 1) len2 hsim1 hopt1
      (fun r hr => by rw [hctx1]; exact hinh r (List.mem_cons_of_mem _ hr))

/-- A batch with a request of unknown target inserted, against the batch without it. -/
theorem addAnimationLoop_insert_sim (tl : TimelineRef) (loc : TlLoc) (u : RawAnimationConfig)
    (post : List RawAnimationConfig) :
    ∀ (pre : List RawAnimationConfig) (options options2 : Options) (s t : State)
      (i len i2 len2 : Nat),
      Sim tl loc s t → eraseOptions options = eraseOptions options2 →
      targets s (requestName u options.thisContext) = [] →
      (∀ raw ∈ pre ++ post, inherited (requestName raw options.thisContext) = false) →
      Sim tl loc (addAnimationLoop tl len i (pre ++ u :: post) options s).state
        (addAnimationLoop tl len2 i2 (pre ++ post) options2 t).state := by
  intro pre
  induction pre with
  | nil =>
    intro options options2 s t i len i2 len2 hsim hopt hu hinh
    rw [List.nil_append, List.nil_append, addAnimationLoop_unknown tl len i u post options s hu]
    apply addAnimationLoop_sim tl loc post options options2 _ t (i + 1) len i2 len2 _ hopt
      (by simpa using hinh)
    have hs := transformAnimationConfig_timelines s u options.thisContext
    exact Sim.left _ (Sim.left _ hsim (transformAnimationConfig_components s u options.thisContext)
      hs.1 hs.2.1 hs.2.2 (eraseTrace_transform s u options.thisContext)) rfl rfl rfl rfl
      (eraseTrace_error _ _)
  | cons raw rest ih =>
    intro options options2 s t i len i2 len2 hsim hopt hu hinh
    obtain ⟨s1, t1, o1, o2, h1, h2, hsim1, hopt1, hkeys1, hctx1⟩ :=
      addAnimationLoop_step_sim tl loc raw options options2 s t i len i2 len2 hsim hopt
        (hinh raw (by simp))
    rw [List.cons_append, List.cons_append, h1, h2]
    apply ih o1 o2 s1 t1 (i + 1) len (i2 + 1) len2 hsim1 hopt1
    · rw [hctx1, targets_congr hkeys1]
      exact hu
    · intro r hr
      rw [hctx1]
      exact hinh r (by
        rw [List.cons_append]
        exact List.mem_cons_of_mem _ hr)

theorem Sim.refl {tl : TimelineRef} {loc : TlLoc} {s : State} (hwf : s.WellFormed)
    (hres : resolveTimeline s tl = some loc) : Sim tl loc s s :=
  ⟨rfl, hwf, hres, hres, rfl, rfl⟩

/-! ## C8: unknown target -/

/-- C8, as stated, fails.  With the batch `["ghost", "x"]`, `ghost` registered nowhere,
the request `x` is not dispatched as in the batch `["x"]`: its pair is flagged
first-in-scenario in the latter and not in the former, and its request id is 2 instead
of 1.  And an unknown request given as a function that returns `null` produces two
diagnostics, not one. -/
theorem unknown_request_changes_other_dispatches :
    let s : State :=
      { components :=
          [{ inst := { animationComponentId := "A_1" },
             animations := [("x", { generatorFunc := fun _ _ => {}, elementRef := Val.null })] }] }
    let withGhost := addAnimation s
      (OneOrMany.many [RawAnimationConfig.str "ghost", RawAnimationConfig.str "x"])
      TimelineRef.nullish {}
    let without := addAnimation s (OneOrMany.many [RawAnimationConfig.str "x"])
      TimelineRef.nullish {}
    let nullFunc := addAnimation s
      (OneOrMany.many [RawAnimationConfig.func (fun _ => FuncResult.nullish)])
      TimelineRef.nullish { thisContext := some { animationComponentId := "A_1" } }
    dispatchFlags withGhost.state.log = [(false, true)] ∧
    dispatchFlags without.state.log = [(true, true)] ∧
    withGhost.state.components.map (fun c => c.pendingAnimations) = [[some 2]] ∧
    without.state.components.map (fun c => c.pendingAnimations) = [[some 1]] ∧
    diagnostics nullFunc.state.log = [Diag.funcReturnedNullish, Diag.noComponents "undefined"] := by
  decide

/-- C8, amended.  Take a batch `pre ++ u :: post` whose timeline reference resolves and
none of whose requests names a property inherited from `Object.prototype`, on a registry
(with distinct component ids) where no component registers the animation name of `u`.  (1) In whatever state the batch reaches `u`, its iteration logs the diagnostics of
its own normalisation (none for a string or an object) and then exactly one
`noComponents` diagnostic, changes no component entry (nothing is marked pending) and no
timeline (nothing is inserted), and goes on with the rest of the batch.  (2) The call
returns normally with and without `u`, and the two runs insert the same entries on the
timeline, make the same calls to components and generators in the same order, and leave
the same component instances and registrations, all this apart from the request ids
(`u` takes one from the counter) and from the first/last flags, about which nothing is
said; the diagnostics of the two runs differ by those of `u` only. -/
theorem unknown_request_is_skipped (s : State) (pre post : List RawAnimationConfig)
    (u : RawAnimationConfig) (tl : TimelineRef) (options : Options) (loc : TlLoc)
    (hwf : s.WellFormed) (hres : resolveTimeline s tl = some loc)
    (hinh : ∀ raw ∈ pre ++ u :: post,
      inherited (requestName raw options.thisContext) = false)
    (hu : targets s (requestName u options.thisContext) = []) :
    (∀ (t : State) (len i : Nat) (rest : List RawAnimationConfig) (o : Options),
      t.keys = s.keys → o.thisContext = options.thisContext →
      addAnimationLoop tl len i (u :: rest) o t =
        addAnimationLoop tl len (i + 1) rest o
          (error (transformAnimationConfig t u o.thisContext).1
            (Diag.noComponents (requestName u o.thisContext))) ∧
      (error (transformAnimationConfig t u o.thisContext).1
        (Diag.noComponents (requestName u o.thisContext))).components = t.components ∧
      (error (transformAnimationConfig t u o.thisContext).1
        (Diag.noComponents (requestName u o.thisContext))).master = t.master ∧
      (error (transformAnimationConfig t u o.thisContext).1
        (Diag.noComponents (requestName u o.thisContext))).timelines = t.timelines ∧
      (error (transformAnimationConfig t u o.thisContext).1
        (Diag.noComponents (requestName u o.thisContext))).handles = t.handles ∧
      (error (transformAnimationConfig t u o.thisContext).1
        (Diag.noComponents (requestName u o.thisContext))).log =
        t.log ++ ((normalizeDiags u o.thisContext).map Event.error ++
          [Event.error (Diag.noComponents (requestName u o.thisContext))])) ∧
    (addAnimation s (OneOrMany.many (pre ++ u :: post)) tl options).threw = false ∧
    (addAnimation s (OneOrMany.many (pre ++ post)) tl options).threw = false ∧
    (((addAnimation s (OneOrMany.many (pre ++ u :: post)) tl options).state.timelineAt
        loc).children.map eraseEntry =
      ((addAnimation s (OneOrMany.many (pre ++ post)) tl options).state.timelineAt
        loc).children.map eraseEntry) ∧
    eraseTrace (addAnimation s (OneOrMany.many (pre ++ u :: post)) tl options).state.log =
      eraseTrace (addAnimation s (OneOrMany.many (pre ++ post)) tl options).state.log ∧
    (addAnimation s (OneOrMany.many (pre ++ u :: post)) tl options).state.components.map frame =
      (addAnimation s (OneOrMany.many (pre ++ post)) tl options).state.components.map frame ∧
    diagnostics (addAnimation s (OneOrMany.many (pre ++ u :: post)) tl options).state.log =
      diagnostics s.log ++ (batchDiags s options.thisContext pre ++
        (normalizeDiags u options.thisContext ++
          [Diag.noComponents (requestName u options.thisContext)]) ++
        batchDiags s options.thisContext post) ∧
    diagnostics (addAnimation s (OneOrMany.many (pre ++ post)) tl options).state.log =
      diagnostics s.log ++ (batchDiags s options.thisContext pre ++
        batchDiags s options.thisContext post) := by
  refine ⟨?_, ?_⟩
  · intro t len i rest o hk hctx
    have ht := transformAnimationConfig_timelines t u o.thisContext
    refine ⟨?_, ?_, ?_, ?_, ?_, ?_⟩
    · apply addAnimationLoop_unknown
      rw [hctx, targets_congr hk]
      exact hu
    · exact transformAnimationConfig_components t u o.thisContext
    · exact ht.1
    · exact ht.2.1
    · exact ht.2.2
    · show (transformAnimationConfig t u o.thisContext).1.log ++ [_] = _
      rw [transformAnimationConfig_log, List.append_assoc]
  · have hinh2 : ∀ raw ∈ pre ++ post,
        inherited (requestName raw options.thisContext) = false := by
      intro raw hraw
      apply hinh raw
      simp only [List.mem_append, List.mem_cons] at hraw ⊢
      tauto
    obtain ⟨w1, _, _, _, _, w6⟩ := addAnimationLoop_trace tl loc (pre ++ u :: post).length s hwf
      (pre ++ u :: post) 0 options s rfl hres hinh
    obtain ⟨v1, _, _, _, _, v6⟩ := addAnimationLoop_trace tl loc (pre ++ post).length s hwf
      (pre ++ post) 0 options s rfl hres hinh2
    have hsim := addAnimationLoop_insert_sim tl loc u post pre options options s s 0
      (pre ++ u :: post).length 0 (pre ++ post).length (Sim.refl hwf hres) rfl hu hinh2
    refine ⟨w1, v1, hsim.children, hsim.trace, hsim.frames, ?_, ?_⟩
    · refine Eq.trans w6 ?_
      simp [batchDiags, hu]
    · refine Eq.trans v6 ?_
      simp [batchDiags]

/-- P8 of the spec: `["x", "ghost", "x"]` against `["x", "x"]` on a registry where one
component registers `x` and `ghost` is unknown. -/
theorem unknown_request_is_skipped_witness :
    diagnostics (addAnimation
      { components :=
          [{ inst := { animationComponentId := "A_1" },
             animations := [("x", { generatorFunc := fun _ _ => {}, elementRef := Val.null })] }] }
      (OneOrMany.many ([RawAnimationConfig.str "x"] ++
        RawAnimationConfig.str "ghost" :: [RawAnimationConfig.str "x"]))
      TimelineRef.nullish {}).state.log
      = [] ++ (batchDiags
          { components :=
            [{ inst := { animationComponentId := "A_1" },
               animations := [("x", { generatorFunc := fun _ _ => {}, elementRef := Val.null })] }] }
          none [RawAnimationConfig.str "x"] ++
        (normalizeDiags (RawAnimationConfig.str "ghost") none ++ [Diag.noComponents "ghost"]) ++
        batchDiags
          { components :=
            [{ inst := { animationComponentId := "A_1" },
               animations := [("x", { generatorFunc := fun _ _ => {}, elementRef := Val.null })] }] }
          none [RawAnimationConfig.str "x"]) :=
  (unknown_request_is_skipped
    { components :=
        [{ inst := { animationComponentId := "A_1" },
           animations := [("x", { generatorFunc := fun _ _ => {}, elementRef := Val.null })] }] }
    [RawAnimationConfig.str "x"] [RawAnimationConfig.str "x"] (RawAnimationConfig.str "ghost")
    TimelineRef.nullish {} TlLoc.master (by decide) rfl (by decide) (by decide)).2.2.2.2.2.2.1

/-! ## C12: scenario id collision -/

/-- C12 at its failing input.  Two declarations carry the id `intro`, the first with the
animation `fadeIn`, the second with `expand`.  After both, the diagnostic "already
exists. It will be overwritten!" has been emitted once, and the scenario map still holds
the first declaration under `intro`: the assignment sits in the `else` branch. -/
theorem colliding_scenario_id_keeps_first_registration :
    let first : ScenarioConfig :=
      { id := some "intro", animations := ScenarioAnimations.value (AnimationsValue.str "fadeIn") }
    let second : ScenarioConfig :=
      { id := some "intro", animations := ScenarioAnimations.value (AnimationsValue.str "expand") }
    let s1 := (attachAnimation {} [first]).1
    let s2 := (attachAnimation s1 [second]).1
    diagnostics s1.log = [] ∧
    diagnostics s2.log = [Diag.scenarioExists "intro"] ∧
    s2.scenarios.map (fun kv => (kv.1, kv.2.animationName)) = [("intro", some "fadeIn")] := by
  decide

/-! ## C13: duplicate animation registration -/

/-- C13 at its failing input.  On a freshly mounted component, whose `animations` map is
empty, `registerAnimation("constructor", …)` finds the name through the prototype of the
map: it emits the diagnostic "already registered" and adds nothing, although the id is
not present in the map.  An ordinary id is added as claimed. -/
theorem registerAnimation_rejects_inherited_name :
    let s : State := { components := [{ inst := { animationComponentId := "Box_1" } }] }
    let out := AnimatedComponent.registerAnimation "Box_1" s "constructor" (fun _ _ => {}) Val.null
    let ok := AnimatedComponent.registerAnimation "Box_1" s "fadeIn" (fun _ _ => {}) Val.null
    s.components.map (fun c => c.animations.map Prod.fst) = [[]] ∧
    out.threw = false ∧
    diagnostics out.state.log = [Diag.animationRegistered "constructor"] ∧
    out.state.components.map (fun c => c.animations.map Prod.fst) = [[]] ∧
    diagnostics ok.state.log = [] ∧
    ok.state.components.map (fun c => c.animations.map Prod.fst) = [["fadeIn"]] := by
  decide

/-- What `registerAnimation` does in general.  When the test `animationId in
componentAnimations` holds (the map has the id, or the id is a name inherited from
`Object.prototype`), it only emits the diagnostic: the state is otherwise the same, so
the original generator and element reference are kept.  When it does not, it appends
exactly that entry to the component's map, emits nothing, and leaves the rest of the
component and every other component as they were. -/
theorem registerAnimation_spec (s : State) (self : String) (c : ComponentData)
    (animationId : String) (generatorFunc : Val → Val → Tween) (elementRef : Val)
    (hc : s.component self = some c) :
    (hasKey c.animations animationId = true →
      AnimatedComponent.registerAnimation self s animationId generatorFunc elementRef =
        { state := error s (Diag.animationRegistered animationId) } ∧
      (error s (Diag.animationRegistered animationId)).components = s.components) ∧
    (hasKey c.animations animationId = false →
      (AnimatedComponent.registerAnimation self s animationId generatorFunc elementRef).threw
        = false ∧
      (AnimatedComponent.registerAnimation self s animationId generatorFunc elementRef).state.log
        = s.log ∧
      (AnimatedComponent.registerAnimation self s animationId generatorFunc
        elementRef).state.component self =
        some { c with animations := c.animations ++
          [(animationId, { generatorFunc := generatorFunc, elementRef := elementRef })] } ∧
      ∀ other, other ≠ self →
        (AnimatedComponent.registerAnimation self s animationId generatorFunc
          elementRef).state.component other = s.component other) := by
  constructor
  · intro h
    simp [AnimatedComponent.registerAnimation, hc, h, error, State.emit]
  · intro h
    have hreg : AnimatedComponent.registerAnimation self s animationId generatorFunc elementRef =
        { state := s.updateComponent self (fun c =>
            { c with animations := c.animations ++
                [(animationId, { generatorFunc := generatorFunc, elementRef := elementRef })] }) } := by
      simp [AnimatedComponent.registerAnimation, hc, h]
    rw [hreg]
    refine ⟨rfl, rfl, ?_, ?_⟩
    · show (State.updateComponent s self _).component self = _
      rw [updateComponent_component_self, hc]
      · rfl
      · exact fun _ => rfl
    · intro other hother
      show (State.updateComponent s self _).component other = _
      rw [updateComponent_component_other]
      · exact fun _ => rfl
      · exact hother

/-- Registering `fadeIn` a second time on `Box_1` only logs. -/
theorem registerAnimation_spec_witness :
    AnimatedComponent.registerAnimation "Box_1"
      { components := [{ inst := { animationComponentId := "Box_1" },
                         animations := [("fadeIn", { generatorFunc := fun _ _ => {},
                                                     elementRef := Val.obj 1 })] }] }
      "fadeIn" (fun _ _ => { duration := 9 }) (Val.obj 2) =
      { state := error
          { components := [{ inst := { animationComponentId := "Box_1" },
                             animations := [("fadeIn", { generatorFunc := fun _ _ => {},
                                                         elementRef := Val.obj 1 })] }] }
          (Diag.animationRegistered "fadeIn") } :=
  ((registerAnimation_spec
    { components := [{ inst := { animationComponentId := "Box_1" },
                       animations := [("fadeIn", { generatorFunc := fun _ _ => {},
                                                   elementRef := Val.obj 1 })] }] }
    "Box_1"
    { inst := { animationComponentId := "Box_1" },
      animations := [("fadeIn", { generatorFunc := fun _ _ => {}, elementRef := Val.obj 1 })] }
    "fadeIn" (fun _ _ => { duration := 9 }) (Val.obj 2) rfl).1 (by decide)).1

/-! ## C14: timeline resolution in dispatch -/

/-- C14 at its failing input.  One component registers `x`; no timeline is registered
under `side`.  In `addAnimation("x", "side")` the name resolves to nothing, no timeline
is created or registered, and the call throws after the generator ran and the request
was marked pending.  The other forms of the reference resolve as claimed, and the
declaration path (`attachAnimation`) does create the timeline of a scenario lazily and
keeps an existing one. -/
theorem dispatch_does_not_create_timeline :
    let s : State :=
      { components :=
          [{ inst := { animationComponentId := "A_1" },
             animations := [("x", { generatorFunc := fun _ _ => {}, elementRef := Val.null })] }] }
    let out := addAnimation s (OneOrMany.one (RawAnimationConfig.str "x"))
      (TimelineRef.name "side") {}
    let declared := (attachAnimation s [{ id := some "a", timeline := some "side" }]).1
    let again := (attachAnimation
      (addAnimation declared (OneOrMany.one (RawAnimationConfig.str "x"))
        (TimelineRef.name "side") {}).state
      [{ id := some "b", timeline := some "side" }]).1
    (resolveTimeline s (TimelineRef.name "side") = none ∧
      out.threw = true ∧
      out.state.timelines.map Prod.fst = [] ∧
      timelineOps out.state.log = [] ∧
      generatorTrace out.state.log = [("A_1", "x")] ∧
      out.state.components.map (fun c => c.pendingAnimations) = [[some 1]]) ∧
    (resolveTimeline s TimelineRef.nullish = some TlLoc.master ∧
      resolveTimeline s (TimelineRef.name "master") = some TlLoc.master ∧
      resolveTimeline s (TimelineRef.handle 3) = some (TlLoc.handle 3)) ∧
    (declared.timelines.map (fun kv => (kv.1, kv.2.children.length)) = [("side", 0)] ∧
      resolveTimeline declared (TimelineRef.name "side") = some (TlLoc.named "side") ∧
      again.timelines.map (fun kv => (kv.1, kv.2.children.length)) = [("side", 1)]) := by
  decide

/-! ## C16: interrupt -/

/-- C16 at its failing input.  A scenario `intro` with `interrupt: true` on the timeline
`side` is declared on a component that registers its animation `x`.  Fired by its trigger
(pre-hook, then post-hook), the timeline is fast-forwarded before the entry is inserted;
fired by `triggerScenario("intro")`, the entry is inserted and the timeline is never
fast-forwarded: the global `addScenarioAnimations` has no `interrupt` step. -/
theorem triggerScenario_ignores_interrupt :
    let scenario : ScenarioConfig :=
      { id := some "intro", timeline := some "side", interrupt := true
        trigger := some (OneOrMany.one (TriggerConfig.function (fun _ _ _ => Val.bool true)))
        animations := ScenarioAnimations.value (AnimationsValue.str "x") }
    let mounted : State :=
      { components :=
          [{ inst := { animationComponentId := "A_1" },
             animations := [("x", { generatorFunc := fun _ _ => {}, elementRef := Val.null })] }] }
    let s := (attachAnimation mounted [scenario]).1
    let byTrigger := AnimatedComponent.componentDidUpdate "A_1"
      (AnimatedComponent.componentWillUpdate "A_1" [scenario] s [] []).state []
    let byId := triggerScenario s "intro"
    (byTrigger.threw = false ∧
      timelineOps byTrigger.state.log =
        [(TlLoc.named "side", none), (TlLoc.named "side", some "A_1")]) ∧
    (byId.threw = false ∧
      timelineOps byId.state.log = [(TlLoc.named "side", some "A_1")]) := by
  decide

/-! ## C18: non-fatal errors -/

/-- C18 at its failing inputs.  (1) `addAnimation("x", "side")` with a timeline name that
was never created and two components registering `x`: the call throws, and the second
(request, component) pair is never dispatched.  (2) `triggerScenario` of a registered
scenario whose `animations` is a resolver function, and (3) of one whose `animations` is
a single config object: the call throws.  An unknown scenario id or animation name, by
contrast, only logs. -/
theorem type_errors_escape_the_entry_points :
    let registry : List ComponentData :=
      [{ inst := { animationComponentId := "A_1" },
         animations := [("x", { generatorFunc := fun _ _ => {}, elementRef := Val.null })] },
       { inst := { animationComponentId := "B_2" },
         animations := [("x", { generatorFunc := fun _ _ => {}, elementRef := Val.null })] }]
    let s := (attachAnimation { components := registry }
      [{ id := some "resolver"
         animations := ScenarioAnimations.func (fun _ _ =>
           AnimationsValue.array [RawAnimationConfig.str "x"]) },
       { id := some "single", animations := ScenarioAnimations.value AnimationsValue.other }]).1
    let missingTimeline := addAnimation s (OneOrMany.one (RawAnimationConfig.str "x"))
      (TimelineRef.name "side") {}
    (missingTimeline.threw = true ∧
      expansion s none [RawAnimationConfig.str "x"] = [("A_1", "x"), ("B_2", "x")] ∧
      dispatchTrace missingTimeline.state.log = [("A_1", "x")]) ∧
    (triggerScenario s "resolver").threw = true ∧
    (triggerScenario s "single").threw = true ∧
    ((triggerScenario s "nowhere").threw = false ∧
      diagnostics (triggerScenario s "nowhere").state.log = [Diag.noSuchScenario "nowhere"]) ∧
    ((addAnimation s (OneOrMany.one (RawAnimationConfig.str "ghost")) TimelineRef.nullish
        {}).threw = false) := by
  decide

/-! ## C19: callback arguments -/

/-- C19 at its failing input.  A request for `x` with its own `onStart` (callback 1) and
`onComplete` (callback 2) is dispatched with a scenario in the options, both scenario
hooks being set; its entry then starts and completes.  Each callback and each hook is
called once, in the order start, scenario start, complete, scenario complete, and each
is called with no argument at all: `apply` is given the argument array as its `this`. -/
theorem callbacks_receive_no_arguments :
    let s : State :=
      { components :=
          [{ inst := { animationComponentId := "A_1", wrappedComponentRef := Val.obj 5 },
             animations := [("x", { generatorFunc := fun _ _ => {}, elementRef := Val.null })] }]
        globalOptions := { onScenarioStart := true, onScenarioComplete := true } }
    let out := addAnimation s
      (OneOrMany.one (RawAnimationConfig.obj
        { animation := some "x", onStart := some 1, onComplete := some 2 }))
      TimelineRef.nullish
      { scenarioConfig := some { id := some "intro" }
        triggerConfig := some (TriggerConfig.function (fun _ _ _ => Val.bool true)) }
    let played := out.state.master.children.foldl
      (fun u e => onCompleteCallback e (onStartCallback e u)) out.state
    out.threw = false ∧
    out.state.master.children.map (fun e => e.references) =
      [{ animationComponent := Val.obj 5, triggerComponent := none }] ∧
    dispatchFlags out.state.log = [(true, true)] ∧
    callbackCalls played.log =
      [Event.callback 1 [], Event.hook Hook.onScenarioStart [],
       Event.callback 2 [], Event.hook Hook.onScenarioComplete []] := by
  decide

/-! ## C11: config resolution failure -/

/-- C11, as stated, fails.  A function-form config that returns `null`, normalised with a
valid context, does produce a request: id 1 is taken from the counter and the request has
the default position, the marker and no animation name.  Dispatched globally, that
request goes to every component that registers an animation under the name `undefined`.
And a function that returns a number is normalised without any diagnostic. -/
theorem failed_resolution_still_produces_request :
    let ctx : Option Instance := some { animationComponentId := "A_1" }
    let nullResult := transformAnimationConfig {} (RawAnimationConfig.func (fun _ => FuncResult.nullish)) ctx
    let numberResult := transformAnimationConfig {} (RawAnimationConfig.func (fun _ => FuncResult.other)) ctx
    let s : State :=
      { components :=
          [{ inst := { animationComponentId := "A_1" },
             animations := [("undefined", { generatorFunc := fun _ _ => {},
                                            elementRef := Val.null })] }] }
    let out := addAnimation s
      (OneOrMany.one (RawAnimationConfig.func (fun _ => FuncResult.nullish))) TimelineRef.nullish
      { thisContext := ctx }
    (nullResult.2 = { id := some 1, position := some (Val.str "+=0"), transformed := true } ∧
      nullResult.1.animationIdCounter = 1 ∧
      diagnostics nullResult.1.log = [Diag.funcReturnedNullish]) ∧
    (numberResult.2 = { id := some 1, position := some (Val.str "+=0"), transformed := true } ∧
      diagnostics numberResult.1.log = []) ∧
    (diagnostics out.state.log = [Diag.funcReturnedNullish] ∧
      generatorTrace out.state.log = [("A_1", "undefined")] ∧
      out.state.master.children.length = 1) := by
  decide

/-- C11, amended.  When a function-form config is normalised without a valid component
context, or its function returns `null`/`undefined` or a value that is neither a string
nor an object, the normaliser still returns a request: the next id of the counter, the
default position, the marker and no animation name.  It logs exactly one diagnostic in
the first two cases and none in the third.  In the global `addAnimation` the request is
looked up under the name `undefined`: on a registry where no component registers that
name, the iteration logs one `noComponents` diagnostic, changes no component and no
timeline (nothing is dispatched for it), and goes on with the rest of the batch. -/
theorem failed_resolution_yields_unnamed_request (s : State) (f : Val → FuncResult)
    (ctx : Option Instance) (h : resolvesToNothing f ctx = true) :
    (transformAnimationConfig s (RawAnimationConfig.func f) ctx).2 =
      { id := some (s.animationIdCounter + 1), position := some (Val.str "+=0"),
        transformed := true } ∧
    (transformAnimationConfig s (RawAnimationConfig.func f) ctx).1.animationIdCounter =
      s.animationIdCounter + 1 ∧
    (transformAnimationConfig s (RawAnimationConfig.func f) ctx).1.log =
      s.log ++ (normalizeDiags (RawAnimationConfig.func f) ctx).map Event.error ∧
    (normalizeDiags (RawAnimationConfig.func f) ctx = [Diag.noThisContext] ∨
      normalizeDiags (RawAnimationConfig.func f) ctx = [Diag.funcReturnedNullish] ∨
      (normalizeDiags (RawAnimationConfig.func f) ctx = [] ∧
        ∃ c, ctx = some c ∧ f c.wrappedComponentRef = FuncResult.other)) ∧
    (∀ (tl : TimelineRef) (len i : Nat) (rest : List RawAnimationConfig) (options : Options),
      options.thisContext = ctx → targets s "undefined" = [] →
      addAnimationLoop tl len i (RawAnimationConfig.func f :: rest) options s =
        addAnimationLoop tl len (i + 1) rest options
          (error (transformAnimationConfig s (RawAnimationConfig.func f) ctx).1
            (Diag.noComponents "undefined")) ∧
      (error (transformAnimationConfig s (RawAnimationConfig.func f) ctx).1
        (Diag.noComponents "undefined")).components = s.components ∧
      (error (transformAnimationConfig s (RawAnimationConfig.func f) ctx).1
        (Diag.noComponents "undefined")).master = s.master ∧
      (error (transformAnimationConfig s (RawAnimationConfig.func f) ctx).1
        (Diag.noComponents "undefined")).timelines = s.timelines ∧
      (error (transformAnimationConfig s (RawAnimationConfig.func f) ctx).1
        (Diag.noComponents "undefined")).handles = s.handles) := by
  have hsrc : spreadSource (RawAnimationConfig.func f) ctx = {} := by
    unfold resolvesToNothing at h
    unfold spreadSource
    cases ctx with
    | none => rfl
    | some c =>
      simp only at h ⊢
      by_cases hid : c.animationComponentId = ""
      · simp [hid]
      · simp only [ne_eq, hid, not_false_eq_true, if_true] at h ⊢
        cases hf : f c.wrappedComponentRef <;> simp_all
  have hun := transformAnimationConfig_unmarked s (RawAnimationConfig.func f) ctx rfl
  rw [hsrc] at hun
  have hname : requestName (RawAnimationConfig.func f) ctx = "undefined" := by
    rw [← transformAnimationConfig_animation s, hun.2]
    rfl
  refine ⟨hun.2, hun.1, transformAnimationConfig_log s _ ctx, ?_, ?_⟩
  · unfold resolvesToNothing at h
    unfold normalizeDiags
    cases ctx with
    | none => exact Or.inl rfl
    | some c =>
      simp only at h ⊢
      by_cases hid : c.animationComponentId = ""
      · simp [hid]
      · simp only [ne_eq, hid, not_false_eq_true, if_true] at h ⊢
        cases hf : f c.wrappedComponentRef <;> simp_all
  · intro tl len i rest options hctx hnone
    have ht := transformAnimationConfig_timelines s (RawAnimationConfig.func f) ctx
    subst hctx
    refine ⟨?_, transformAnimationConfig_components s _ _, ht.1, ht.2.1, ht.2.2⟩
    have := addAnimationLoop_unknown tl len i (RawAnimationConfig.func f) rest options s
      (by rw [hname]; exact hnone)
    rw [hname] at this
    exact this

/-- A function-form config evaluated without any context. -/
theorem failed_resolution_yields_unnamed_request_witness :
    (transformAnimationConfig { animationIdCounter := 6 }
      (RawAnimationConfig.func (fun _ => FuncResult.str "fadeIn")) none).2 =
      { id := some 7, position := some (Val.str "+=0"), transformed := true } :=
  (failed_resolution_yields_unnamed_request { animationIdCounter := 6 }
    (fun _ => FuncResult.str "fadeIn") none rfl).1

/-! ## C15: `withPrev` positioning -/

/-- C15: when a request whose normalised position is `"withPrev"` is dispatched to a
component that registers its animation, on a timeline reference that resolves, the step
returns normally and appends exactly one entry to the timeline, inserted at the numeric
position that is the start time of the timeline's last child at that moment, or 0 when
the timeline has no children (the request's position is replaced by that number).  So on
a timeline that holds a single entry, the new entry gets the position, and the start
time, of that entry's start. -/
theorem withPrev_position (s : State) (self : String) (c : ComponentData) (ad : AnimationData)
    (raw : RawAnimationConfig) (tl : TimelineRef) (options : Options) (loc : TlLoc)
    (hc : s.component self = some c)
    (had : c.animations.lookup
      (nameOf (transformAnimationConfig s raw (some c.inst)).2.animation) = some ad)
    (hres : resolveTimeline s tl = some loc)
    (hpos : (transformAnimationConfig s raw (some c.inst)).2.position =
      some (Val.str "withPrev")) :
    ∃ e : Entry,
      (AnimatedComponent.addAnimationItem self tl options s raw).1.threw = false ∧
      ((AnimatedComponent.addAnimationItem self tl options s raw).1.state.timelineAt
        loc).children = (s.timelineAt loc).children ++ [e] ∧
      e.componentId = self ∧
      e.position = Val.num (s.timelineAt loc).lastChildStart ∧
      e.animationConfig.position = some (Val.num (s.timelineAt loc).lastChildStart) ∧
      e.startTime = (s.timelineAt loc).lastChildStart ∧
      ((s.timelineAt loc).children = [] → e.position = Val.num 0) ∧
      (∀ first : Entry, (s.timelineAt loc).children = [first] →
        e.position = Val.num first.startTime ∧ e.startTime = first.startTime) := by
  have h := addAnimationItem_registered self tl options s raw c ad hc had
  simp only [hres, hpos, if_true] at h
  have hex : ∃ (e : Entry) (t : State) (ev : Event) (r : Option AnimObj),
      AnimatedComponent.addAnimationItem self tl options s raw =
        ({ state := (t.setTimelineAt loc
            { children := (s.timelineAt loc).children ++ [e] }).emit ev }, r) ∧
      e.componentId = self ∧
      e.position = Val.num (s.timelineAt loc).lastChildStart ∧
      e.animationConfig.position = some (Val.num (s.timelineAt loc).lastChildStart) ∧
      e.startTime = (s.timelineAt loc).lastChildStart :=
    ⟨_, _, _, _, h, rfl, rfl, rfl, rfl⟩
  obtain ⟨e, t, ev, r, heq, h1, h2, h3, h4⟩ := hex
  refine ⟨e, ?_, ?_, h1, h2, h3, h4, ?_, ?_⟩
  · rw [heq]
  · rw [heq]
    show ((State.setTimelineAt t loc _).timelineAt loc).children = _
    rw [timelineAt_setTimelineAt]
  · intro hnil
    rw [h2]
    simp [Timeline.lastChildStart, hnil]
  · intro first hfirst
    rw [h2, h4]
    simp [Timeline.lastChildStart, hfirst]

/-- P6 of the spec: `fadeIn` (half a second long) is inserted into the empty master
timeline, then `expand` with position `withPrev`: the second entry is placed at the
start of the first, not after its end. -/
theorem withPrev_position_witness :
    let registered : ComponentData :=
      { inst := { animationComponentId := "Box_1" },
        animations :=
          [("fadeIn", { generatorFunc := fun _ _ => { duration := 500 }, elementRef := Val.null }),
           ("expand", { generatorFunc := fun _ _ => { duration := 300 }, elementRef := Val.null })] }
    let s1 := (AnimatedComponent.addAnimationItem "Box_1" TimelineRef.nullish {}
      { components := [registered] } (RawAnimationConfig.str "fadeIn")).1.state
    let second := RawAnimationConfig.obj
      { animation := some "expand", position := some (Val.str "withPrev") }
    s1.master.children.map (fun e => (e.startTime, e.duration)) = [(0, 500)] ∧
    ∃ e : Entry,
      ((AnimatedComponent.addAnimationItem "Box_1" TimelineRef.nullish {} s1 second).1.state.timelineAt
        TlLoc.master).children = (s1.timelineAt TlLoc.master).children ++ [e] ∧
      e.position = Val.num 0 ∧ e.startTime = 0 :=
  ⟨by decide,
   match withPrev_position
    (AnimatedComponent.addAnimationItem "Box_1" TimelineRef.nullish {}
      { components := [{ inst := { animationComponentId := "Box_1" },
                         animations :=
                           [("fadeIn", { generatorFunc := fun _ _ => { duration := 500 },
                                         elementRef := Val.null }),
                            ("expand", { generatorFunc := fun _ _ => { duration := 300 },
                                         elementRef := Val.null })] }] }
      (RawAnimationConfig.str "fadeIn")).1.state
    "Box_1"
    { inst := { animationComponentId := "Box_1" },
      animations :=
        [("fadeIn", { generatorFunc := fun _ _ => { duration := 500 }, elementRef := Val.null }),
         ("expand", { generatorFunc := fun _ _ => { duration := 300 }, elementRef := Val.null })],
      pendingAnimations := [some 1] }
    { generatorFunc := fun _ _ => { duration := 300 }, elementRef := Val.null }
    (RawAnimationConfig.obj { animation := some "expand", position := some (Val.str "withPrev") })
    TimelineRef.nullish {} TlLoc.master rfl rfl rfl rfl with
   | ⟨e, _, h2, _, h4, _, h6, _, _⟩ => ⟨e, h2, h4, h6⟩⟩

/-! ## C17: `triggerScenario` -/

/-- C17 at its failing input.  The scenario map holds `intro` only.  The id `constructor`
is not present in it, yet `scenarios["constructor"]` is the function inherited from
`Object.prototype`, which is truthy: `triggerScenario("constructor")` takes the dispatch
branch and throws, and no diagnostic is emitted.  An ordinary unknown id only logs, and
the registered id is dispatched, as claimed. -/
theorem triggerScenario_throws_on_inherited_id :
    let s : State := (attachAnimation
      { components :=
          [{ inst := { animationComponentId := "A_1" },
             animations := [("x", { generatorFunc := fun _ _ => {}, elementRef := Val.null })] }] }
      [{ id := some "intro", animations := ScenarioAnimations.value (AnimationsValue.str "x") }]).1
    s.scenarios.map Prod.fst = ["intro"] ∧
    ((triggerScenario s "constructor").threw = true ∧
      diagnostics (triggerScenario s "constructor").state.log = []) ∧
    ((triggerScenario s "nowhere").threw = false ∧
      diagnostics (triggerScenario s "nowhere").state.log = [Diag.noSuchScenario "nowhere"]) ∧
    ((triggerScenario s "intro").threw = false ∧
      dispatchTrace (triggerScenario s "intro").state.log = [("A_1", "x")]) := by
  decide

/-- What `triggerScenario` does away from inherited names.  For a scenario id that is
neither a key of the scenario map nor a name inherited from `Object.prototype`, it only
emits one `noSuchScenario` diagnostic (no component entry and no timeline changes); for a
registered id whose scenario has a list of animations, or a single animation name, it is
the global `addAnimation` of that list (of that one name) on the timeline named by the
scenario, `master` when the scenario has none, with options that hold the scenario (its
timeline filled in) and neither a trigger nor a component context; on a registry with
distinct ids, a timeline name that resolves and animation names that are not inherited
ones, the calls made to components are the expansion of the list in list order. -/
theorem triggerScenario_spec (s : State) (scenarioId : String) :
    (s.scenarios.lookup scenarioId = none → inherited scenarioId = false →
      triggerScenario s scenarioId = { state := error s (Diag.noSuchScenario scenarioId) } ∧
      (error s (Diag.noSuchScenario scenarioId)).components = s.components ∧
      (error s (Diag.noSuchScenario scenarioId)).master = s.master ∧
      (error s (Diag.noSuchScenario scenarioId)).timelines = s.timelines ∧
      (error s (Diag.noSuchScenario scenarioId)).handles = s.handles ∧
      diagnostics (error s (Diag.noSuchScenario scenarioId)).log =
        diagnostics s.log ++ [Diag.noSuchScenario scenarioId]) ∧
    (∀ (scenarioConfig : ScenarioConfig) (animations : List RawAnimationConfig),
      s.scenarios.lookup scenarioId = some scenarioConfig →
      (scenarioConfig.animations = ScenarioAnimations.value (AnimationsValue.array animations) ∨
        ∃ name, scenarioConfig.animations = ScenarioAnimations.value (AnimationsValue.str name) ∧
          animations = [RawAnimationConfig.str name]) →
      triggerScenario s scenarioId =
        addAnimation s (OneOrMany.many animations)
          (TimelineRef.name (scenarioConfig.timeline.getD "master"))
          { thisContext := none, triggerConfig := none
            scenarioConfig := some
              { scenarioConfig with timeline := some (scenarioConfig.timeline.getD "master") } } ∧
      (∀ loc, s.WellFormed →
        resolveTimeline s (TimelineRef.name (scenarioConfig.timeline.getD "master")) = some loc →
        (∀ raw ∈ animations, inherited (requestName raw none) = false) →
        (triggerScenario s scenarioId).threw = false ∧
        dispatchTrace (triggerScenario s scenarioId).state.log =
          dispatchTrace s.log ++ expansion s none animations)) := by
  constructor
  · intro h hinh
    refine ⟨by simp [triggerScenario, h, hinh], rfl, rfl, rfl, rfl, ?_⟩
    show diagnostics (s.log ++ [Event.error _]) = _
    rw [diagnostics_append]
    rfl
  · intro scenarioConfig animations hsc hanim
    have heq : triggerScenario s scenarioId =
        addAnimation s (OneOrMany.many animations)
          (TimelineRef.name (scenarioConfig.timeline.getD "master"))
          { thisContext := none, triggerConfig := none
            scenarioConfig := some
              { scenarioConfig with
                timeline := some (scenarioConfig.timeline.getD "master") } } := by
      rcases hanim with h | ⟨name, h, rfl⟩
      · simp [triggerScenario, hsc, addScenarioAnimations, h]
      · simp [triggerScenario, hsc, addScenarioAnimations, h]
    refine ⟨heq, ?_⟩
    intro loc hwf hres hinh
    rw [heq]
    obtain ⟨h1, h2, _⟩ := addAnimation_trace_of_resolved s (OneOrMany.many animations)
      (TimelineRef.name (scenarioConfig.timeline.getD "master"))
      { thisContext := none, triggerConfig := none
        scenarioConfig := some
          { scenarioConfig with timeline := some (scenarioConfig.timeline.getD "master") } }
      loc hwf hres hinh
    exact ⟨h1, h2⟩

/-- A registered scenario with two animations and no timeline of its own. -/
theorem triggerScenario_spec_witness :
    triggerScenario
      { scenarios := [("intro", { id := some "intro"
                                  animations := ScenarioAnimations.value (AnimationsValue.array
                                    [RawAnimationConfig.str "fadeIn",
                                     RawAnimationConfig.str "expand"]) })] }
      "intro" =
      addAnimation
        { scenarios := [("intro", { id := some "intro"
                                    animations := ScenarioAnimations.value (AnimationsValue.array
                                      [RawAnimationConfig.str "fadeIn",
                                       RawAnimationConfig.str "expand"]) })] }
        (OneOrMany.many [RawAnimationConfig.str "fadeIn", RawAnimationConfig.str "expand"])
        (TimelineRef.name "master")
        { thisContext := none, triggerConfig := none
          scenarioConfig := some
            { id := some "intro", timeline := some "master"
              animations := ScenarioAnimations.value (AnimationsValue.array
                [RawAnimationConfig.str "fadeIn", RawAnimationConfig.str "expand"]) } } :=
  ((triggerScenario_spec
    { scenarios := [("intro", { id := some "intro"
                                animations := ScenarioAnimations.value (AnimationsValue.array
                                  [RawAnimationConfig.str "fadeIn",
                                   RawAnimationConfig.str "expand"]) })] }
    "intro").2
    { id := some "intro"
      animations := ScenarioAnimations.value (AnimationsValue.array
        [RawAnimationConfig.str "fadeIn", RawAnimationConfig.str "expand"]) }
    [RawAnimationConfig.str "fadeIn", RawAnimationConfig.str "expand"] rfl (Or.inl rfl)).1

/-! ## What a dispatch leaves alone -/

theorem core_updateComponent (s : State) (id : String) (f : ComponentData → ComponentData)
    (hf : ∀ c, core (f c) = core c) :
    (s.updateComponent id f).components.map core = s.components.map core := by
  unfold State.updateComponent
  simp only [List.map_map]
  apply List.map_congr_left
  intro c _
  simp only [Function.comp]
  split
  · exact hf c
  · rfl

theorem component_of_core {s t : State}
    (h : s.components.map core = t.components.map core) (id : String) :
    (s.component id).map core = (t.component id).map core := by
  have hfind : ∀ l : List ComponentData,
      (l.find? (fun c => c.id == id)).map core =
        (l.map core).find? (fun f => f.1.animationComponentId == id) := by
    intro l
    rw [List.find?_map]
    rfl
  unfold State.component
  rw [hfind, hfind, h]

theorem addAnimationItem_core (self : String) (tl : TimelineRef) (options : Options)
    (s : State) (raw : RawAnimationConfig) :
    (AnimatedComponent.addAnimationItem self tl options s raw).1.state.components.map core =
      s.components.map core := by
  unfold AnimatedComponent.addAnimationItem
  cases hc : s.component self with
  | none => rfl
  | some c =>
    simp only
    have hcomp := transformAnimationConfig_components s raw (some c.inst)
    generalize transformAnimationConfig s raw (some c.inst) = r at hcomp ⊢
    obtain ⟨s1, cfg⟩ := r
    simp only at hcomp ⊢
    have hupd : ∀ (t : State) (k : Option Nat), t.components = s.components →
        (t.updateComponent self (fun c =>
          { c with pendingAnimations := setKey k c.pendingAnimations })).components.map core =
          s.components.map core := by
      intro t k ht
      rw [core_updateComponent, ht]
      exact fun _ => rfl
    split
    · split
      · simp only [hcomp]
      · simp only [error, State.emit, hcomp]
    · split
      · exact hupd _ _ (by simp only [State.emit, hcomp])
      · simp only [State.emit, setTimelineAt_components]
        exact hupd _ _ (by simp only [hcomp])

theorem fanOut_core (tl : TimelineRef) (ai len mc : Nat) :
    ∀ (cs : List ComponentData) (j : Nat) (cfg : AnimObj) (options : Options) (s : State),
      (fanOut tl ai len mc j cs cfg options s).1.state.components.map core =
        s.components.map core := by
  intro cs
  induction cs with
  | nil => intro j cfg options s; rfl
  | cons c rest ih =>
    intro j cfg options s
    simp only [fanOut]
    have hitem := addAnimationItem_core c.id tl
      { options with
        firstAnimationInScenario := ai == 0 && j == 0
        lastAnimationInScenario := ai == len - 1 && j == mc - 1 }
      (s.emit (Event.dispatch c.id cfg (ai == 0 && j == 0) (ai == len - 1 && j == mc - 1)))
      (RawAnimationConfig.obj cfg)
    generalize AnimatedComponent.addAnimationItem c.id tl
      { options with
        firstAnimationInScenario := ai == 0 && j == 0
        lastAnimationInScenario := ai == len - 1 && j == mc - 1 }
      (s.emit (Event.dispatch c.id cfg (ai == 0 && j == 0) (ai == len - 1 && j == mc - 1)))
      (RawAnimationConfig.obj cfg) = r at hitem ⊢
    obtain ⟨out, cfg1⟩ := r
    simp only at hitem ⊢
    split
    · exact hitem
    · rw [ih]
      exact hitem

theorem addAnimationLoop_core (tl : TimelineRef) (len : Nat) :
    ∀ (batch : List RawAnimationConfig) (i : Nat) (options : Options) (s : State),
      (addAnimationLoop tl len i batch options s).state.components.map core =
        s.components.map core := by
  intro batch
  induction batch with
  | nil => intro i options s; rfl
  | cons raw rest ih =>
    intro i options s
    simp only [addAnimationLoop]
    have hcomp := transformAnimationConfig_components s raw options.thisContext
    generalize transformAnimationConfig s raw options.thisContext = r at hcomp ⊢
    obtain ⟨s1, cfg⟩ := r
    simp only at hcomp ⊢
    split
    · have hfan := fanOut_core tl i len
        (s1.components.filter (fun c => hasKey c.animations (nameOf cfg.animation))).length
        (s1.components.filter (fun c => hasKey c.animations (nameOf cfg.animation))) 0 cfg
        options s1
      generalize fanOut tl i len
        (s1.components.filter (fun c => hasKey c.animations (nameOf cfg.animation))).length 0
        (s1.components.filter (fun c => hasKey c.animations (nameOf cfg.animation))) cfg
        options s1 = r at hfan ⊢
      obtain ⟨out, options1⟩ := r
      simp only at hfan ⊢
      split
      · rw [hfan, hcomp]
      · rw [ih, hfan, hcomp]
    · rw [ih]
      simp only [error, State.emit, hcomp]

theorem addScenarioAnimations_core (s : State) (scenarioConfig : ScenarioConfig)
    (options : Options) :
    (addScenarioAnimations s scenarioConfig options).state.components.map core =
      s.components.map core := by
  unfold addScenarioAnimations
  simp only
  split
  · exact addAnimationLoop_core _ _ _ _ _ _
  · exact addAnimationLoop_core _ _ _ _ _ _
  · rfl

theorem shell_of_core {l m : List ComponentData} (h : l.map core = m.map core) :
    l.map shell = m.map shell := by
  have hk : ∀ k : List ComponentData,
      k.map shell = (k.map core).map (fun x => (x.1, x.2.1, x.2.2.2.1, x.2.2.2.2)) := by
    intro k
    rw [List.map_map]
    rfl
  rw [hk l, hk m, h]

theorem shell_updateComponent (s : State) (id : String) (f : ComponentData → ComponentData)
    (hf : ∀ c, shell (f c) = shell c) :
    (s.updateComponent id f).components.map shell = s.components.map shell := by
  unfold State.updateComponent
  simp only [List.map_map]
  apply List.map_congr_left
  intro c _
  simp only [Function.comp]
  split
  · exact hf c
  · rfl

theorem component_of_shell {s t : State}
    (h : s.components.map shell = t.components.map shell) (id : String) :
    (s.component id).map shell = (t.component id).map shell := by
  have hfind : ∀ l : List ComponentData,
      (l.find? (fun c => c.id == id)).map shell =
        (l.map shell).find? (fun f => f.1.animationComponentId == id) := by
    intro l
    rw [List.find?_map]
    rfl
  unfold State.component
  rw [hfind, hfind, h]

theorem onStartCallback_shell (e : Entry) (s : State) :
    (onStartCallback e s).components.map shell = s.components.map shell := by
  rw [onStartCallback_components, shell_updateComponent]
  exact fun _ => rfl

theorem onCompleteCallback_shell (e : Entry) (s : State) :
    (onCompleteCallback e s).components.map shell = s.components.map shell := by
  rw [onCompleteCallback_components, shell_updateComponent]
  exact fun _ => rfl

/-- A fast-forward changes the two animation sets of components only. -/
theorem fastForward_shell (loc : TlLoc) (s : State) :
    (fastForward loc s).components.map shell = s.components.map shell := by
  have hfold : ∀ (l : List Entry) (t : State),
      (l.foldl (fun s e => onCompleteCallback e (if e.started then s else onStartCallback e s))
        t).components.map shell = t.components.map shell := by
    intro l
    induction l with
    | nil => intro t; rfl
    | cons e rest ih =>
      intro t
      rw [List.foldl_cons, ih, onCompleteCallback_shell]
      split
      · rfl
      · exact onStartCallback_shell e t
  unfold fastForward
  rw [hfold, setTimelineAt_components]

/-- The dispatch of a scenario by a component changes the two animation sets of
components only. -/
theorem method_addScenarioAnimations_shell (self : String) (s : State)
    (scenarioConfig : ScenarioConfig) (prevProps : Props) (triggerConfig : TriggerConfig) :
    (AnimatedComponent.addScenarioAnimations self s scenarioConfig prevProps
      triggerConfig).state.components.map shell = s.components.map shell := by
  unfold AnimatedComponent.addScenarioAnimations
  split
  · rfl
  · simp only
    split
    · rfl
    · rename_i s1 hs1
      have h1 : s1.components.map shell = s.components.map shell := by
        split at hs1
        · split at hs1
          · simp only [Option.some.injEq] at hs1
            rw [← hs1, fastForward_shell]
            rfl
          · simp at hs1
        · simp only [Option.some.injEq] at hs1
          rw [← hs1]
      rw [shell_of_core (addScenarioAnimations_core _ _ _), h1]

/-- The dispatch of a scenario without `interrupt` by a component changes the
`pendingAnimations` of components only. -/
theorem method_addScenarioAnimations_core (self : String) (s : State)
    (scenarioConfig : ScenarioConfig) (prevProps : Props) (triggerConfig : TriggerConfig)
    (hint : scenarioConfig.interrupt = false) :
    (AnimatedComponent.addScenarioAnimations self s scenarioConfig prevProps
      triggerConfig).state.components.map core = s.components.map core := by
  unfold AnimatedComponent.addScenarioAnimations
  split
  · rfl
  · simp only [hint, Bool.false_eq_true, if_false]
    rw [addScenarioAnimations_core]

theorem emit_component (s : State) (e : Event) (id : String) :
    (s.emit e).component id = s.component id := rfl

theorem dispatchMatched_component (self : String) (s : State) (prevProps : Props)
    (c : ComponentData) (hc : s.component self = some c) :
    (∀ other, other ≠ self →
      ((AnimatedComponent.dispatchMatched self s prevProps c).state.component other).map shell =
        (s.component other).map shell) ∧
    ((AnimatedComponent.dispatchMatched self s prevProps c).state.component self).isSome = true ∧
    (c.inst.matchedScenario = none →
      AnimatedComponent.dispatchMatched self s prevProps c = { state := s }) := by
  have hdel_other : ∀ other, other ≠ self →
      (s.updateComponent self (fun c =>
        { c with inst := { c.inst with matchedScenario := none } })).component other =
        s.component other := by
    intro other hother
    rw [updateComponent_component_other]
    · exact fun _ => rfl
    · exact hother
  have hdel_self : (s.updateComponent self (fun c =>
      { c with inst := { c.inst with matchedScenario := none } })).component self =
      some { c with inst := { c.inst with matchedScenario := none } } := by
    rw [updateComponent_component_self, hc]
    · rfl
    · exact fun _ => rfl
  unfold AnimatedComponent.dispatchMatched
  cases hm : c.inst.matchedScenario with
  | none =>
    simp [hc]
  | some m =>
    simp only
    refine ⟨?_, ?_, fun h => by simp at h⟩
    · intro other hother
      cases hf : m.firedTriggerConfig with
      | none => simp only; rw [hdel_other other hother]
      | some fired =>
        simp only
        rw [component_of_shell (method_addScenarioAnimations_shell self _ m.scenarioConfig prevProps
          fired) other]
        split
        · rw [emit_component, hdel_other other hother]
        · rw [hdel_other other hother]
    · cases hf : m.firedTriggerConfig with
      | none => simp only; rw [hdel_self]; rfl
      | some fired =>
        simp only
        have hcore := component_of_shell (method_addScenarioAnimations_shell self
          (if (s.updateComponent self (fun c =>
              { c with inst := { c.inst with matchedScenario := none } })).globalOptions.onScenarioTriggered
            then (s.updateComponent self (fun c =>
              { c with inst := { c.inst with matchedScenario := none } })).emit
                (Event.hook Hook.onScenarioTriggered
                  [CallbackArg.scenarioConfig m.scenarioConfig.id])
            else s.updateComponent self (fun c =>
              { c with inst := { c.inst with matchedScenario := none } }))
          m.scenarioConfig prevProps fired) self
        have hs2 : (if (s.updateComponent self (fun c =>
              { c with inst := { c.inst with matchedScenario := none } })).globalOptions.onScenarioTriggered
            then (s.updateComponent self (fun c =>
              { c with inst := { c.inst with matchedScenario := none } })).emit
                (Event.hook Hook.onScenarioTriggered
                  [CallbackArg.scenarioConfig m.scenarioConfig.id])
            else s.updateComponent self (fun c =>
              { c with inst := { c.inst with matchedScenario := none } })).component self =
            some { c with inst := { c.inst with matchedScenario := none } } := by
          split
          · rw [emit_component, hdel_self]
          · rw [hdel_self]
        rw [hs2] at hcore
        have := congrArg Option.isSome hcore
        simpa using this

/-- The block `if (matchedScenario) {…}` of `componentDidUpdate`, for a saved match whose
scenario has no `interrupt`: of the other components only the `pendingAnimations` change. -/
theorem dispatchMatched_core (self : String) (s : State) (prevProps : Props)
    (c : ComponentData) (m : ScenarioTest) (hm : c.inst.matchedScenario = some m)
    (hint : m.scenarioConfig.interrupt = false) (other : String) (hother : other ≠ self) :
    ((AnimatedComponent.dispatchMatched self s prevProps c).state.component other).map core =
      (s.component other).map core := by
  have hdel_other : (s.updateComponent self (fun c =>
        { c with inst := { c.inst with matchedScenario := none } })).component other =
        s.component other := by
    rw [updateComponent_component_other]
    · exact fun _ => rfl
    · exact hother
  unfold AnimatedComponent.dispatchMatched
  simp only [hm]
  cases hf : m.firedTriggerConfig with
  | none => simp only; rw [hdel_other]
  | some fired =>
    simp only
    rw [component_of_core (method_addScenarioAnimations_core self _ m.scenarioConfig prevProps
      fired hint) other]
    split
    · rw [emit_component, hdel_other]
    · rw [hdel_other]

/-! ## C20: the transition hooks -/

/-- C20 at its failing input.  A scenario whose trigger fires on `shouldShow` going from
`true` to `false` has a single config object as its `animations`; the dispatch of the
post-transition hook then throws, and the hook is left before its last two statements:
after the cycle the component still has `evaluatingAnimations` and `removeCandidate` set. -/
theorem post_hook_throw_leaves_flags_set :
    let scenario : ScenarioConfig :=
      { id := some "hide"
        trigger := some (OneOrMany.one (TriggerConfig.object (fun p => p.get "shouldShow")
          (Val.bool true) (Val.bool false)))
        animations := ScenarioAnimations.value AnimationsValue.other }
    let s := (attachAnimation
      { components :=
          [{ inst := { animationComponentId := "A_1" },
             animations := [("fadeOut", { generatorFunc := fun _ _ => {},
                                          elementRef := Val.null })] }] }
      [scenario]).1
    let pre := AnimatedComponent.componentWillUpdate "A_1" [scenario] s
      [("shouldShow", Val.bool true)] [("shouldShow", Val.bool false)]
    let post := AnimatedComponent.componentDidUpdate "A_1" pre.state [("shouldShow", Val.bool true)]
    pre.threw = false ∧
    pre.state.components.map (fun c => (c.evaluatingAnimations, c.removeCandidate))
      = [(true, true)] ∧
    post.threw = true ∧
    post.state.components.map (fun c => (c.evaluatingAnimations, c.removeCandidate))
      = [(true, true)] := by
  decide

/-- A dispatch effect of a matched scenario with `interrupt`, P7 of the spec.  The entry
of `B_2` is in flight on the master timeline (started, not completed) when `A_1` goes
through a transition that fires a scenario with `interrupt: true`.  The post-transition
hook of `A_1` fast-forwards the timeline before it inserts its own entry: the entry of
`B_2` completes, which empties the running set of `B_2` and forces it to re-render. -/
theorem interrupt_completes_in_flight_entries :
    let scenario : ScenarioConfig :=
      { id := some "intro", interrupt := true
        trigger := some (OneOrMany.one (TriggerConfig.function (fun _ _ _ => Val.bool true)))
        animations := ScenarioAnimations.value (AnimationsValue.str "x") }
    let mounted : State :=
      { components :=
          [{ inst := { animationComponentId := "A_1" },
             animations := [("x", { generatorFunc := fun _ _ => {}, elementRef := Val.null })] },
           { inst := { animationComponentId := "B_2" },
             animations := [("y", { generatorFunc := fun _ _ => {}, elementRef := Val.null })] }] }
    let s := (attachAnimation mounted [scenario]).1
    let inFlight := engineStart TlLoc.master 0
      (addAnimation s (OneOrMany.one (RawAnimationConfig.str "y")) TimelineRef.nullish {}).state
    let post := AnimatedComponent.componentDidUpdate "A_1"
      (AnimatedComponent.componentWillUpdate "A_1" [scenario] inFlight [] []).state []
    inFlight.components.map (fun c => (c.id, c.pendingAnimations, c.runningAnimations)) =
      [("A_1", [], []), ("B_2", [], [some 1])] ∧
    inFlight.master.children.map (fun e => (e.componentId, e.started)) = [("B_2", true)] ∧
    post.threw = false ∧
    post.state.components.map (fun c => (c.id, c.pendingAnimations, c.runningAnimations)) =
      [("A_1", [some 2], []), ("B_2", [], [])] ∧
    post.state.master.children.map (fun e => (e.componentId, e.started)) = [("A_1", false)] ∧
    timelineOps post.state.log =
      [(TlLoc.master, some "B_2"), (TlLoc.master, none), (TlLoc.master, some "A_1")] ∧
    post.state.log.filter (fun e => e matches Event.forceUpdate _) =
      [Event.forceUpdate "B_2"] := by
  decide

/-- The transition hooks when the post-transition hook returns normally.  The
pre-transition hook of a registered component returns normally,
sets its `evaluatingAnimations` to true, sets its `removeCandidate` to true when the
previous `shouldShow` is truthy and the next is falsy and leaves it as it was otherwise,
saves the matched scenario if there is one, and changes no other component.  The
post-transition hook, whenever it returns normally (it always does when no scenario was
matched), leaves the component with `evaluatingAnimations` and `removeCandidate` false;
when no scenario was matched it changes nothing else.  In every case the post-transition
hook leaves the instance, the `animations` and the two flags of every other component as
they were; the dispatch of a matched scenario adds to `pendingAnimations`, and when the
scenario has `interrupt` the fast-forward of its timeline also runs the callbacks of the
entries in flight, which changes the two animation sets; without `interrupt` the
`runningAnimations` of every other component are as they were too. -/
theorem transition_hooks (s : State) (self : String) (c : ComponentData)
    (scenariosConfig : List ScenarioConfig) (props nextProps : Props)
    (hc : s.component self = some c) :
    ((AnimatedComponent.componentWillUpdate self scenariosConfig s props nextProps).threw = false ∧
      (AnimatedComponent.componentWillUpdate self scenariosConfig s props
        nextProps).state.component self =
        some { c with
          inst := { c.inst with
            matchedScenario :=
              match matchScenario c.inst.wrappedComponentRef scenariosConfig props nextProps with
              | some m => some m
              | none => c.inst.matchedScenario }
          evaluatingAnimations := true
          removeCandidate :=
            if (props.get "shouldShow").truthy && !(nextProps.get "shouldShow").truthy then true
            else c.removeCandidate } ∧
      ∀ other, other ≠ self →
        (AnimatedComponent.componentWillUpdate self scenariosConfig s props
          nextProps).state.component other = s.component other) ∧
    (∀ (t : State) (prevProps : Props),
      (AnimatedComponent.componentDidUpdate self t prevProps).threw = false →
      ∃ c1, (AnimatedComponent.componentDidUpdate self t prevProps).state.component self = some c1 ∧
        c1.evaluatingAnimations = false ∧ c1.removeCandidate = false) ∧
    (∀ (t : State) (prevProps : Props) (c0 : ComponentData),
      t.component self = some c0 → c0.inst.matchedScenario = none →
      AnimatedComponent.componentDidUpdate self t prevProps =
        { state := t.updateComponent self (fun c =>
            { c with evaluatingAnimations := false, removeCandidate := false }) } ∧
      ∀ other, other ≠ self →
        (AnimatedComponent.componentDidUpdate self t prevProps).state.component other =
          t.component other) ∧
    (∀ (t : State) (prevProps : Props) (other : String), other ≠ self →
      ((AnimatedComponent.componentDidUpdate self t prevProps).state.component other).map shell =
        (t.component other).map shell) ∧
    (∀ (t : State) (prevProps : Props) (c0 : ComponentData) (m : ScenarioTest),
      t.component self = some c0 → c0.inst.matchedScenario = some m →
      m.scenarioConfig.interrupt = false → ∀ other, other ≠ self →
      ((AnimatedComponent.componentDidUpdate self t prevProps).state.component other).map core =
        (t.component other).map core) := by
  refine ⟨?_, ?_, ?_, ?_, ?_⟩
  · unfold AnimatedComponent.componentWillUpdate
    simp only [hc]
    refine ⟨trivial, ?_, ?_⟩
    · cases hm : matchScenario c.inst.wrappedComponentRef scenariosConfig props nextProps <;>
        cases hshow : ((props.get "shouldShow").truthy && !(nextProps.get "shouldShow").truthy) <;>
        simp only [Bool.false_eq_true, if_false, if_true] <;>
        (repeat rw [updateComponent_component_self _ _ _ ?_]) <;>
        first
          | (rw [hc]; rfl)
          | exact fun _ => rfl
    · intro other hother
      cases hm : matchScenario c.inst.wrappedComponentRef scenariosConfig props nextProps <;>
        cases hshow : ((props.get "shouldShow").truthy && !(nextProps.get "shouldShow").truthy) <;>
        simp only [Bool.false_eq_true, if_false, if_true] <;>
        (repeat rw [updateComponent_component_other _ _ _ _ ?_ hother]) <;>
        exact fun _ => rfl
  · intro t prevProps hthrew
    unfold AnimatedComponent.componentDidUpdate at hthrew ⊢
    cases hc0 : t.component self with
    | none => simp [hc0] at hthrew
    | some c0 =>
      simp only [hc0] at hthrew ⊢
      obtain ⟨_, hsome, _⟩ := dispatchMatched_component self t prevProps c0 hc0
      by_cases hout : (AnimatedComponent.dispatchMatched self t prevProps c0).threw = true
      · simp [hout] at hthrew
      · simp only [hout, Bool.false_eq_true, if_false]
        obtain ⟨c', hc'⟩ := Option.isSome_iff_exists.mp hsome
        refine ⟨{ c' with evaluatingAnimations := false, removeCandidate := false }, ?_, rfl, rfl⟩
        rw [updateComponent_component_self, hc']
        · rfl
        · exact fun _ => rfl
  · intro t prevProps c0 hc0 hnone
    obtain ⟨_, _, heq⟩ := dispatchMatched_component self t prevProps c0 hc0
    have hpost : AnimatedComponent.componentDidUpdate self t prevProps =
        { state := t.updateComponent self (fun c =>
            { c with evaluatingAnimations := false, removeCandidate := false }) } := by
      unfold AnimatedComponent.componentDidUpdate
      simp only [hc0, heq hnone]
      rfl
    refine ⟨hpost, ?_⟩
    intro other hother
    rw [hpost]
    show (State.updateComponent t self _).component other = _
    rw [updateComponent_component_other]
    · exact fun _ => rfl
    · exact hother
  · intro t prevProps other hother
    unfold AnimatedComponent.componentDidUpdate
    cases hc0 : t.component self with
    | none => simp only
    | some c0 =>
      simp only
      obtain ⟨hothers, _, _⟩ := dispatchMatched_component self t prevProps c0 hc0
      split
      · exact hothers other hother
      · show ((State.updateComponent _ self _).component other).map shell = _
        rw [updateComponent_component_other]
        · exact hothers other hother
        · exact fun _ => rfl
        · exact hother
  · intro t prevProps c0 m hc0 hm hint other hother
    unfold AnimatedComponent.componentDidUpdate
    simp only [hc0]
    have hothers := dispatchMatched_core self t prevProps c0 m hm hint other hother
    split
    · exact hothers
    · show ((State.updateComponent _ self _).component other).map core = _
      rw [updateComponent_component_other]
      · exact hothers
      · exact fun _ => rfl
      · exact hother

/-- A component going from shown to hidden, with no scenario declared: after the
pre-transition hook it is evaluating and a remove candidate. -/
theorem transition_hooks_witness :
    (AnimatedComponent.componentWillUpdate "Box_1" []
      { components := [{ inst := { animationComponentId := "Box_1" } }] }
      [("shouldShow", Val.bool true)] [("shouldShow", Val.bool false)]).state.component "Box_1" =
      some { inst := { animationComponentId := "Box_1" }, evaluatingAnimations := true,
             removeCandidate := true } :=
  (transition_hooks { components := [{ inst := { animationComponentId := "Box_1" } }] } "Box_1"
    { inst := { animationComponentId := "Box_1" } } []
    [("shouldShow", Val.bool true)] [("shouldShow", Val.bool false)] rfl).1.2.1

/-! ## C21: the render inside a component's own hide transition -/

theorem componentWillUpdate_self (s : State) (self : String) (c : ComponentData)
    (scenariosConfig : List ScenarioConfig) (props nextProps : Props)
    (hc : s.component self = some c) :
    (AnimatedComponent.componentWillUpdate self scenariosConfig s props nextProps).threw = false ∧
    ∃ c1, (AnimatedComponent.componentWillUpdate self scenariosConfig s props
        nextProps).state.component self = some c1 ∧
      c1.evaluatingAnimations = true ∧
      c1.removeCandidate =
        (((props.get "shouldShow").truthy && !(nextProps.get "shouldShow").truthy) ||
          c.removeCandidate) ∧
      c1.pendingAnimations = c.pendingAnimations ∧
      c1.runningAnimations = c.runningAnimations := by
  unfold AnimatedComponent.componentWillUpdate
  simp only [hc]
  refine ⟨trivial, ?_⟩
  cases hm : matchScenario c.inst.wrappedComponentRef scenariosConfig props nextProps <;>
    cases hshow : ((props.get "shouldShow").truthy && !(nextProps.get "shouldShow").truthy) <;>
    simp only [Bool.false_eq_true, if_false, if_true] <;>
    (repeat rw [updateComponent_component_self _ _ _ ?_]) <;>
    first
      | (rw [hc]; exact ⟨_, rfl, rfl, by simp, rfl, rfl⟩)
      | exact fun _ => rfl

/-- C21: own-transition render.  Take a registered component whose `shouldShow` goes from
truthy (in the props it has when `UNSAFE_componentWillUpdate` runs) to falsy (in the props
it is about to receive), whatever scenarios its class declares and whatever else the
registry holds.  The pre-transition hook returns normally and leaves the component, which
is one of the values of `components`, with `removeCandidate` and `evaluatingAnimations`
both true and with the pending and running sets it had.  In the state the hook leaves,
`render` returns the wrapped element for every props object, the incoming props included:
no pending or running animation and no other component is needed, the component's own
`evaluatingAnimations` satisfies the test over the values of `components`. -/
theorem own_transition_render (s : State) (self : String) (c : ComponentData)
    (scenariosConfig : List ScenarioConfig) (props nextProps : Props)
    (hc : s.component self = some c)
    (hprev : (props.get "shouldShow").truthy = true)
    (hnext : (nextProps.get "shouldShow").truthy = false) :
    (AnimatedComponent.componentWillUpdate self scenariosConfig s props nextProps).threw = false ∧
    (∃ c1, (AnimatedComponent.componentWillUpdate self scenariosConfig s props
          nextProps).state.component self = some c1 ∧
        c1 ∈ (AnimatedComponent.componentWillUpdate self scenariosConfig s props
          nextProps).state.components ∧
        c1.removeCandidate = true ∧ c1.evaluatingAnimations = true ∧
        c1.pendingAnimations = c.pendingAnimations ∧
        c1.runningAnimations = c.runningAnimations) ∧
    ∀ renderProps : Props,
      AnimatedComponent.render
        (AnimatedComponent.componentWillUpdate self scenariosConfig s props nextProps).state
        self renderProps = some (RenderResult.wrapped renderProps) := by
  obtain ⟨hthrew, c1, hc1, hev, hrc, hp, hr⟩ :=
    componentWillUpdate_self s self c scenariosConfig props nextProps hc
  rw [hprev, hnext] at hrc
  have hrc1 : c1.removeCandidate = true := by simpa using hrc
  refine ⟨hthrew, ⟨c1, hc1, component_mem hc1, hrc1, hev, hp, hr⟩, ?_⟩
  intro renderProps
  have hany : (AnimatedComponent.componentWillUpdate self scenariosConfig s props
      nextProps).state.components.any (fun d => d.evaluatingAnimations) = true :=
    List.any_eq_true.mpr ⟨c1, component_mem hc1, hev⟩
  unfold AnimatedComponent.render
  rw [hc1]
  simp only [hany, hrc1]
  cases renderProps.has "shouldShow" <;> simp

/-- A lone component without animations, going from shown to hidden with no scenario
declared.  With the props `shouldShow: false` it renders `null` in the state before the
pre-transition hook, the wrapped element in the state the hook leaves, and `null` again
once the post-transition hook has run. -/
theorem own_transition_render_witness :
    AnimatedComponent.render
      { components := [{ inst := { animationComponentId := "Box_1" } }] }
      "Box_1" [("shouldShow", Val.bool false)] = some RenderResult.null ∧
    AnimatedComponent.render
      (AnimatedComponent.componentWillUpdate "Box_1" []
        { components := [{ inst := { animationComponentId := "Box_1" } }] }
        [("shouldShow", Val.bool true)] [("shouldShow", Val.bool false)]).state
      "Box_1" [("shouldShow", Val.bool false)]
      = some (RenderResult.wrapped [("shouldShow", Val.bool false)]) ∧
    AnimatedComponent.render
      (AnimatedComponent.componentDidUpdate "Box_1"
        (AnimatedComponent.componentWillUpdate "Box_1" []
          { components := [{ inst := { animationComponentId := "Box_1" } }] }
          [("shouldShow", Val.bool true)] [("shouldShow", Val.bool false)]).state
        [("shouldShow", Val.bool true)]).state
      "Box_1" [("shouldShow", Val.bool false)] = some RenderResult.null :=
  ⟨by decide,
    (own_transition_render { components := [{ inst := { animationComponentId := "Box_1" } }] }
      "Box_1" { inst := { animationComponentId := "Box_1" } } []
      [("shouldShow", Val.bool true)] [("shouldShow", Val.bool false)] rfl rfl rfl).2.2 _,
    by decide⟩

end AnimationOrchestrator
